import Mathlib

/-!
# Heater-shaker system task: bootloader fan-out/gather and identify-LED blink loop

A shallow embedding of `stm32-modules/heater-shaker/include/heater-shaker/system_task.hpp`.

* Every `visit_message` overload of `SystemTask` becomes a function on a `Run`:
  the task's own fields together with the trace of the calls the handler made to
  its collaborators (the sibling queues and the policy), in call order.
* The collaborators are not part of the header. Their answers are supplied by an
  `Env`: a script that says what the k-th call of each operation returns. A
  statement quantified over every `Env` covers every behaviour of the queues and
  of the policy.
* Handlers reach the sibling queues through `task_registry`; the embedding names
  the queues directly (`QueueId`) and so describes a task whose registry has been
  provided, as the firmware does before any message is processed.
-/

namespace HeaterShaker

namespace errors

/-- Modelled from the spec: the enum declaration (heater-shaker/errors.hpp) is not
among the sources. The named enumerators are the ones the system task mentions;
`OTHER n` stands for every further enumerator. -/
inductive ErrorCode where
  | NO_ERROR
  | BAD_MESSAGE_ACKNOWLEDGEMENT
  | SYSTEM_LED_I2C_NOT_READY
  | SYSTEM_LED_TRANSMIT_ERROR
  | OTHER (n : Nat)
  deriving DecidableEq, Repr

end errors

open errors

/-- The `LED_MODE` values of systemwide.h that `system_hardware_set_led` switches on. -/
inductive LED_MODE where
  | WHITE_ON
  | WHITE_OFF
  | RED_ON
  | RED_OFF
  deriving DecidableEq, Repr

/-- A serial number, `std::array<char, SYSTEM_WIDE_SERIAL_NUMBER_LENGTH>`. -/
abbrev SerialNumber := List Char

namespace messages

/-- Fields of `messages::EnterBootloaderMessage` used by the system task. -/
structure EnterBootloaderMessage where
  id : Nat
  deriving DecidableEq, Repr

/-- Fields of `messages::SetRPMMessage` as initialised at system_task.hpp:99. -/
structure SetRPMMessage where
  id : Nat
  target_rpm : Int
  from_system : Bool
  deriving DecidableEq, Repr

/-- Fields of `messages::SetTemperatureMessage` as initialised at system_task.hpp:108. -/
structure SetTemperatureMessage where
  id : Nat
  target_temperature : Int
  from_system : Bool
  deriving DecidableEq, Repr

/-- Fields of `messages::ForceUSBDisconnectMessage` (system_task.hpp:117). -/
structure ForceUSBDisconnectMessage where
  id : Nat
  deriving DecidableEq, Repr

/-- The acknowledgement message; a designated initialiser that leaves a field out
value-initialises it (`responding_to_id` 0, `with_error` NO_ERROR). -/
structure AcknowledgePrevious where
  responding_to_id : Nat := 0
  with_error : ErrorCode := ErrorCode.NO_ERROR
  deriving DecidableEq, Repr

/-- The error report routed to host communications. -/
structure ErrorMessage where
  code : ErrorCode
  deriving DecidableEq, Repr

structure SetSerialNumberMessage where
  id : Nat
  serial_number : SerialNumber
  deriving DecidableEq, Repr

structure GetSystemInfoMessage where
  id : Nat
  deriving DecidableEq, Repr

structure GetSystemInfoResponse where
  responding_to_id : Nat
  serial_number : SerialNumber
  fw_version : String
  hw_version : String
  deriving DecidableEq, Repr

structure SetLEDMessage where
  id : Nat
  mode : LED_MODE
  deriving DecidableEq, Repr

structure IdentifyModuleStartLEDMessage where
  id : Nat
  deriving DecidableEq, Repr

structure IdentifyModuleStopLEDMessage where
  id : Nat
  deriving DecidableEq, Repr

structure CheckLEDBlinkStatusMessage where
  deriving DecidableEq, Repr

/-- The variant `messages::SystemMessage`: one alternative per `visit_message`
overload of `SystemTask`. -/
inductive SystemMessage where
  | monostate
  | EnterBootloaderMessage (m : EnterBootloaderMessage)
  | AcknowledgePrevious (m : AcknowledgePrevious)
  | SetSerialNumberMessage (m : SetSerialNumberMessage)
  | GetSystemInfoMessage (m : GetSystemInfoMessage)
  | SetLEDMessage (m : SetLEDMessage)
  | IdentifyModuleStartLEDMessage (m : IdentifyModuleStartLEDMessage)
  | IdentifyModuleStopLEDMessage (m : IdentifyModuleStopLEDMessage)
  | CheckLEDBlinkStatusMessage (m : CheckLEDBlinkStatusMessage)
  deriving DecidableEq, Repr

/-- Every message the system task hands to some queue's `try_send`. -/
inductive Outbound where
  | SetRPMMessage (m : SetRPMMessage)
  | SetTemperatureMessage (m : SetTemperatureMessage)
  | ForceUSBDisconnectMessage (m : ForceUSBDisconnectMessage)
  | AcknowledgePrevious (m : AcknowledgePrevious)
  | ErrorMessage (m : ErrorMessage)
  | GetSystemInfoResponse (m : GetSystemInfoResponse)
  | CheckLEDBlinkStatusMessage (m : CheckLEDBlinkStatusMessage)
  deriving DecidableEq, Repr

end messages

/-! ## Correlation cache -/

namespace ack_cache

/-- The message types a `BootloaderPrepAckCache` can hold: the template arguments of
`AckCache<3, SetTemperatureMessage, SetRPMMessage, ForceUSBDisconnectMessage>`
(system_task.hpp:54-56). -/
inductive Cacheable where
  | SetTemperatureMessage (m : messages.SetTemperatureMessage)
  | SetRPMMessage (m : messages.SetRPMMessage)
  | ForceUSBDisconnectMessage (m : messages.ForceUSBDisconnectMessage)
  deriving DecidableEq, Repr

/-- The variant that `remove_if_present` returns and the acknowledgement handler
visits (system_task.hpp:142-153): `std::monostate`, the not-found alternative, or one
of the cacheable messages. -/
inductive CacheElement where
  | monostate
  | holds (m : Cacheable)
  deriving DecidableEq, Repr

/-- Modelled from the spec: the class template `AckCache` (heater-shaker/ack_cache.hpp)
is not among the sources. Following spec 3 and 4.2 it is a table of capacity `N`
mapping a generated numeric id to the message variant it was issued for.
`entries` holds the live entries, oldest first; `next_id` is the id the next
successful `add` hands out. -/
structure AckCache (N : Nat) where
  next_id : Nat
  entries : List (Nat × Cacheable)
  deriving DecidableEq, Repr

/-- Modelled from the spec: the value `add` returns when it fails. The caller in
system_task.hpp uses the return value of `add` directly as a message id, so the
"cache full" condition is reported in band; 0 is the id every message carries
before it is stamped (system_task.hpp:100, 109, 117). -/
def CACHE_FULL_ID : Nat := 0

/-- Modelled from the spec: a freshly constructed cache (`prep_cache()`), with no
live entry. Ids start above `CACHE_FULL_ID`. -/
def AckCache.new (N : Nat) : AckCache N :=
  { next_id := 1, entries := [] }

/-- Modelled from the spec: `is_empty() -> bool` (the header calls it `empty()`). -/
def AckCache.empty {N : Nat} (c : AckCache N) : Bool :=
  c.entries.isEmpty

/-- The ids currently held by the cache. -/
def AckCache.ids {N : Nat} (c : AckCache N) : List Nat :=
  c.entries.map Prod.fst

/-- Modelled from the spec: `add(message_variant) -> id` "allocates the next free
slot, stores the variant, returns a fresh unique id; fails (reports a cache full
condition) if at capacity", and the failing call does not mutate state. -/
def AckCache.add {N : Nat} (c : AckCache N) (message : Cacheable) : Nat × AckCache N :=
  if c.entries.length < N then
    (c.next_id, { next_id := c.next_id + 1, entries := c.entries ++ [(c.next_id, message)] })
  else
    (CACHE_FULL_ID, c)

/-- Modelled from the spec: the search behind `remove_if_present` (ack_cache.hpp is not
among the sources), lookup-and-erase of the first entry with the given id. -/
def remove_entry (id : Nat) : List (Nat × Cacheable) → CacheElement × List (Nat × Cacheable)
  | [] => (CacheElement.monostate, [])
  | (i, m) :: rest =>
    if i = id then (CacheElement.holds m, rest)
    else ((remove_entry id rest).1, (i, m) :: (remove_entry id rest).2)

/-- Modelled from the spec: `remove_if_present(id)` "atomically removes and returns
the stored variant, or reports not found"; lookups are by exact id match only, and
removing an absent id has no effect. -/
def AckCache.remove_if_present {N : Nat} (c : AckCache N) (id : Nat) : CacheElement × AckCache N :=
  ((remove_entry id c.entries).1, { c with entries := (remove_entry id c.entries).2 })

/-- One call on a cache: `add(message)` or `remove_if_present(id)`. -/
inductive CacheOp where
  | add (message : Cacheable)
  | remove_if_present (id : Nat)
  deriving DecidableEq, Repr

/-- The cache after one call, the returned value dropped. -/
def AckCache.apply {N : Nat} (c : AckCache N) : CacheOp → AckCache N
  | CacheOp.add message => (c.add message).2
  | CacheOp.remove_if_present id => (c.remove_if_present id).2

/-- The cache after a sequence of calls made in order. -/
def AckCache.run_ops {N : Nat} (c : AckCache N) (ops : List CacheOp) : AckCache N :=
  ops.foldl AckCache.apply c

/-- The invariant of a cache that was constructed empty and then only used through
`add` and `remove_if_present`: held ids are pairwise distinct, above `CACHE_FULL_ID`
and below `next_id`, and there are at most `N` of them; `next_id` is above
`CACHE_FULL_ID`. -/
def AckCache.well_formed {N : Nat} (c : AckCache N) : Prop :=
  c.ids.Nodup ∧ (∀ id ∈ c.ids, CACHE_FULL_ID < id ∧ id < c.next_id)
    ∧ CACHE_FULL_ID < c.next_id ∧ c.entries.length ≤ N

instance {N : Nat} (c : AckCache N) : Decidable c.well_formed := by
  unfold AckCache.well_formed
  infer_instance

end ack_cache

/-! ## Collaborators: queues and policy -/

/-- The queues a handler sends to: the motor, heater and host-communications tasks'
queues reached through `task_registry`, and the task's own `message_queue`. -/
inductive QueueId where
  | motor
  | heater
  | comms
  | system
  deriving DecidableEq, Repr

/-- One call made by a handler to a collaborator, with the arguments passed and the
value the collaborator returned. `timeout_ticks` is `none` where the call leaves the
second argument of `try_send` defaulted. -/
inductive Event where
  | try_send (queue : QueueId) (message : messages.Outbound) (timeout_ticks : Option Nat)
      (accepted : Bool)
  | enter_bootloader
  | set_serial_number (serial_number : SerialNumber) (result : ErrorCode)
  | get_serial_number (result : SerialNumber)
  | check_I2C_ready (result : Bool)
  | start_set_led (mode : LED_MODE) (result : ErrorCode)
  | delay_time_ms (ms : Nat)
  deriving DecidableEq, Repr

/-- The answers of the collaborators during one handler run. Each operation is
indexed by the number of earlier calls of the same operation in the run (for
`try_send`: earlier calls on the same queue), so any behaviour of real queues and
of a real policy is some `Env`. -/
structure Env where
  try_send : QueueId → Nat → Bool
  check_I2C_ready : Nat → Bool
  start_set_led : Nat → LED_MODE → ErrorCode
  set_serial_number : Nat → SerialNumber → ErrorCode
  get_serial_number : Nat → SerialNumber
  fw_version : String
  hw_version : String

/-- Number of `try_send` calls on queue `q` in a trace. -/
def sends_on (q : QueueId) : List Event → Nat
  | [] => 0
  | Event.try_send q' _ _ _ :: es => (if q' = q then 1 else 0) + sends_on q es
  | _ :: es => sends_on q es

/-- Number of `check_I2C_ready` calls in a trace. -/
def ready_checks : List Event → Nat
  | [] => 0
  | Event.check_I2C_ready _ :: es => 1 + ready_checks es
  | _ :: es => ready_checks es

/-- Number of `start_set_led` calls in a trace. -/
def led_commands : List Event → Nat
  | [] => 0
  | Event.start_set_led _ _ :: es => 1 + led_commands es
  | _ :: es => led_commands es

/-- Number of `set_serial_number` calls in a trace. -/
def serial_writes : List Event → Nat
  | [] => 0
  | Event.set_serial_number _ _ :: es => 1 + serial_writes es
  | _ :: es => serial_writes es

/-- Number of `get_serial_number` calls in a trace. -/
def serial_reads : List Event → Nat
  | [] => 0
  | Event.get_serial_number _ :: es => 1 + serial_reads es
  | _ :: es => serial_reads es

/-- Number of `enter_bootloader` calls in a trace. -/
def bootloader_entries : List Event → Nat
  | [] => 0
  | Event.enter_bootloader :: es => 1 + bootloader_entries es
  | _ :: es => bootloader_entries es

/-- Number of `delay_time_ms` calls in a trace. -/
def delays : List Event → Nat
  | [] => 0
  | Event.delay_time_ms _ :: es => 1 + delays es
  | _ :: es => delays es

/-- The messages handed to `try_send` on queue `q`, in call order, whether or not
the queue accepted them. -/
def sent_to (q : QueueId) : List Event → List messages.Outbound
  | [] => []
  | Event.try_send q' m _ _ :: es => if q' = q then m :: sent_to q es else sent_to q es
  | _ :: es => sent_to q es

/-- The `try_send` calls of a trace, in call order: target queue and message. -/
def send_attempts : List Event → List (QueueId × messages.Outbound)
  | [] => []
  | Event.try_send q m _ _ :: es => (q, m) :: send_attempts es
  | _ :: es => send_attempts es

/-- The modes passed to `start_set_led`, in call order. -/
def led_modes : List Event → List LED_MODE
  | [] => []
  | Event.start_set_led mode _ :: es => mode :: led_modes es
  | _ :: es => led_modes es

/-- The messages queue `q` accepted, in call order. -/
def accepted_by (q : QueueId) : List Event → List messages.Outbound
  | [] => []
  | Event.try_send q' m _ true :: es =>
    if q' = q then m :: accepted_by q es else accepted_by q es
  | _ :: es => accepted_by q es

/-! ## The system task -/

namespace system_task

open messages ack_cache

/-- The enum `LEDBlinkState::LEDBlinkTaskStatus`. -/
inductive LEDBlinkTaskStatus where
  | BLINK_OFF
  | BLINK_ON_WAITING
  | BLINK_OFF_WAITING
  deriving DecidableEq, Repr

structure LEDBlinkState where
  status : LEDBlinkTaskStatus
  deriving DecidableEq, Repr

def LED_BLINK_WAIT_MS : Nat := 500

abbrev BootloaderPrepAckCache := AckCache 3

/-- The data members of `SystemTask`. `message_queue` is `QueueId.system`;
`task_registry` is the pointer handed to `provide_tasks` (`none` for `nullptr`). -/
structure SystemTask where
  led_blink_state : LEDBlinkState
  task_registry : Option Nat
  prep_cache : BootloaderPrepAckCache
  deriving DecidableEq, Repr

/-- The constructor `SystemTask(Queue& q)`. -/
def SystemTask.new : SystemTask :=
  { led_blink_state := { status := LEDBlinkTaskStatus.BLINK_OFF },
    task_registry := none,
    prep_cache := AckCache.new 3 }

def SystemTask.provide_tasks (t : SystemTask) (other_tasks : Option Nat) : SystemTask :=
  { t with task_registry := other_tasks }

/-- A handler run in progress: the task and the collaborator calls made so far. -/
structure Run where
  task : SystemTask
  trace : List Event
  deriving DecidableEq, Repr

/-- Start of a handler run on `task`. -/
def Run.start (task : SystemTask) : Run :=
  { task := task, trace := [] }

/-- The call `queue.try_send(message, timeout_ticks)`: the queue's answer and the run
with the call recorded. -/
def Run.try_send (env : Env) (r : Run) (q : QueueId) (message : Outbound)
    (timeout_ticks : Option Nat) : Bool × Run :=
  (env.try_send q (sends_on q r.trace),
   { r with trace := r.trace ++
       [Event.try_send q message timeout_ticks (env.try_send q (sends_on q r.trace))] })

def Run.enter_bootloader (r : Run) : Run :=
  { r with trace := r.trace ++ [Event.enter_bootloader] }

def Run.set_serial_number (env : Env) (r : Run) (sn : SerialNumber) : ErrorCode × Run :=
  (env.set_serial_number (serial_writes r.trace) sn,
   { r with trace := r.trace ++
       [Event.set_serial_number sn (env.set_serial_number (serial_writes r.trace) sn)] })

def Run.get_serial_number (env : Env) (r : Run) : SerialNumber × Run :=
  (env.get_serial_number (serial_reads r.trace),
   { r with trace := r.trace ++
       [Event.get_serial_number (env.get_serial_number (serial_reads r.trace))] })

def Run.check_I2C_ready (env : Env) (r : Run) : Bool × Run :=
  (env.check_I2C_ready (ready_checks r.trace),
   { r with trace := r.trace ++
       [Event.check_I2C_ready (env.check_I2C_ready (ready_checks r.trace))] })

def Run.start_set_led (env : Env) (r : Run) (mode : LED_MODE) : ErrorCode × Run :=
  (env.start_set_led (led_commands r.trace) mode,
   { r with trace := r.trace ++
       [Event.start_set_led mode (env.start_set_led (led_commands r.trace) mode)] })

def Run.delay_time_ms (r : Run) (ms : Nat) : Run :=
  { r with trace := r.trace ++ [Event.delay_time_ms ms] }

/-- The call `prep_cache.add(message)`. -/
def Run.prep_cache_add (r : Run) (message : Cacheable) : Nat × Run :=
  ((r.task.prep_cache.add message).1,
   { r with task := { r.task with prep_cache := (r.task.prep_cache.add message).2 } })

/-- The call `prep_cache.remove_if_present(id)`. -/
def Run.prep_cache_remove_if_present (r : Run) (id : Nat) : CacheElement × Run :=
  ((r.task.prep_cache.remove_if_present id).1,
   { r with task := { r.task with prep_cache := (r.task.prep_cache.remove_if_present id).2 } })

def Run.set_status (r : Run) (status : LEDBlinkTaskStatus) : Run :=
  { r with task := { r.task with led_blink_state := { status := status } } }

/-- The overload `visit_message(const messages::EnterBootloaderMessage&, Policy&)`,
system_task.hpp:91-135. -/
def visit_message_EnterBootloaderMessage (env : Env) (message : EnterBootloaderMessage)
    (r : Run) : Run :=
  let stop_message : SetRPMMessage := { id := 0, target_rpm := 0, from_system := true }
  let stop_id := (r.prep_cache_add (Cacheable.SetRPMMessage stop_message)).1
  let r := (r.prep_cache_add (Cacheable.SetRPMMessage stop_message)).2
  let stop_message := { stop_message with id := stop_id }
  let stop_sent := (r.try_send env QueueId.motor (Outbound.SetRPMMessage stop_message) (some 1)).1
  let r := (r.try_send env QueueId.motor (Outbound.SetRPMMessage stop_message) (some 1)).2
  let r := if !stop_sent then (r.prep_cache_remove_if_present stop_id).2 else r
  let cool_message : SetTemperatureMessage :=
    { id := 0, target_temperature := 0, from_system := true }
  let cool_id := (r.prep_cache_add (Cacheable.SetTemperatureMessage cool_message)).1
  let r := (r.prep_cache_add (Cacheable.SetTemperatureMessage cool_message)).2
  let cool_message := { cool_message with id := cool_id }
  let cool_sent :=
    (r.try_send env QueueId.heater (Outbound.SetTemperatureMessage cool_message) (some 1)).1
  let r := (r.try_send env QueueId.heater (Outbound.SetTemperatureMessage cool_message) (some 1)).2
  let r := if !cool_sent then (r.prep_cache_remove_if_present cool_id).2 else r
  let disconnect_message : ForceUSBDisconnectMessage := { id := 0 }
  let disconnect_id :=
    (r.prep_cache_add (Cacheable.ForceUSBDisconnectMessage disconnect_message)).1
  let r := (r.prep_cache_add (Cacheable.ForceUSBDisconnectMessage disconnect_message)).2
  let disconnect_message := { disconnect_message with id := disconnect_id }
  let disconnect_sent :=
    (r.try_send env QueueId.comms (Outbound.ForceUSBDisconnectMessage disconnect_message)
      (some 1)).1
  let r :=
    (r.try_send env QueueId.comms (Outbound.ForceUSBDisconnectMessage disconnect_message)
      (some 1)).2
  let r := if !disconnect_sent then (r.prep_cache_remove_if_present disconnect_id).2 else r
  let ack_message : AcknowledgePrevious := { responding_to_id := message.id }
  let r := (r.try_send env QueueId.comms (Outbound.AcknowledgePrevious ack_message) (some 1)).2
  if r.task.prep_cache.empty then r.enter_bootloader else r

/-- The statement pattern the fan-out repeats for each target (system_task.hpp:99-106,
108-115, 117-123), used to reason about the handler one leg at a time: register
`cached`, stamp the request with the returned id, `try_send` it with a wait of 1, and
retract the entry if the queue rejected it. -/
def fan_out_leg (env : Env) (r : Run) (q : QueueId) (cached : Cacheable)
    (stamp : Nat → Outbound) : Run :=
  let id := (r.prep_cache_add cached).1
  let r := (r.prep_cache_add cached).2
  let sent := (r.try_send env q (stamp id) (some 1)).1
  let r := (r.try_send env q (stamp id) (some 1)).2
  if !sent then (r.prep_cache_remove_if_present id).2 else r

/-- The visitor lambda of system_task.hpp:145-153 applied to the removed cache entry. -/
def ack_error_result (message : AcknowledgePrevious) : CacheElement → ErrorCode
  | CacheElement.monostate => ErrorCode.BAD_MESSAGE_ACKNOWLEDGEMENT
  | CacheElement.holds _ => message.with_error

/-- The overload `visit_message(const messages::AcknowledgePrevious&, Policy&)`,
system_task.hpp:139-164. -/
def visit_message_AcknowledgePrevious (env : Env) (message : AcknowledgePrevious)
    (r : Run) : Run :=
  let cache_entry := (r.prep_cache_remove_if_present message.responding_to_id).1
  let r := (r.prep_cache_remove_if_present message.responding_to_id).2
  let error_result := ack_error_result message cache_entry
  let r :=
    if error_result ≠ ErrorCode.NO_ERROR then
      let error_message : ErrorMessage := { code := error_result }
      (r.try_send env QueueId.comms (Outbound.ErrorMessage error_message) (some 1)).2
    else r
  if r.task.prep_cache.empty then r.enter_bootloader else r

/-- The overload for `SetSerialNumberMessage`, system_task.hpp:166-174. -/
def visit_message_SetSerialNumberMessage (env : Env) (msg : SetSerialNumberMessage)
    (r : Run) : Run :=
  let response : AcknowledgePrevious := { responding_to_id := msg.id }
  let with_error := (r.set_serial_number env msg.serial_number).1
  let r := (r.set_serial_number env msg.serial_number).2
  let response := { response with with_error := with_error }
  (r.try_send env QueueId.comms (Outbound.AcknowledgePrevious response) none).2

/-- The overload for `GetSystemInfoMessage`, system_task.hpp:176-186. -/
def visit_message_GetSystemInfoMessage (env : Env) (msg : GetSystemInfoMessage)
    (r : Run) : Run :=
  let serial_number := (r.get_serial_number env).1
  let r := (r.get_serial_number env).2
  let response : GetSystemInfoResponse :=
    { responding_to_id := msg.id,
      serial_number := serial_number,
      fw_version := env.fw_version,
      hw_version := env.hw_version }
  (r.try_send env QueueId.comms (Outbound.GetSystemInfoResponse response) none).2

/-- The overload for `SetLEDMessage`, system_task.hpp:188-200. -/
def visit_message_SetLEDMessage (env : Env) (msg : SetLEDMessage) (r : Run) : Run :=
  let response : AcknowledgePrevious := { responding_to_id := msg.id }
  let ready := (r.check_I2C_ready env).1
  let r := (r.check_I2C_ready env).2
  let with_error :=
    if !ready then ErrorCode.SYSTEM_LED_I2C_NOT_READY else (r.start_set_led env msg.mode).1
  let r := if !ready then r else (r.start_set_led env msg.mode).2
  let response := { response with with_error := with_error }
  (r.try_send env QueueId.comms (Outbound.AcknowledgePrevious response) none).2

/-- The overload for `IdentifyModuleStartLEDMessage`, system_task.hpp:202-218. -/
def visit_message_IdentifyModuleStartLEDMessage (env : Env)
    (msg : IdentifyModuleStartLEDMessage) (r : Run) : Run :=
  let response : AcknowledgePrevious := { responding_to_id := msg.id }
  let ready := (r.check_I2C_ready env).1
  let r := (r.check_I2C_ready env).2
  let with_error :=
    if !ready then ErrorCode.SYSTEM_LED_I2C_NOT_READY
    else (r.start_set_led env LED_MODE.WHITE_ON).1
  let r := if !ready then r else (r.start_set_led env LED_MODE.WHITE_ON).2
  let response := { response with with_error := with_error }
  let r := r.set_status LEDBlinkTaskStatus.BLINK_ON_WAITING
  let r := (r.try_send env QueueId.comms (Outbound.AcknowledgePrevious response) none).2
  let r := r.delay_time_ms LED_BLINK_WAIT_MS
  (r.try_send env QueueId.system (Outbound.CheckLEDBlinkStatusMessage {}) none).2

/-- The overload for `IdentifyModuleStopLEDMessage`, system_task.hpp:220-233. -/
def visit_message_IdentifyModuleStopLEDMessage (env : Env)
    (msg : IdentifyModuleStopLEDMessage) (r : Run) : Run :=
  let response : AcknowledgePrevious := { responding_to_id := msg.id }
  let ready := (r.check_I2C_ready env).1
  let r := (r.check_I2C_ready env).2
  let with_error :=
    if !ready then ErrorCode.SYSTEM_LED_I2C_NOT_READY
    else (r.start_set_led env LED_MODE.WHITE_OFF).1
  let r := if !ready then r else (r.start_set_led env LED_MODE.WHITE_OFF).2
  let response := { response with with_error := with_error }
  let r := r.set_status LEDBlinkTaskStatus.BLINK_OFF
  (r.try_send env QueueId.comms (Outbound.AcknowledgePrevious response) none).2

/-- The overload for `CheckLEDBlinkStatusMessage`, system_task.hpp:235-278. -/
def visit_message_CheckLEDBlinkStatusMessage (env : Env) (_msg : CheckLEDBlinkStatusMessage)
    (r : Run) : Run :=
  let bStatus := true
  if r.task.led_blink_state.status = LEDBlinkTaskStatus.BLINK_ON_WAITING
      ∨ r.task.led_blink_state.status = LEDBlinkTaskStatus.BLINK_OFF_WAITING then
    let ready := (r.check_I2C_ready env).1
    let r := (r.check_I2C_ready env).2
    let bStatus := if !ready then false else bStatus
    let r :=
      if !ready then
        (r.try_send env QueueId.comms
          (Outbound.AcknowledgePrevious { with_error := ErrorCode.SYSTEM_LED_I2C_NOT_READY })
          none).2
      else r
    if bStatus then
      let p : Bool × Run :=
        if r.task.led_blink_state.status = LEDBlinkTaskStatus.BLINK_ON_WAITING then
          let result := (r.start_set_led env LED_MODE.WHITE_OFF).1
          let r := (r.start_set_led env LED_MODE.WHITE_OFF).2
          let bStatus := if result ≠ ErrorCode.NO_ERROR then false else bStatus
          let r :=
            if result ≠ ErrorCode.NO_ERROR then
              (r.try_send env QueueId.comms
                (Outbound.AcknowledgePrevious
                  { with_error := ErrorCode.SYSTEM_LED_TRANSMIT_ERROR })
                none).2
            else r
          let r := if bStatus then r.set_status LEDBlinkTaskStatus.BLINK_OFF_WAITING else r
          (bStatus, r)
        else if r.task.led_blink_state.status = LEDBlinkTaskStatus.BLINK_OFF_WAITING then
          let result := (r.start_set_led env LED_MODE.WHITE_ON).1
          let r := (r.start_set_led env LED_MODE.WHITE_ON).2
          let bStatus := if result ≠ ErrorCode.NO_ERROR then false else bStatus
          let r :=
            if result ≠ ErrorCode.NO_ERROR then
              (r.try_send env QueueId.comms
                (Outbound.AcknowledgePrevious
                  { with_error := ErrorCode.SYSTEM_LED_TRANSMIT_ERROR })
                none).2
            else r
          let r := if bStatus then r.set_status LEDBlinkTaskStatus.BLINK_ON_WAITING else r
          (bStatus, r)
        else (bStatus, r)
      let bStatus := p.1
      let r := p.2
      if bStatus then
        let r := r.delay_time_ms LED_BLINK_WAIT_MS
        (r.try_send env QueueId.system (Outbound.CheckLEDBlinkStatusMessage {}) none).2
      else r
    else r
  else r

/-- The overload for `std::monostate`, system_task.hpp:280-285. -/
def visit_message_monostate (_env : Env) (r : Run) : Run :=
  r

/-- The dispatch `std::visit(visit_helper, message)` of `run_once`. -/
def visit_message (env : Env) (message : SystemMessage) (r : Run) : Run :=
  match message with
  | SystemMessage.monostate => visit_message_monostate env r
  | SystemMessage.EnterBootloaderMessage m => visit_message_EnterBootloaderMessage env m r
  | SystemMessage.AcknowledgePrevious m => visit_message_AcknowledgePrevious env m r
  | SystemMessage.SetSerialNumberMessage m => visit_message_SetSerialNumberMessage env m r
  | SystemMessage.GetSystemInfoMessage m => visit_message_GetSystemInfoMessage env m r
  | SystemMessage.SetLEDMessage m => visit_message_SetLEDMessage env m r
  | SystemMessage.IdentifyModuleStartLEDMessage m =>
    visit_message_IdentifyModuleStartLEDMessage env m r
  | SystemMessage.IdentifyModuleStopLEDMessage m =>
    visit_message_IdentifyModuleStopLEDMessage env m r
  | SystemMessage.CheckLEDBlinkStatusMessage m =>
    visit_message_CheckLEDBlinkStatusMessage env m r

/-- The member `run_once`: `message` starts as `std::monostate`, `recv` overwrites it
with what the queue delivers (`received`), and the message is dispatched. The result
is the task after the handler and the calls the handler made. -/
def run_once (env : Env) (received : Option SystemMessage) (task : SystemTask) : Run :=
  let message := SystemMessage.monostate
  let message := match received with
    | some m => m
    | none => message
  visit_message env message (Run.start task)

/-- The dispatch loop on a list of deliveries: each message is handled by `run_once` on
the task left by the previous one, with its own collaborator script. The result lists
the run of every message, in order. -/
def handle_all : List (Env × SystemMessage) → SystemTask → List Run
  | [], _ => []
  | (env, message) :: rest, task =>
    run_once env (some message) task :: handle_all rest (run_once env (some message) task).task

/-- The ids of the graceful-stop requests (SetRPM, SetTemperature, ForceUSBDisconnect)
that a queue accepted, in call order. -/
def accepted_leg_ids : List Event → List Nat
  | [] => []
  | Event.try_send _ (Outbound.SetRPMMessage m) _ true :: es => m.id :: accepted_leg_ids es
  | Event.try_send _ (Outbound.SetTemperatureMessage m) _ true :: es =>
    m.id :: accepted_leg_ids es
  | Event.try_send _ (Outbound.ForceUSBDisconnectMessage m) _ true :: es =>
    m.id :: accepted_leg_ids es
  | _ :: es => accepted_leg_ids es

/-- The ids of the graceful-stop requests handed to `try_send`, accepted or not, in
call order. -/
def leg_ids : List Event → List Nat
  | [] => []
  | Event.try_send _ (Outbound.SetRPMMessage m) _ _ :: es => m.id :: leg_ids es
  | Event.try_send _ (Outbound.SetTemperatureMessage m) _ _ :: es => m.id :: leg_ids es
  | Event.try_send _ (Outbound.ForceUSBDisconnectMessage m) _ _ :: es => m.id :: leg_ids es
  | _ :: es => leg_ids es

/-- The `try_send` calls of a trace that carry an `AcknowledgePrevious`, with their
target queue, in call order. -/
def acknowledgements : List Event → List (QueueId × AcknowledgePrevious)
  | [] => []
  | Event.try_send q (Outbound.AcknowledgePrevious m) _ _ :: es => (q, m) :: acknowledgements es
  | _ :: es => acknowledgements es

/-- A collaborator script in which the queues answer by `accept`, the hardware link
answers `ready`, and every policy call that returns an error code returns `led`. -/
def scripted (accept : QueueId → Nat → Bool) (ready : Bool) (led : ErrorCode) : Env :=
  { try_send := accept,
    check_I2C_ready := fun _ => ready,
    start_set_led := fun _ _ => led,
    set_serial_number := fun _ _ => ErrorCode.NO_ERROR,
    get_serial_number := fun _ => [],
    fw_version := "",
    hw_version := "" }

/-- A script in which every queue rejects every message. -/
def all_rejected : Env :=
  scripted (fun _ _ => false) true ErrorCode.NO_ERROR

/-- A script in which every queue accepts every message. -/
def all_accepted : Env :=
  scripted (fun _ _ => true) true ErrorCode.NO_ERROR

/-- A script in which only the heater queue rejects. -/
def heater_rejects : Env :=
  scripted (fun q _ => decide (q ≠ QueueId.heater)) true ErrorCode.NO_ERROR

/-- A script in which every queue accepts and the hardware link is not ready. -/
def link_not_ready : Env :=
  scripted (fun _ _ => true) false ErrorCode.NO_ERROR

/-- A script in which every queue accepts, the hardware link is ready and
`start_set_led` returns an error. -/
def led_transmit_fails : Env :=
  scripted (fun _ _ => true) true (ErrorCode.OTHER 3)

/-- A freshly constructed task put into the given blink phase. -/
def task_in_phase (status : LEDBlinkTaskStatus) : SystemTask :=
  { SystemTask.new with led_blink_state := { status := status } }

end system_task

end HeaterShaker

/-! # Thermocycler-refresh: error strings

An embedding of `thermocycler-refresh/include/thermocycler-refresh/errors.hpp` and
`thermocycler-refresh/src/errors.cpp`. -/

namespace ThermocyclerRefresh

namespace errors

/-- The enum class `errors::ErrorCode` (errors.hpp:9-18). -/
inductive ErrorCode where
  | NO_ERROR
  | USB_TX_OVERRUN
  | INTERNAL_QUEUE_FULL
  | UNHANDLED_GCODE
  | GCODE_CACHE_FULL
  | BAD_MESSAGE_ACKNOWLEDGEMENT
  | SYSTEM_SERIAL_NUMBER_INVALID
  | SYSTEM_SERIAL_NUMBER_HAL_ERROR
  deriving DecidableEq, Repr

/-- The numeric value the enum declaration gives each enumerator. -/
def ErrorCode.value : ErrorCode → Int
  | ErrorCode.NO_ERROR => 0
  | ErrorCode.USB_TX_OVERRUN => 1
  | ErrorCode.INTERNAL_QUEUE_FULL => 2
  | ErrorCode.UNHANDLED_GCODE => 3
  | ErrorCode.GCODE_CACHE_FULL => 4
  | ErrorCode.BAD_MESSAGE_ACKNOWLEDGEMENT => 5
  | ErrorCode.SYSTEM_SERIAL_NUMBER_INVALID => 301
  | ErrorCode.SYSTEM_SERIAL_NUMBER_HAL_ERROR => 302

def NO_ERROR : String := ""

def USB_TX_OVERRUN : String := "ERR001:tx buffer overrun\n"

def INTERNAL_QUEUE_FULL : String := "ERR002:internal queue full\n"

def UNHANDLED_GCODE : String := "ERR003:unhandled gcode\n"

def GCODE_CACHE_FULL : String := "ERR004:gcode cache full\n"

def BAD_MESSAGE_ACKNOWLEDGEMENT : String := "ERR005:bad message acknowledgement\n"

def SYSTEM_SERIAL_NUMBER_INVALID : String := "ERR301:system:serial number invalid format\n"

def SYSTEM_SERIAL_NUMBER_HAL_ERROR : String := "ERR302:system:HAL error, busy, or timeout\n"

def UNKNOWN_ERROR : String := "ERR-1:unknown error code\n"

/-- The function `errors::errorstring` (errors.cpp:24-36) on the underlying integer of
its argument: the switch has one case per enumerator, and any other value of the
enum's underlying type falls through to `return UNKNOWN_ERROR`. -/
def errorstring (code : Int) : String :=
  if code = ErrorCode.NO_ERROR.value then NO_ERROR
  else if code = ErrorCode.USB_TX_OVERRUN.value then USB_TX_OVERRUN
  else if code = ErrorCode.INTERNAL_QUEUE_FULL.value then INTERNAL_QUEUE_FULL
  else if code = ErrorCode.UNHANDLED_GCODE.value then UNHANDLED_GCODE
  else if code = ErrorCode.GCODE_CACHE_FULL.value then GCODE_CACHE_FULL
  else if code = ErrorCode.BAD_MESSAGE_ACKNOWLEDGEMENT.value then BAD_MESSAGE_ACKNOWLEDGEMENT
  else if code = ErrorCode.SYSTEM_SERIAL_NUMBER_INVALID.value then SYSTEM_SERIAL_NUMBER_INVALID
  else if code = ErrorCode.SYSTEM_SERIAL_NUMBER_HAL_ERROR.value then
    SYSTEM_SERIAL_NUMBER_HAL_ERROR
  else UNKNOWN_ERROR

/-- A number below 1000 written as three decimal digits. -/
def three_digits (n : Nat) : String :=
  String.mk [Char.ofNat (48 + n / 100 % 10), Char.ofNat (48 + n / 10 % 10),
    Char.ofNat (48 + n % 10)]

end errors

end ThermocyclerRefresh

/-! # Thermocycler-refresh: TMC2130 registers

An embedding of `include/thermocycler-refresh/thermocycler-refresh/tmc2130.hpp`.

`set_register` and `get_register` move a register struct to and from a `uint64_t` with
`reinterpret_cast`. The structs are `__attribute__((packed))` bit-field structs; with
the compiler the firmware is built with (GCC, little-endian target) the first declared
bit-field occupies the least significant bits and the fields follow one another without
gaps. The embedding makes that layout explicit: `pack` and `unpack`. A one-bit field is
a `Bool`; a wider unsigned field is a `Nat` of which the field keeps the low `width`
bits; the signed field `sgt` is an `Int` kept in two's complement. -/

namespace ThermocyclerRefresh

namespace tmc2130

/-- The enum class `Registers` (tmc2130.hpp:18-50). -/
inductive Registers where
  | GCONF
  | GSTAT
  | IOIN
  | IHOLD_IRUN
  | TPOWERDOWN
  | TSTEP
  | TPWMTHRS
  | TCOOLTHRS
  | THIGH
  | XDIRECT
  | VDCMIN
  | CHOPCONF
  | COOLCONF
  | DCCTRL
  | DRVSTATUS
  | PWMCONF
  | ENCM_CTRL
  | MSLUT_0
  | MSLUT_1
  | MSLUT_2
  | MSLUT_3
  | MSLUT_4
  | MSLUT_5
  | MSLUT_6
  | MSLUT_7
  | MSLUTSEL
  | MSLUTSTART
  | MSCNT
  | MSCURACT
  | PWM_SCALE
  | LOST_STEPS
  deriving DecidableEq, Repr

/-- The register address each enumerator stands for. -/
def Registers.value : Registers → Nat
  | Registers.GCONF => 0x00
  | Registers.GSTAT => 0x01
  | Registers.IOIN => 0x04
  | Registers.IHOLD_IRUN => 0x10
  | Registers.TPOWERDOWN => 0x11
  | Registers.TSTEP => 0x12
  | Registers.TPWMTHRS => 0x13
  | Registers.TCOOLTHRS => 0x14
  | Registers.THIGH => 0x15
  | Registers.XDIRECT => 0x2D
  | Registers.VDCMIN => 0x33
  | Registers.CHOPCONF => 0x6C
  | Registers.COOLCONF => 0x6D
  | Registers.DCCTRL => 0x6E
  | Registers.DRVSTATUS => 0x6F
  | Registers.PWMCONF => 0x70
  | Registers.ENCM_CTRL => 0x72
  | Registers.MSLUT_0 => 0x60
  | Registers.MSLUT_1 => 0x61
  | Registers.MSLUT_2 => 0x62
  | Registers.MSLUT_3 => 0x63
  | Registers.MSLUT_4 => 0x64
  | Registers.MSLUT_5 => 0x65
  | Registers.MSLUT_6 => 0x66
  | Registers.MSLUT_7 => 0x67
  | Registers.MSLUTSEL => 0x68
  | Registers.MSLUTSTART => 0x69
  | Registers.MSCNT => 0x6A
  | Registers.MSCURACT => 0x6B
  | Registers.PWM_SCALE => 0x71
  | Registers.LOST_STEPS => 0x73

/-- The bit-fields of a struct placed least significant first: field `i` has width
`widths[i]` and keeps the low `widths[i]` bits of `values[i]` (0 if there is no such
value). -/
def pack : List Nat → List Nat → Nat
  | [], _ => 0
  | w :: ws, vs => vs.headD 0 % 2 ^ w + 2 ^ w * pack ws vs.tail

/-- The bit-fields read back from a raw value, least significant first. -/
def unpack : List Nat → Nat → List Nat
  | [], _ => []
  | w :: ws, raw => raw % 2 ^ w :: unpack ws (raw / 2 ^ w)

/-- The value a one-bit field reads as. -/
def bit_of (x : Nat) : Bool :=
  x % 2 == 1

/-- What describes a register struct to `set_register` and `get_register`: the static
members `address`, `readable`, `writable`, `bitlen`, and the declared bit-fields in
declaration order (`widths`, and the conversion between the struct and its field
values). -/
structure RegisterInfo (Reg : Type) where
  address : Registers
  readable : Bool
  writable : Bool
  bitlen : Nat
  widths : List Nat
  to_fields : Reg → List Nat
  of_fields : List Nat → Reg

/-- The struct `GConfig` (tmc2130.hpp:52-76). -/
structure GConfig where
  i_scale_analog : Bool := false
  internal_rsense : Bool := false
  en_pwm_mode : Bool := false
  enc_commutation : Bool := false
  shaft : Bool := false
  diag0_error : Bool := false
  diag0_otpw : Bool := false
  diag0_stall : Bool := false
  diag1_stall : Bool := false
  diag1_index : Bool := false
  diag1_onstate : Bool := false
  diag1_steps_skipped : Bool := false
  diag0_int_pushpull : Bool := false
  diag1_pushpull : Bool := false
  small_hysteresis : Bool := false
  stop_enable : Bool := false
  direct_mode : Bool := false
  test_mode : Bool := false
  deriving DecidableEq, Repr

def GConfig.info : RegisterInfo GConfig :=
  { address := Registers.GCONF,
    readable := true,
    writable := true,
    bitlen := 17,
    widths := [1, 1, 1, 1, 1, 1, 1, 1, 1, 1, 1, 1, 1, 1, 1, 1, 1, 1],
    to_fields := fun r =>
      [r.i_scale_analog.toNat, r.internal_rsense.toNat, r.en_pwm_mode.toNat,
       r.enc_commutation.toNat, r.shaft.toNat, r.diag0_error.toNat, r.diag0_otpw.toNat,
       r.diag0_stall.toNat, r.diag1_stall.toNat, r.diag1_index.toNat,
       r.diag1_onstate.toNat, r.diag1_steps_skipped.toNat, r.diag0_int_pushpull.toNat,
       r.diag1_pushpull.toNat, r.small_hysteresis.toNat, r.stop_enable.toNat,
       r.direct_mode.toNat, r.test_mode.toNat],
    of_fields := fun fs =>
      { i_scale_analog := bit_of (fs.getD 0 0),
        internal_rsense := bit_of (fs.getD 1 0),
        en_pwm_mode := bit_of (fs.getD 2 0),
        enc_commutation := bit_of (fs.getD 3 0),
        shaft := bit_of (fs.getD 4 0),
        diag0_error := bit_of (fs.getD 5 0),
        diag0_otpw := bit_of (fs.getD 6 0),
        diag0_stall := bit_of (fs.getD 7 0),
        diag1_stall := bit_of (fs.getD 8 0),
        diag1_index := bit_of (fs.getD 9 0),
        diag1_onstate := bit_of (fs.getD 10 0),
        diag1_steps_skipped := bit_of (fs.getD 11 0),
        diag0_int_pushpull := bit_of (fs.getD 12 0),
        diag1_pushpull := bit_of (fs.getD 13 0),
        small_hysteresis := bit_of (fs.getD 14 0),
        stop_enable := bit_of (fs.getD 15 0),
        direct_mode := bit_of (fs.getD 16 0),
        test_mode := bit_of (fs.getD 17 0) } }

/-- The struct `GStatus` (tmc2130.hpp:78-87). -/
structure GStatus where
  reset : Bool := false
  driver_error : Bool := false
  undervoltage_error : Bool := false
  deriving DecidableEq, Repr

def GStatus.info : RegisterInfo GStatus :=
  { address := Registers.GSTAT,
    readable := true,
    writable := false,
    bitlen := 3,
    widths := [1, 1, 1],
    to_fields := fun r => [r.reset.toNat, r.driver_error.toNat, r.undervoltage_error.toNat],
    of_fields := fun fs =>
      { reset := bit_of (fs.getD 0 0),
        driver_error := bit_of (fs.getD 1 0),
        undervoltage_error := bit_of (fs.getD 2 0) } }

/-- The struct `CurrentControl` (tmc2130.hpp:89-100). -/
structure CurrentControl where
  hold_current : Nat := 0
  bit_padding_1 : Nat := 0
  run_current : Nat := 0
  bit_padding_2 : Nat := 0
  hold_current_delay : Nat := 0
  deriving DecidableEq, Repr

def CurrentControl.info : RegisterInfo CurrentControl :=
  { address := Registers.IHOLD_IRUN,
    readable := false,
    writable := true,
    bitlen := 20,
    widths := [5, 3, 5, 3, 4],
    to_fields := fun r =>
      [r.hold_current, r.bit_padding_1, r.run_current, r.bit_padding_2,
       r.hold_current_delay],
    of_fields := fun fs =>
      { hold_current := fs.getD 0 0,
        bit_padding_1 := fs.getD 1 0,
        run_current := fs.getD 2 0,
        bit_padding_2 := fs.getD 3 0,
        hold_current_delay := fs.getD 4 0 } }

/-- The data member of the struct `PowerDownDelay` (tmc2130.hpp:105-128), a whole
`uint8_t`. -/
structure PowerDownDelay where
  time : Nat := 0
  deriving DecidableEq, Repr

def PowerDownDelay.info : RegisterInfo PowerDownDelay :=
  { address := Registers.TPOWERDOWN,
    readable := false,
    writable := true,
    bitlen := 8,
    widths := [8],
    to_fields := fun r => [r.time],
    of_fields := fun fs => { time := fs.getD 0 0 } }

/-! ### Double arithmetic of `PowerDownDelay`

`seconds` and `set_time` compute in `double`. A finite double is taken as the rational
number it stands for (`x` is a double when `to_double x = x`), and every operation of
the source is the exact operation followed by `to_double`, the IEEE-754 binary64
rounding to nearest with ties to even, subnormals included. Infinities and NaN are not
arguments here, and overflow to infinity is not modelled: a result would have to reach
`2 ^ 1024` in magnitude, while `set_time` rejects every argument above 4 before it
computes anything and, for an argument that far below zero, converts a value outside
the range of `uint8_t`, which is undefined either way. -/

/-- Rounding to the nearest integer, ties to the even one. -/
def round_half_even (t : ℚ) : ℤ :=
  if t - ⌊t⌋ < 1 / 2 then ⌊t⌋
  else if 1 / 2 < t - ⌊t⌋ then ⌊t⌋ + 1
  else if ⌊t⌋ % 2 = 0 then ⌊t⌋
  else ⌊t⌋ + 1

/-- The exponent `e` of the binary64 binade `[2 ^ e, 2 ^ (e + 1))` that holds `|x|`; the
lowest one, -1022, also holds zero and the subnormals. -/
def binade (x : ℚ) : ℤ :=
  if x = 0 then -1022 else max (Int.log 2 |x|) (-1022)

/-- The distance between neighbouring binary64 values in the binade of `x` (52 fraction
bits). -/
def quantum (x : ℚ) : ℚ :=
  2 ^ (binade x - 52)

/-- The binary64 value nearest to `x`, ties to even: what a `double` operation whose
exact result is `x` returns. -/
def to_double (x : ℚ) : ℚ :=
  round_half_even (x / quantum x) * quantum x

/-- The conversion `static_cast<uint8_t>` of a double: the value truncated toward zero
if that fits a `uint8_t`, and no result (undefined behaviour in C++) otherwise. -/
def to_uint8 (x : ℚ) : Option Nat :=
  if -1 < x ∧ x < 256 then some (if 0 ≤ x then ⌊x⌋ else ⌈x⌉).toNat else none

/-- The constant `PowerDownDelay::max_time` (tmc2130.hpp:111), `4.0F` as a double. -/
def PowerDownDelay.max_time : ℚ := 4

/-- The constant `PowerDownDelay::max_val` (tmc2130.hpp:112). -/
def PowerDownDelay.max_val : Nat := 0xFF

/-- The member `PowerDownDelay::seconds` (tmc2130.hpp:114-117): a double division and a
double multiplication; the conversions of `time` and `max_val` to double are exact. -/
def PowerDownDelay.seconds (r : PowerDownDelay) : ℚ :=
  to_double
    (to_double ((r.time : ℚ) / (PowerDownDelay.max_val : ℚ)) * PowerDownDelay.max_time)

/-- The member `PowerDownDelay::set_time` (tmc2130.hpp:118-125), for a finite argument:
the returned flag and the struct afterwards, or nothing where the conversion to
`uint8_t` is undefined. -/
def PowerDownDelay.set_time (r : PowerDownDelay) (seconds : ℚ) :
    Option (Bool × PowerDownDelay) :=
  if seconds > PowerDownDelay.max_time then some (false, r)
  else
    match to_uint8 (to_double (to_double (seconds / PowerDownDelay.max_time)
        * (PowerDownDelay.max_val : ℚ))) with
    | some t => some (true, { r with time := t })
    | none => none

/-- The struct `TCoolThreshold` (tmc2130.hpp:134-141). -/
structure TCoolThreshold where
  threshold : Nat := 0
  deriving DecidableEq, Repr

def TCoolThreshold.info : RegisterInfo TCoolThreshold :=
  { address := Registers.TCOOLTHRS,
    readable := false,
    writable := true,
    bitlen := 20,
    widths := [20],
    to_fields := fun r => [r.threshold],
    of_fields := fun fs => { threshold := fs.getD 0 0 } }

/-- The struct `THigh` (tmc2130.hpp:148-155). -/
structure THigh where
  threshold : Nat := 0
  deriving DecidableEq, Repr

def THigh.info : RegisterInfo THigh :=
  { address := Registers.THIGH,
    readable := false,
    writable := true,
    bitlen := 20,
    widths := [20],
    to_fields := fun r => [r.threshold],
    of_fields := fun fs => { threshold := fs.getD 0 0 } }

/-- The struct `ChopConfig` (tmc2130.hpp:161-268). -/
structure ChopConfig where
  toff : Nat := 0
  hstrt : Nat := 0
  hend : Nat := 0
  fd3 : Bool := false
  disfdcc : Bool := false
  rndtf : Bool := false
  chm : Bool := false
  tbl : Nat := 2
  vsense : Bool := false
  vhighfs : Bool := false
  vhighchm : Bool := false
  sync : Nat := 0
  mres : Nat := 0
  intpol : Bool := false
  dedge : Bool := false
  diss2g : Bool := false
  deriving DecidableEq, Repr

def ChopConfig.info : RegisterInfo ChopConfig :=
  { address := Registers.CHOPCONF,
    readable := false,
    writable := true,
    bitlen := 31,
    widths := [4, 3, 4, 1, 1, 1, 1, 2, 1, 1, 1, 4, 4, 1, 1, 1],
    to_fields := fun r =>
      [r.toff, r.hstrt, r.hend, r.fd3.toNat, r.disfdcc.toNat, r.rndtf.toNat, r.chm.toNat,
       r.tbl, r.vsense.toNat, r.vhighfs.toNat, r.vhighchm.toNat, r.sync, r.mres,
       r.intpol.toNat, r.dedge.toNat, r.diss2g.toNat],
    of_fields := fun fs =>
      { toff := fs.getD 0 0,
        hstrt := fs.getD 1 0,
        hend := fs.getD 2 0,
        fd3 := bit_of (fs.getD 3 0),
        disfdcc := bit_of (fs.getD 4 0),
        rndtf := bit_of (fs.getD 5 0),
        chm := bit_of (fs.getD 6 0),
        tbl := fs.getD 7 0,
        vsense := bit_of (fs.getD 8 0),
        vhighfs := bit_of (fs.getD 9 0),
        vhighchm := bit_of (fs.getD 10 0),
        sync := fs.getD 11 0,
        mres := fs.getD 12 0,
        intpol := bit_of (fs.getD 13 0),
        dedge := bit_of (fs.getD 14 0),
        diss2g := bit_of (fs.getD 15 0) } }

/-- The struct `CoolConf` (tmc2130.hpp:274-344). `sgt` is declared `int8_t sgt : 7`. -/
structure CoolConf where
  semin : Nat := 0
  padding_1 : Bool := false
  seup : Nat := 0
  padding_2 : Bool := false
  semax : Nat := 0
  padding_3 : Bool := false
  sedn : Nat := 0
  seimin : Bool := false
  sgt : Int := 0
  padding_4 : Bool := false
  sfilt : Bool := false
  deriving DecidableEq, Repr

def CoolConf.info : RegisterInfo CoolConf :=
  { address := Registers.COOLCONF,
    readable := false,
    writable := true,
    bitlen := 25,
    widths := [4, 1, 2, 1, 4, 1, 2, 1, 7, 1, 1],
    to_fields := fun r =>
      [r.semin, r.padding_1.toNat, r.seup, r.padding_2.toNat, r.semax, r.padding_3.toNat,
       r.sedn, r.seimin.toNat, (r.sgt % 128).toNat, r.padding_4.toNat, r.sfilt.toNat],
    of_fields := fun fs =>
      { semin := fs.getD 0 0,
        padding_1 := bit_of (fs.getD 1 0),
        seup := fs.getD 2 0,
        padding_2 := bit_of (fs.getD 3 0),
        semax := fs.getD 4 0,
        padding_3 := bit_of (fs.getD 5 0),
        sedn := fs.getD 6 0,
        seimin := bit_of (fs.getD 7 0),
        sgt := if fs.getD 8 0 < 64 then (fs.getD 8 0 : Int) else (fs.getD 8 0 : Int) - 128,
        padding_4 := bit_of (fs.getD 9 0),
        sfilt := bit_of (fs.getD 10 0) } }

/-- The part of a `RegisterInfo` that does not depend on the struct type: the static
members and the total number of declared bit-field bits. -/
structure RegisterStatic where
  address : Registers
  readable : Bool
  writable : Bool
  bitlen : Nat
  field_bits : Nat
  deriving DecidableEq, Repr

def RegisterInfo.static {Reg : Type} (info : RegisterInfo Reg) : RegisterStatic :=
  { address := info.address,
    readable := info.readable,
    writable := info.writable,
    bitlen := info.bitlen,
    field_bits := info.widths.sum }

/-- Every register struct the header declares. -/
def register_structs : List RegisterStatic :=
  [GConfig.info.static, GStatus.info.static, CurrentControl.info.static,
   PowerDownDelay.info.static, TCoolThreshold.info.static, THigh.info.static,
   ChopConfig.info.static, CoolConf.info.static]

/-- The concept `TMC2130Policy`: `write_register` and `read_register`, with the
policy's own state passed explicitly. Values are `uint64_t`. -/
structure TMC2130Policy (σ : Type) where
  write_register : Registers → Nat → σ → Bool × σ
  read_register : Registers → σ → Option Nat × σ

/-- The member `TMC2130::set_register` (tmc2130.hpp:382-388). `_writable` is the
`static_assert(Reg::writable)`. The 64-bit load through the cast pointer reads the
declared bit-fields in its low bits; `beyond` stands for whatever the load finds above
them (padding bits of the struct and the bytes that follow it in memory). -/
def set_register {Reg σ : Type} (info : RegisterInfo Reg) (policy : TMC2130Policy σ)
    (_writable : info.writable = true) (reg : Reg) (beyond : Nat) (s : σ) : Bool × σ :=
  let serialized :=
    (pack info.widths (info.to_fields reg) + 2 ^ info.widths.sum * beyond) % 2 ^ 64
  let serialized := serialized &&& ((1 <<< info.bitlen) % 2 ^ 64 - 1)
  policy.write_register info.address serialized s

/-- The member `TMC2130::get_register` (tmc2130.hpp:398-407). `_readable` is the
`static_assert(Reg::readable)`. -/
def get_register {Reg σ : Type} (info : RegisterInfo Reg) (policy : TMC2130Policy σ)
    (_readable : info.readable = true) (s : σ) : Option Reg × σ :=
  let ret := (policy.read_register info.address s).1
  let s := (policy.read_register info.address s).2
  match ret with
  | none => (none, s)
  | some value => (some (info.of_fields (unpack info.widths value)), s)

/-- A policy for examples: a register file in which every write succeeds and a read
returns the value last written to the address, or nothing if it was never written. -/
def register_file : TMC2130Policy (Registers → Option Nat) :=
  { write_register := fun addr value s => (true, fun a => if a = addr then some value else s a),
    read_register := fun addr s => (s addr, s) }

end tmc2130

end ThermocyclerRefresh

/-! # Theorems -/

namespace HeaterShaker

open errors messages ack_cache system_task

/-! ## The fan-out, one leg at a time -/

/-- The EnterBootloaderMessage handler is three legs, the acknowledgement of the
request, and the final emptiness check. -/
theorem visit_EnterBootloaderMessage_legs (env : Env) (message : EnterBootloaderMessage)
    (r : Run) :
    visit_message_EnterBootloaderMessage env message r
      = (let r1 := fan_out_leg env r QueueId.motor
            (Cacheable.SetRPMMessage { id := 0, target_rpm := 0, from_system := true })
            (fun id => Outbound.SetRPMMessage { id := id, target_rpm := 0, from_system := true })
         let r2 := fan_out_leg env r1 QueueId.heater
            (Cacheable.SetTemperatureMessage
              { id := 0, target_temperature := 0, from_system := true })
            (fun id => Outbound.SetTemperatureMessage
              { id := id, target_temperature := 0, from_system := true })
         let r3 := fan_out_leg env r2 QueueId.comms
            (Cacheable.ForceUSBDisconnectMessage { id := 0 })
            (fun id => Outbound.ForceUSBDisconnectMessage { id := id })
         let r4 := (r3.try_send env QueueId.comms
            (Outbound.AcknowledgePrevious { responding_to_id := message.id }) (some 1)).2
         if r4.task.prep_cache.empty then r4.enter_bootloader else r4) :=
  rfl

theorem fan_out_leg_trace (env : Env) (r : Run) (q : QueueId) (cached : Cacheable)
    (stamp : Nat → Outbound) :
    (fan_out_leg env r q cached stamp).trace
      = r.trace ++ [Event.try_send q (stamp (r.task.prep_cache.add cached).1) (some 1)
          (env.try_send q (sends_on q r.trace))] := by
  simp only [fan_out_leg, Run.prep_cache_add, Run.try_send, Run.prep_cache_remove_if_present]
  split_ifs <;> rfl

theorem fan_out_leg_task (env : Env) (r : Run) (q : QueueId) (cached : Cacheable)
    (stamp : Nat → Outbound) :
    (fan_out_leg env r q cached stamp).task
      = { r.task with
          prep_cache :=
            if env.try_send q (sends_on q r.trace) = true then (r.task.prep_cache.add cached).2
            else ((r.task.prep_cache.add cached).2.remove_if_present
              (r.task.prep_cache.add cached).1).2 } := by
  simp only [fan_out_leg, Run.prep_cache_add, Run.try_send, Run.prep_cache_remove_if_present]
  cases env.try_send q (sends_on q r.trace) <;> simp

theorem sends_on_append (q : QueueId) (xs ys : List Event) :
    sends_on q (xs ++ ys) = sends_on q xs + sends_on q ys := by
  induction xs with
  | nil => simp [sends_on]
  | cons e rest ih => cases e <;> simp [sends_on, ih, Nat.add_assoc]

theorem send_attempts_append (xs ys : List Event) :
    send_attempts (xs ++ ys) = send_attempts xs ++ send_attempts ys := by
  induction xs with
  | nil => simp [send_attempts]
  | cons e rest ih => cases e <;> simp [send_attempts, ih]

theorem acknowledgements_append (xs ys : List Event) :
    acknowledgements (xs ++ ys) = acknowledgements xs ++ acknowledgements ys := by
  induction xs with
  | nil => simp [acknowledgements]
  | cons e rest ih =>
    cases e with
    | try_send q m t b => cases m <;> simp [acknowledgements, ih]
    | _ => simp [acknowledgements, ih]

/-- The calls made by the EnterBootloaderMessage handler on any task: the three
graceful-stop requests, each stamped with the id its `add` returned, the
acknowledgement of the request, and `enter_bootloader` if the cache is empty at the
end. -/
theorem visit_EnterBootloaderMessage_trace (env : Env) (message : EnterBootloaderMessage)
    (task : SystemTask) :
    ∃ tail : List Event, (tail = [] ∨ tail = [Event.enter_bootloader]) ∧
    (visit_message_EnterBootloaderMessage env message (Run.start task)).trace
      = [Event.try_send QueueId.motor
          (Outbound.SetRPMMessage
            { id := (task.prep_cache.add
                (Cacheable.SetRPMMessage { id := 0, target_rpm := 0, from_system := true })).1,
              target_rpm := 0, from_system := true })
          (some 1) (env.try_send QueueId.motor 0),
         Event.try_send QueueId.heater
          (Outbound.SetTemperatureMessage
            { id := ((fan_out_leg env (Run.start task) QueueId.motor
                (Cacheable.SetRPMMessage { id := 0, target_rpm := 0, from_system := true })
                (fun id => Outbound.SetRPMMessage
                  { id := id, target_rpm := 0, from_system := true })).task.prep_cache.add
                (Cacheable.SetTemperatureMessage
                  { id := 0, target_temperature := 0, from_system := true })).1,
              target_temperature := 0, from_system := true })
          (some 1) (env.try_send QueueId.heater 0),
         Event.try_send QueueId.comms
          (Outbound.ForceUSBDisconnectMessage
            { id := ((fan_out_leg env
                (fan_out_leg env (Run.start task) QueueId.motor
                  (Cacheable.SetRPMMessage { id := 0, target_rpm := 0, from_system := true })
                  (fun id => Outbound.SetRPMMessage
                    { id := id, target_rpm := 0, from_system := true }))
                QueueId.heater
                (Cacheable.SetTemperatureMessage
                  { id := 0, target_temperature := 0, from_system := true })
                (fun id => Outbound.SetTemperatureMessage
                  { id := id, target_temperature := 0, from_system := true })).task.prep_cache.add
                (Cacheable.ForceUSBDisconnectMessage { id := 0 })).1 })
          (some 1) (env.try_send QueueId.comms 0),
         Event.try_send QueueId.comms
          (Outbound.AcknowledgePrevious { responding_to_id := message.id })
          (some 1) (env.try_send QueueId.comms 1)] ++ tail := by
  rw [visit_EnterBootloaderMessage_legs]
  simp only []
  split_ifs
  · refine ⟨[Event.enter_bootloader], Or.inr rfl, ?_⟩
    simp [Run.enter_bootloader, Run.try_send, fan_out_leg_trace, Run.start, sends_on_append,
      sends_on]
  · refine ⟨[], Or.inl rfl, ?_⟩
    simp [Run.try_send, fan_out_leg_trace, Run.start, sends_on_append, sends_on]

theorem add_id_of_room {N : Nat} (c : AckCache N) (m : Cacheable)
    (h : c.entries.length < N) :
    (c.add m).1 = c.next_id ∧ (c.add m).2.next_id = c.next_id + 1 := by
  simp [AckCache.add, h]

theorem remove_if_present_next_id {N : Nat} (c : AckCache N) (id : Nat) :
    (c.remove_if_present id).2.next_id = c.next_id :=
  rfl

/-! ## Facts about the correlation cache and the acknowledgement handler -/

theorem remove_entry_absent (id : Nat) (es : List (Nat × Cacheable))
    (h : id ∉ es.map Prod.fst) : remove_entry id es = (CacheElement.monostate, es) := by
  induction es with
  | nil => rfl
  | cons e rest ih =>
    obtain ⟨i, m⟩ := e
    simp only [List.map_cons, List.mem_cons, not_or] at h
    have hne : ¬ i = id := fun hi => h.1 hi.symm
    simp [remove_entry, hne, ih h.2]

theorem remove_entry_present (id : Nat) (es : List (Nat × Cacheable))
    (h : id ∈ es.map Prod.fst) : ∃ m, (remove_entry id es).1 = CacheElement.holds m := by
  induction es with
  | nil => simp at h
  | cons e rest ih =>
    obtain ⟨i, m⟩ := e
    by_cases hi : i = id
    · exact ⟨m, by simp [remove_entry, hi]⟩
    · have hrest : id ∈ rest.map Prod.fst := by
        simp only [List.map_cons, List.mem_cons] at h
        rcases h with h | h
        · exact absurd h.symm hi
        · exact h
      obtain ⟨m', hm'⟩ := ih hrest
      exact ⟨m', by simp [remove_entry, hi, hm']⟩

theorem remove_entry_ids (id : Nat) (es : List (Nat × Cacheable)) :
    (remove_entry id es).2.map Prod.fst = (es.map Prod.fst).erase id := by
  induction es with
  | nil => rfl
  | cons e rest ih =>
    obtain ⟨i, m⟩ := e
    by_cases hi : i = id
    · simp [remove_entry, hi]
    · simp [remove_entry, hi, ih, List.erase_cons_tail]

/-- The acknowledgement handler, started on a task, written out: the task it leaves and
the calls it makes. -/
theorem visit_AcknowledgePrevious_eq (env : Env) (message : AcknowledgePrevious)
    (task : SystemTask) :
    visit_message_AcknowledgePrevious env message (Run.start task)
      = { task := { task with
            prep_cache := (task.prep_cache.remove_if_present message.responding_to_id).2 },
          trace :=
            (if ack_error_result message
                  (task.prep_cache.remove_if_present message.responding_to_id).1
                ≠ ErrorCode.NO_ERROR then
              [Event.try_send QueueId.comms
                (Outbound.ErrorMessage
                  { code := ack_error_result message
                      (task.prep_cache.remove_if_present message.responding_to_id).1 })
                (some 1) (env.try_send QueueId.comms 0)]
            else [])
            ++ (if (task.prep_cache.remove_if_present message.responding_to_id).2.empty
                then [Event.enter_bootloader] else []) } := by
  simp only [visit_message_AcknowledgePrevious, Run.start, Run.prep_cache_remove_if_present,
    Run.try_send, Run.enter_bootloader]
  split_ifs <;> simp_all [sends_on]

theorem bootloader_entries_append (xs ys : List Event) :
    bootloader_entries (xs ++ ys) = bootloader_entries xs + bootloader_entries ys := by
  induction xs with
  | nil => simp [bootloader_entries]
  | cons e rest ih => cases e <;> simp [bootloader_entries, ih, Nat.add_assoc]

/-- The acknowledgement handler calls `enter_bootloader` once if the cache is empty
after the removal and not at all otherwise. -/
theorem ack_bootloader_entries (env : Env) (message : AcknowledgePrevious)
    (task : SystemTask) :
    bootloader_entries (visit_message_AcknowledgePrevious env message (Run.start task)).trace
      = if (task.prep_cache.ids.erase message.responding_to_id) = [] then 1 else 0 := by
  rw [visit_AcknowledgePrevious_eq]
  have hempty : (task.prep_cache.remove_if_present message.responding_to_id).2.empty
      = decide (task.prep_cache.ids.erase message.responding_to_id = []) := by
    have hlist : ∀ l : List (Nat × Cacheable), l.isEmpty = decide (l.map Prod.fst = []) := by
      intro l
      cases l <;> simp
    simp only [AckCache.empty, AckCache.remove_if_present, AckCache.ids, ← remove_entry_ids]
    exact hlist _
  simp only [bootloader_entries_append, hempty]
  split_ifs <;> simp_all [bootloader_entries]

theorem ack_cache_ids (env : Env) (message : AcknowledgePrevious) (task : SystemTask) :
    (visit_message_AcknowledgePrevious env message (Run.start task)).task.prep_cache.ids
      = task.prep_cache.ids.erase message.responding_to_id := by
  rw [visit_AcknowledgePrevious_eq]
  simp [AckCache.ids, AckCache.remove_if_present, remove_entry_ids]

/-- Gathering on any cache whose ids are pairwise distinct: when acknowledgements for
exactly the held ids are handled one after the other, in any order, only the last one
calls `enter_bootloader`. -/
theorem gather_on_distinct_ids (acks : List (Env × AcknowledgePrevious)) :
    ∀ task : SystemTask, task.prep_cache.ids.Nodup → task.prep_cache.ids ≠ [] →
      (acks.map (fun a => a.2.responding_to_id)).Perm task.prep_cache.ids →
      (handle_all (acks.map (fun a => (a.1, SystemMessage.AcknowledgePrevious a.2))) task).map
          (fun r => bootloader_entries r.trace)
        = List.replicate (acks.length - 1) 0 ++ [1] := by
  induction acks with
  | nil =>
    intro task _ hne hperm
    exact absurd (List.Perm.eq_nil (List.Perm.symm hperm)) hne
  | cons a rest ih =>
    intro task hnodup _ hperm
    have hrest : (rest.map (fun a => a.2.responding_to_id)).Perm
        (task.prep_cache.ids.erase a.2.responding_to_id) := by
      have h := List.Perm.erase a.2.responding_to_id hperm
      simpa using h
    simp only [List.map_cons, handle_all, run_once, visit_message, List.length_cons,
      Nat.add_sub_cancel]
    rw [ack_bootloader_entries]
    by_cases hlast : task.prep_cache.ids.erase a.2.responding_to_id = []
    · rw [hlast] at hrest
      have hnil : rest = [] := by
        have := List.Perm.eq_nil hrest
        simpa using this
      subst hnil
      simp [hlast, handle_all]
    · have hlen : rest.length ≠ 0 := by
        intro h0
        have : rest = [] := List.length_eq_zero.mp h0
        subst this
        exact hlast (List.Perm.eq_nil (List.Perm.symm hrest))
      have hih := ih (visit_message_AcknowledgePrevious a.1 a.2 (Run.start task)).task
        (by rw [ack_cache_ids]; exact List.Nodup.erase _ hnodup)
        (by rw [ack_cache_ids]; exact hlast)
        (by rw [ack_cache_ids]; exact hrest)
      rw [hih]
      simp only [hlast, if_false]
      obtain ⟨k, hk⟩ := Nat.exists_eq_succ_of_ne_zero hlen
      simp [hk, List.replicate_succ]

/-- After a fan-out from an empty cache the cache holds the ids of the accepted
requests, and they are pairwise distinct. -/
theorem fan_out_cache_ids (env : Env) (message : EnterBootloaderMessage) (task : SystemTask)
    (hempty : task.prep_cache.empty = true) :
    (visit_message_EnterBootloaderMessage env message (Run.start task)).task.prep_cache.ids
        = accepted_leg_ids
            (visit_message_EnterBootloaderMessage env message (Run.start task)).trace
      ∧ (visit_message_EnterBootloaderMessage env message
          (Run.start task)).task.prep_cache.ids.Nodup
      ∧ bootloader_entries
          (visit_message_EnterBootloaderMessage env message (Run.start task)).trace
        = if accepted_leg_ids
            (visit_message_EnterBootloaderMessage env message (Run.start task)).trace = []
          then 1 else 0 := by
  obtain ⟨led, reg, ⟨n, entries⟩⟩ := task
  simp only [AckCache.empty, List.isEmpty_iff] at hempty
  subst hempty
  have a1 : ¬ n = n + 1 := by omega
  have a2 : ¬ n = n + 1 + 1 := by omega
  have a3 : ¬ n + 1 = n + 1 + 1 := by omega
  cases h1 : env.try_send QueueId.motor 0 <;> cases h2 : env.try_send QueueId.heater 0 <;>
    cases h3 : env.try_send QueueId.comms 0 <;>
  simp [visit_message_EnterBootloaderMessage, Run.start, Run.prep_cache_add, Run.try_send,
    Run.prep_cache_remove_if_present, AckCache.add, AckCache.remove_if_present, remove_entry,
    AckCache.empty, AckCache.ids, Run.enter_bootloader, sends_on, accepted_leg_ids,
    bootloader_entries, h1, h2, h3, a1, a2, a3]

/-! ## Bootloader-entry fan-out -/

/-- C1. Starting from an empty correlation cache, if the motor, heater and comms
queues all reject their graceful-stop request, the EnterBootloaderMessage handler
calls `enter_bootloader` exactly once, as the last thing it does, and the cache is
empty when it returns. -/
theorem enter_bootloader_fires_when_all_legs_rejected (env : Env)
    (message : EnterBootloaderMessage) (task : SystemTask)
    (hempty : task.prep_cache.empty = true)
    (hmotor : env.try_send QueueId.motor 0 = false)
    (hheater : env.try_send QueueId.heater 0 = false)
    (hcomms : env.try_send QueueId.comms 0 = false) :
    bootloader_entries
        (visit_message_EnterBootloaderMessage env message (Run.start task)).trace = 1
      ∧ (visit_message_EnterBootloaderMessage env message (Run.start task)).trace.getLast?
          = some Event.enter_bootloader
      ∧ accepted_leg_ids
          (visit_message_EnterBootloaderMessage env message (Run.start task)).trace = []
      ∧ (visit_message_EnterBootloaderMessage env message
          (Run.start task)).task.prep_cache.empty = true := by
  obtain ⟨led, reg, ⟨n, entries⟩⟩ := task
  simp only [AckCache.empty, List.isEmpty_iff] at hempty
  subst hempty
  simp [visit_message_EnterBootloaderMessage, Run.start, Run.prep_cache_add, Run.try_send,
    Run.prep_cache_remove_if_present, AckCache.add, AckCache.remove_if_present, remove_entry,
    AckCache.empty, Run.enter_bootloader, sends_on, bootloader_entries, accepted_leg_ids,
    hmotor, hheater, hcomms]

/-- Witness for C1: a freshly constructed task and queues that reject everything. -/
theorem enter_bootloader_fires_when_all_legs_rejected_witness :
    (SystemTask.new).prep_cache.empty = true
      ∧ all_rejected.try_send QueueId.motor 0 = false
      ∧ all_rejected.try_send QueueId.heater 0 = false
      ∧ all_rejected.try_send QueueId.comms 0 = false
      ∧ bootloader_entries
          (visit_message_EnterBootloaderMessage all_rejected { id := 7 }
            (Run.start SystemTask.new)).trace = 1 :=
  ⟨rfl, rfl, rfl, rfl,
    (enter_bootloader_fires_when_all_legs_rejected all_rejected { id := 7 } SystemTask.new
      rfl rfl rfl rfl).1⟩

/-- C2. Starting from an empty correlation cache, if at least one of the three
graceful-stop requests is accepted by its queue, the EnterBootloaderMessage handler
does not call `enter_bootloader`, and when it returns the cache holds exactly the ids
of the accepted requests. -/
theorem enter_bootloader_waits_when_some_leg_accepted (env : Env)
    (message : EnterBootloaderMessage) (task : SystemTask)
    (hempty : task.prep_cache.empty = true)
    (hsome : env.try_send QueueId.motor 0 = true ∨ env.try_send QueueId.heater 0 = true
      ∨ env.try_send QueueId.comms 0 = true) :
    bootloader_entries
        (visit_message_EnterBootloaderMessage env message (Run.start task)).trace = 0
      ∧ (visit_message_EnterBootloaderMessage env message (Run.start task)).task.prep_cache.ids
          = accepted_leg_ids
              (visit_message_EnterBootloaderMessage env message (Run.start task)).trace
      ∧ accepted_leg_ids
          (visit_message_EnterBootloaderMessage env message (Run.start task)).trace ≠ [] := by
  obtain ⟨led, reg, ⟨n, entries⟩⟩ := task
  simp only [AckCache.empty, List.isEmpty_iff] at hempty
  subst hempty
  have a1 : ¬ n = n + 1 := by omega
  have a2 : ¬ n = n + 1 + 1 := by omega
  have a3 : ¬ n + 1 = n + 1 + 1 := by omega
  cases h1 : env.try_send QueueId.motor 0 <;> cases h2 : env.try_send QueueId.heater 0 <;>
    cases h3 : env.try_send QueueId.comms 0 <;>
  simp [h1, h2, h3] at hsome <;>
  simp [visit_message_EnterBootloaderMessage, Run.start, Run.prep_cache_add, Run.try_send,
    Run.prep_cache_remove_if_present, AckCache.add, AckCache.remove_if_present, remove_entry,
    AckCache.empty, AckCache.ids, Run.enter_bootloader, sends_on, bootloader_entries,
    accepted_leg_ids, h1, h2, h3, a1, a2, a3]

/-- Witness for C2: a freshly constructed task, heater queue rejecting. -/
theorem enter_bootloader_waits_when_some_leg_accepted_witness :
    (SystemTask.new).prep_cache.empty = true
      ∧ heater_rejects.try_send QueueId.motor 0 = true
      ∧ (visit_message_EnterBootloaderMessage heater_rejects { id := 7 }
          (Run.start SystemTask.new)).task.prep_cache.ids
          = accepted_leg_ids
              (visit_message_EnterBootloaderMessage heater_rejects { id := 7 }
                (Run.start SystemTask.new)).trace :=
  ⟨rfl, rfl,
    (enter_bootloader_waits_when_some_leg_accepted heater_rejects { id := 7 } SystemTask.new
      rfl (Or.inl rfl)).2.1⟩

/-! ## Gather -/

/-- C3. Starting from an empty cache, let an EnterBootloaderMessage be handled with at
least one graceful-stop request accepted. Then the fan-out itself does not call
`enter_bootloader`, and when AcknowledgePrevious messages for exactly the accepted
requests' ids are handled afterwards, in any order, with any `with_error` and any
behaviour of the collaborators, `enter_bootloader` is called while handling the last
of them and while handling none of the earlier ones. -/
theorem gather_fires_on_last_acknowledgement (env : Env) (message : EnterBootloaderMessage)
    (task : SystemTask) (acks : List (Env × AcknowledgePrevious))
    (hempty : task.prep_cache.empty = true)
    (hsome : accepted_leg_ids
      (run_once env (some (SystemMessage.EnterBootloaderMessage message)) task).trace ≠ [])
    (hperm : (acks.map (fun a => a.2.responding_to_id)).Perm
      (accepted_leg_ids
        (run_once env (some (SystemMessage.EnterBootloaderMessage message)) task).trace)) :
    bootloader_entries
        (run_once env (some (SystemMessage.EnterBootloaderMessage message)) task).trace = 0
      ∧ (handle_all (acks.map (fun a => (a.1, SystemMessage.AcknowledgePrevious a.2)))
          (run_once env (some (SystemMessage.EnterBootloaderMessage message)) task).task).map
            (fun r => bootloader_entries r.trace)
          = List.replicate (acks.length - 1) 0 ++ [1] := by
  simp only [run_once, visit_message] at hsome hperm ⊢
  have hids := fan_out_cache_ids env message task hempty
  refine ⟨?_, ?_⟩
  · rw [hids.2.2, if_neg hsome]
  · apply gather_on_distinct_ids acks _ hids.2.1
    · rw [hids.1]; exact hsome
    · rw [hids.1]; exact hperm

/-- Witness for C3: after a fan-out in which the heater queue rejected, the
acknowledgements for the two accepted requests arrive in reverse order, the first of
them carrying an error. -/
theorem gather_fires_on_last_acknowledgement_witness :
    (SystemTask.new).prep_cache.empty = true
      ∧ accepted_leg_ids
          (run_once heater_rejects (some (SystemMessage.EnterBootloaderMessage { id := 7 }))
            SystemTask.new).trace = [1, 3]
      ∧ (handle_all
          [(all_rejected, SystemMessage.AcknowledgePrevious
              { responding_to_id := 3, with_error := ErrorCode.OTHER 9 }),
           (all_accepted, SystemMessage.AcknowledgePrevious { responding_to_id := 1 })]
          (run_once heater_rejects (some (SystemMessage.EnterBootloaderMessage { id := 7 }))
            SystemTask.new).task).map (fun r => bootloader_entries r.trace)
          = [0, 1] :=
  ⟨rfl, by decide,
    (gather_fires_on_last_acknowledgement heater_rejects { id := 7 } SystemTask.new
      [(all_rejected, { responding_to_id := 3, with_error := ErrorCode.OTHER 9 }),
       (all_accepted, { responding_to_id := 1 })]
      rfl (by decide) (by decide)).2⟩

/-- C4, the code at the failing input: a freshly constructed task (empty cache, no
fan-out in progress) handles an AcknowledgePrevious; the cache is empty before and
after, an error BAD_MESSAGE_ACKNOWLEDGEMENT is sent to comms, and `enter_bootloader`
is called. -/
theorem stray_acknowledgement_enters_bootloader :
    (SystemTask.new).prep_cache.empty = true
      ∧ (run_once all_accepted
          (some (SystemMessage.AcknowledgePrevious { responding_to_id := 7 }))
          SystemTask.new).trace
        = [Event.try_send QueueId.comms
            (Outbound.ErrorMessage { code := ErrorCode.BAD_MESSAGE_ACKNOWLEDGEMENT })
            (some 1) true,
           Event.enter_bootloader]
      ∧ bootloader_entries
          (run_once all_accepted
            (some (SystemMessage.AcknowledgePrevious { responding_to_id := 7 }))
            SystemTask.new).trace = 1 := by
  decide

/-- C5. Whatever the task's state and whatever the queues answer, the
EnterBootloaderMessage handler hands exactly one AcknowledgePrevious to `try_send`; it
goes to the comms queue and its `responding_to_id` is the id of the request. -/
theorem enter_bootloader_acknowledges_request (env : Env) (message : EnterBootloaderMessage)
    (task : SystemTask) :
    acknowledgements (visit_message_EnterBootloaderMessage env message (Run.start task)).trace
      = [(QueueId.comms,
          { responding_to_id := message.id, with_error := ErrorCode.NO_ERROR })] := by
  obtain ⟨tail, htail, htrace⟩ := visit_EnterBootloaderMessage_trace env message task
  rw [htrace]
  rcases htail with h | h <;> subst h <;> simp [acknowledgements]

/-- C6. An AcknowledgePrevious whose `responding_to_id` is not held by the cache leaves
the task, and so the cache, as it was, and the handler makes exactly one `try_send`:
an ErrorMessage with code BAD_MESSAGE_ACKNOWLEDGEMENT to the comms queue, whatever
`with_error` the acknowledgement carries. -/
theorem unknown_acknowledgement_reported (env : Env) (message : AcknowledgePrevious)
    (task : SystemTask) (habsent : message.responding_to_id ∉ task.prep_cache.ids) :
    (visit_message_AcknowledgePrevious env message (Run.start task)).task = task
      ∧ send_attempts (visit_message_AcknowledgePrevious env message (Run.start task)).trace
        = [(QueueId.comms,
            Outbound.ErrorMessage { code := ErrorCode.BAD_MESSAGE_ACKNOWLEDGEMENT })] := by
  have hrem : task.prep_cache.remove_if_present message.responding_to_id
      = (CacheElement.monostate, task.prep_cache) := by
    simp only [AckCache.remove_if_present, remove_entry_absent _ _ habsent]
  rw [visit_AcknowledgePrevious_eq, hrem]
  refine ⟨rfl, ?_⟩
  simp only [ack_error_result]
  split_ifs <;> simp_all [send_attempts]

/-- Witness for C6: a second acknowledgement for an id that was already retracted. -/
theorem unknown_acknowledgement_reported_witness :
    (3 : Nat) ∉ (run_once all_accepted
        (some (SystemMessage.AcknowledgePrevious { responding_to_id := 3 }))
        (run_once all_accepted (some (SystemMessage.EnterBootloaderMessage { id := 7 }))
          SystemTask.new).task).task.prep_cache.ids
      ∧ send_attempts (visit_message_AcknowledgePrevious all_accepted
          { responding_to_id := 3, with_error := ErrorCode.OTHER 9 }
          (Run.start (run_once all_accepted
            (some (SystemMessage.AcknowledgePrevious { responding_to_id := 3 }))
            (run_once all_accepted (some (SystemMessage.EnterBootloaderMessage { id := 7 }))
              SystemTask.new).task).task)).trace
        = [(QueueId.comms,
            Outbound.ErrorMessage { code := ErrorCode.BAD_MESSAGE_ACKNOWLEDGEMENT })] :=
  ⟨by decide,
    (unknown_acknowledgement_reported all_accepted
      { responding_to_id := 3, with_error := ErrorCode.OTHER 9 }
      (run_once all_accepted
        (some (SystemMessage.AcknowledgePrevious { responding_to_id := 3 }))
        (run_once all_accepted (some (SystemMessage.EnterBootloaderMessage { id := 7 }))
          SystemTask.new).task).task
      (by decide)).2⟩

/-- C7. An AcknowledgePrevious whose `responding_to_id` is held by the cache removes
that entry (one entry fewer, the held ids are the old ones with this id erased, and
with pairwise distinct ids the id is no longer held). If `with_error` is NO_ERROR the
handler makes no `try_send` at all; otherwise it makes exactly one, an ErrorMessage
carrying `with_error`, to the comms queue. -/
theorem known_acknowledgement_retracted (env : Env) (message : AcknowledgePrevious)
    (task : SystemTask) (hheld : message.responding_to_id ∈ task.prep_cache.ids) :
    (visit_message_AcknowledgePrevious env message (Run.start task)).task.prep_cache.ids
        = task.prep_cache.ids.erase message.responding_to_id
      ∧ (visit_message_AcknowledgePrevious env message
          (Run.start task)).task.prep_cache.ids.length + 1 = task.prep_cache.ids.length
      ∧ (task.prep_cache.ids.Nodup → message.responding_to_id ∉
          (visit_message_AcknowledgePrevious env message (Run.start task)).task.prep_cache.ids)
      ∧ (message.with_error = ErrorCode.NO_ERROR →
          send_attempts (visit_message_AcknowledgePrevious env message (Run.start task)).trace
            = [])
      ∧ (message.with_error ≠ ErrorCode.NO_ERROR →
          send_attempts (visit_message_AcknowledgePrevious env message (Run.start task)).trace
            = [(QueueId.comms, Outbound.ErrorMessage { code := message.with_error })]) := by
  have hids := ack_cache_ids env message task
  obtain ⟨m, hm⟩ := remove_entry_present _ _ hheld
  have hres : ack_error_result message
      (task.prep_cache.remove_if_present message.responding_to_id).1 = message.with_error := by
    simp only [AckCache.remove_if_present, hm, ack_error_result]
  refine ⟨hids, ?_, ?_, ?_, ?_⟩
  · rw [hids, List.length_erase_of_mem hheld]
    have hpos : 0 < task.prep_cache.ids.length := List.length_pos_of_mem hheld
    omega
  · intro hnodup
    rw [hids]
    exact fun h => (List.Nodup.mem_erase_iff hnodup).mp h |>.1 rfl
  · intro hok
    rw [visit_AcknowledgePrevious_eq, hres]
    simp only [send_attempts_append]
    split_ifs <;> simp_all [send_attempts]
  · intro herr
    rw [visit_AcknowledgePrevious_eq, hres]
    simp only [send_attempts_append]
    split_ifs <;> simp_all [send_attempts]

/-- Witness for C7: after a fan-out with every request accepted, the acknowledgement
for the heater request (id 2) arrives with an error. -/
theorem known_acknowledgement_retracted_witness :
    (2 : Nat) ∈ (run_once all_accepted
        (some (SystemMessage.EnterBootloaderMessage { id := 7 })) SystemTask.new).task.prep_cache.ids
      ∧ (visit_message_AcknowledgePrevious all_rejected
          { responding_to_id := 2, with_error := ErrorCode.OTHER 9 }
          (Run.start (run_once all_accepted
            (some (SystemMessage.EnterBootloaderMessage { id := 7 }))
            SystemTask.new).task)).task.prep_cache.ids
        = [1, 2, 3].erase 2 :=
  ⟨by decide,
    (known_acknowledgement_retracted all_rejected
      { responding_to_id := 2, with_error := ErrorCode.OTHER 9 }
      (run_once all_accepted (some (SystemMessage.EnterBootloaderMessage { id := 7 }))
        SystemTask.new).task
      (by decide)).1⟩

/-- C8 as stated fails: a second EnterBootloaderMessage handled while the three
requests of an earlier fan-out are still outstanding finds the cache full, every `add`
fails, and the three requests all go out with the same id. -/
theorem fan_out_ids_not_distinct_on_full_cache :
    (run_once all_accepted (some (SystemMessage.EnterBootloaderMessage { id := 7 }))
        SystemTask.new).task.prep_cache.ids = [1, 2, 3]
      ∧ leg_ids (run_once all_accepted (some (SystemMessage.EnterBootloaderMessage { id := 8 }))
          (run_once all_accepted (some (SystemMessage.EnterBootloaderMessage { id := 7 }))
            SystemTask.new).task).trace = [0, 0, 0]
      ∧ ¬ (leg_ids (run_once all_accepted
          (some (SystemMessage.EnterBootloaderMessage { id := 8 }))
          (run_once all_accepted (some (SystemMessage.EnterBootloaderMessage { id := 7 }))
            SystemTask.new).task).trace).Nodup := by
  decide

/-- C8, amended. On any task the EnterBootloaderMessage handler makes four `try_send`
calls, in this order: SetRPMMessage (target_rpm 0, from_system) to the motor queue,
SetTemperatureMessage (target_temperature 0, from_system) to the heater queue,
ForceUSBDisconnectMessage to the comms queue, each carrying the id returned by the
`prep_cache.add` call made for that leg, and the acknowledgement of the request to the
comms queue. The three ids are pairwise distinct whenever none of the three `add`
calls finds the cache full, which is the case whenever the cache is empty when the
handler starts. -/
theorem fan_out_requests_stamped_in_order (env : Env) (message : EnterBootloaderMessage)
    (task : SystemTask) :
    let a1 := task.prep_cache.add
      (Cacheable.SetRPMMessage { id := 0, target_rpm := 0, from_system := true })
    let c1 := if env.try_send QueueId.motor 0 = true then a1.2
      else (a1.2.remove_if_present a1.1).2
    let a2 := c1.add
      (Cacheable.SetTemperatureMessage { id := 0, target_temperature := 0, from_system := true })
    let c2 := if env.try_send QueueId.heater 0 = true then a2.2
      else (a2.2.remove_if_present a2.1).2
    let a3 := c2.add (Cacheable.ForceUSBDisconnectMessage { id := 0 })
    send_attempts (visit_message_EnterBootloaderMessage env message (Run.start task)).trace
        = [(QueueId.motor,
            Outbound.SetRPMMessage { id := a1.1, target_rpm := 0, from_system := true }),
           (QueueId.heater,
            Outbound.SetTemperatureMessage
              { id := a2.1, target_temperature := 0, from_system := true }),
           (QueueId.comms, Outbound.ForceUSBDisconnectMessage { id := a3.1 }),
           (QueueId.comms, Outbound.AcknowledgePrevious { responding_to_id := message.id })]
      ∧ leg_ids (visit_message_EnterBootloaderMessage env message (Run.start task)).trace
        = [a1.1, a2.1, a3.1]
      ∧ (task.prep_cache.entries.length < 3 → c1.entries.length < 3 →
          c2.entries.length < 3 →
          (leg_ids
            (visit_message_EnterBootloaderMessage env message (Run.start task)).trace).Nodup)
      ∧ (task.prep_cache.empty = true →
          task.prep_cache.entries.length < 3 ∧ c1.entries.length < 3 ∧ c2.entries.length < 3) := by
  intro a1 c1 a2 c2 a3
  have hsend : send_attempts
        (visit_message_EnterBootloaderMessage env message (Run.start task)).trace
        = [(QueueId.motor,
            Outbound.SetRPMMessage { id := a1.1, target_rpm := 0, from_system := true }),
           (QueueId.heater,
            Outbound.SetTemperatureMessage
              { id := a2.1, target_temperature := 0, from_system := true }),
           (QueueId.comms, Outbound.ForceUSBDisconnectMessage { id := a3.1 }),
           (QueueId.comms, Outbound.AcknowledgePrevious { responding_to_id := message.id })]
      ∧ leg_ids (visit_message_EnterBootloaderMessage env message (Run.start task)).trace
        = [a1.1, a2.1, a3.1] := by
    obtain ⟨tail, htail, htrace⟩ := visit_EnterBootloaderMessage_trace env message task
    rw [htrace]
    have hc1 : (fan_out_leg env (Run.start task) QueueId.motor
        (Cacheable.SetRPMMessage { id := 0, target_rpm := 0, from_system := true })
        (fun id => Outbound.SetRPMMessage
          { id := id, target_rpm := 0, from_system := true })).task.prep_cache = c1 := by
      simp [fan_out_leg_task, Run.start, sends_on, c1, a1]
    have hc2 : (fan_out_leg env
        (fan_out_leg env (Run.start task) QueueId.motor
          (Cacheable.SetRPMMessage { id := 0, target_rpm := 0, from_system := true })
          (fun id => Outbound.SetRPMMessage { id := id, target_rpm := 0, from_system := true }))
        QueueId.heater
        (Cacheable.SetTemperatureMessage
          { id := 0, target_temperature := 0, from_system := true })
        (fun id => Outbound.SetTemperatureMessage
          { id := id, target_temperature := 0, from_system := true })).task.prep_cache = c2 := by
      rw [fan_out_leg_task]
      simp only [hc1]
      simp [fan_out_leg_trace, Run.start, sends_on, c2, a2]
    rw [hc1, hc2]
    rcases htail with h | h <;> subst h <;> simp [send_attempts, leg_ids, a1, a2, a3]
  refine ⟨hsend.1, hsend.2, ?_, ?_⟩
  · intro h0 h1 h2
    have e1 := add_id_of_room task.prep_cache
      (Cacheable.SetRPMMessage { id := 0, target_rpm := 0, from_system := true }) h0
    have e2 := add_id_of_room c1
      (Cacheable.SetTemperatureMessage
        { id := 0, target_temperature := 0, from_system := true }) h1
    have e3 := add_id_of_room c2 (Cacheable.ForceUSBDisconnectMessage { id := 0 }) h2
    have n1 : c1.next_id = task.prep_cache.next_id + 1 := by
      simp only [c1]
      split_ifs
      · exact e1.2
      · rw [remove_if_present_next_id]; exact e1.2
    have n2 : c2.next_id = c1.next_id + 1 := by
      simp only [c2]
      split_ifs
      · exact e2.2
      · rw [remove_if_present_next_id]; exact e2.2
    have i1 : a1.1 = task.prep_cache.next_id := e1.1
    have i2 : a2.1 = c1.next_id := e2.1
    have i3 : a3.1 = c2.next_id := e3.1
    rw [hsend.2]
    simp only [List.nodup_cons, List.mem_cons, List.mem_singleton, List.not_mem_nil,
      not_or, not_false_eq_true, List.nodup_nil, and_true]
    refine ⟨⟨?_, ?_⟩, ?_⟩ <;> omega
  · intro hempty
    obtain ⟨led, reg, ⟨n, entries⟩⟩ := task
    simp only [AckCache.empty, List.isEmpty_iff] at hempty
    subst hempty
    have x1 : ¬ n = n + 1 := by omega
    cases h1 : env.try_send QueueId.motor 0 <;> cases h2 : env.try_send QueueId.heater 0 <;>
    simp [a1, c1, a2, c2, AckCache.add, AckCache.remove_if_present, remove_entry, h1, h2, x1]

/-- Witness for C8, amended: on a freshly constructed task none of the three `add`
calls finds the cache full, and the three requests carry the ids 1, 2 and 3. -/
theorem fan_out_requests_stamped_in_order_witness :
    (SystemTask.new).prep_cache.empty = true
      ∧ send_attempts (visit_message_EnterBootloaderMessage heater_rejects { id := 7 }
          (Run.start SystemTask.new)).trace
        = [(QueueId.motor,
            Outbound.SetRPMMessage { id := 1, target_rpm := 0, from_system := true }),
           (QueueId.heater,
            Outbound.SetTemperatureMessage
              { id := 2, target_temperature := 0, from_system := true }),
           (QueueId.comms, Outbound.ForceUSBDisconnectMessage { id := 3 }),
           (QueueId.comms, Outbound.AcknowledgePrevious { responding_to_id := 7 })]
      ∧ (leg_ids (visit_message_EnterBootloaderMessage heater_rejects { id := 7 }
          (Run.start SystemTask.new)).trace).Nodup :=
  ⟨rfl, (fan_out_requests_stamped_in_order heater_rejects { id := 7 } SystemTask.new).1,
    (fan_out_requests_stamped_in_order heater_rejects { id := 7 } SystemTask.new).2.2.1
      ((fan_out_requests_stamped_in_order heater_rejects { id := 7 }
        SystemTask.new).2.2.2 rfl).1
      ((fan_out_requests_stamped_in_order heater_rejects { id := 7 }
        SystemTask.new).2.2.2 rfl).2.1
      ((fan_out_requests_stamped_in_order heater_rejects { id := 7 }
        SystemTask.new).2.2.2 rfl).2.2⟩

/-! ## Identify-LED blink loop -/

/-- C9. In phase BLINK_OFF with the hardware link ready, the IdentifyModuleStartLED
handler calls `start_set_led(WHITE_ON)` (its only light command), acknowledges the
request to comms, waits `delay_time_ms(500)` once, and then makes exactly one
`try_send` of a CheckLEDBlinkStatusMessage to the task's own queue; the phase it
leaves is BLINK_ON_WAITING and nothing else in the task changes. -/
theorem identify_start_schedules_one_check (env : Env) (msg : IdentifyModuleStartLEDMessage)
    (task : SystemTask)
    (_hoff : task.led_blink_state.status = LEDBlinkTaskStatus.BLINK_OFF)
    (hready : env.check_I2C_ready 0 = true) :
    (visit_message_IdentifyModuleStartLEDMessage env msg (Run.start task)).trace
        = [Event.check_I2C_ready true,
           Event.start_set_led LED_MODE.WHITE_ON (env.start_set_led 0 LED_MODE.WHITE_ON),
           Event.try_send QueueId.comms
             (Outbound.AcknowledgePrevious
               { responding_to_id := msg.id,
                 with_error := env.start_set_led 0 LED_MODE.WHITE_ON })
             none (env.try_send QueueId.comms 0),
           Event.delay_time_ms 500,
           Event.try_send QueueId.system (Outbound.CheckLEDBlinkStatusMessage {}) none
             (env.try_send QueueId.system 0)]
      ∧ (visit_message_IdentifyModuleStartLEDMessage env msg (Run.start task)).task
        = { task with led_blink_state := { status := LEDBlinkTaskStatus.BLINK_ON_WAITING } }
      ∧ led_modes (visit_message_IdentifyModuleStartLEDMessage env msg (Run.start task)).trace
        = [LED_MODE.WHITE_ON]
      ∧ sent_to QueueId.system
          (visit_message_IdentifyModuleStartLEDMessage env msg (Run.start task)).trace
        = [Outbound.CheckLEDBlinkStatusMessage {}]
      ∧ delays (visit_message_IdentifyModuleStartLEDMessage env msg (Run.start task)).trace
        = 1 := by
  have htrace : (visit_message_IdentifyModuleStartLEDMessage env msg (Run.start task)).trace
        = [Event.check_I2C_ready true,
           Event.start_set_led LED_MODE.WHITE_ON (env.start_set_led 0 LED_MODE.WHITE_ON),
           Event.try_send QueueId.comms
             (Outbound.AcknowledgePrevious
               { responding_to_id := msg.id,
                 with_error := env.start_set_led 0 LED_MODE.WHITE_ON })
             none (env.try_send QueueId.comms 0),
           Event.delay_time_ms 500,
           Event.try_send QueueId.system (Outbound.CheckLEDBlinkStatusMessage {}) none
             (env.try_send QueueId.system 0)] := by
    simp [visit_message_IdentifyModuleStartLEDMessage, Run.start, Run.check_I2C_ready,
      Run.start_set_led, Run.set_status, Run.try_send, Run.delay_time_ms, ready_checks,
      led_commands, sends_on, hready, LED_BLINK_WAIT_MS]
  refine ⟨htrace, ?_, ?_, ?_, ?_⟩
  · simp [visit_message_IdentifyModuleStartLEDMessage, Run.start, Run.check_I2C_ready,
      Run.start_set_led, Run.set_status, Run.try_send, Run.delay_time_ms, ready_checks, hready]
  · rw [htrace]; simp [led_modes]
  · rw [htrace]; simp [sent_to]
  · rw [htrace]; simp [delays]

/-- Witness for C9: a freshly constructed task (phase BLINK_OFF), hardware ready. -/
theorem identify_start_schedules_one_check_witness :
    (SystemTask.new).led_blink_state.status = LEDBlinkTaskStatus.BLINK_OFF
      ∧ all_accepted.check_I2C_ready 0 = true
      ∧ (visit_message_IdentifyModuleStartLEDMessage all_accepted { id := 5 }
          (Run.start SystemTask.new)).task.led_blink_state.status
        = LEDBlinkTaskStatus.BLINK_ON_WAITING
      ∧ sent_to QueueId.system
          (visit_message_IdentifyModuleStartLEDMessage all_accepted { id := 5 }
            (Run.start SystemTask.new)).trace
        = [Outbound.CheckLEDBlinkStatusMessage {}] :=
  ⟨rfl, rfl,
    congrArg (fun t => t.led_blink_state.status)
      (identify_start_schedules_one_check all_accepted { id := 5 } SystemTask.new rfl rfl).2.1,
    (identify_start_schedules_one_check all_accepted { id := 5 } SystemTask.new
      rfl rfl).2.2.2.1⟩

/-- C10. A CheckLEDBlinkStatusMessage handled in a waiting phase while the hardware
link is ready and `start_set_led` returns NO_ERROR: the handler issues the opposite
light command (WHITE_OFF in BLINK_ON_WAITING, WHITE_ON in BLINK_OFF_WAITING) as its
only `start_set_led` call, stores the other waiting phase, waits `delay_time_ms(500)`
and makes exactly one `try_send` of a CheckLEDBlinkStatusMessage to its own queue,
changing nothing else in the task. In every other circumstance the handler sends
nothing to its own queue. -/
theorem blink_step_flips_and_reschedules (env : Env) (msg : CheckLEDBlinkStatusMessage)
    (task : SystemTask) :
    (task.led_blink_state.status = LEDBlinkTaskStatus.BLINK_ON_WAITING →
      env.check_I2C_ready 0 = true →
      env.start_set_led 0 LED_MODE.WHITE_OFF = ErrorCode.NO_ERROR →
      (visit_message_CheckLEDBlinkStatusMessage env msg (Run.start task)).trace
          = [Event.check_I2C_ready true,
             Event.start_set_led LED_MODE.WHITE_OFF ErrorCode.NO_ERROR,
             Event.delay_time_ms 500,
             Event.try_send QueueId.system (Outbound.CheckLEDBlinkStatusMessage {}) none
               (env.try_send QueueId.system 0)]
        ∧ (visit_message_CheckLEDBlinkStatusMessage env msg (Run.start task)).task
          = { task with
              led_blink_state := { status := LEDBlinkTaskStatus.BLINK_OFF_WAITING } })
    ∧ (task.led_blink_state.status = LEDBlinkTaskStatus.BLINK_OFF_WAITING →
      env.check_I2C_ready 0 = true →
      env.start_set_led 0 LED_MODE.WHITE_ON = ErrorCode.NO_ERROR →
      (visit_message_CheckLEDBlinkStatusMessage env msg (Run.start task)).trace
          = [Event.check_I2C_ready true,
             Event.start_set_led LED_MODE.WHITE_ON ErrorCode.NO_ERROR,
             Event.delay_time_ms 500,
             Event.try_send QueueId.system (Outbound.CheckLEDBlinkStatusMessage {}) none
               (env.try_send QueueId.system 0)]
        ∧ (visit_message_CheckLEDBlinkStatusMessage env msg (Run.start task)).task
          = { task with
              led_blink_state := { status := LEDBlinkTaskStatus.BLINK_ON_WAITING } })
    ∧ sent_to QueueId.system
        (visit_message_CheckLEDBlinkStatusMessage env msg (Run.start task)).trace
      = (if (task.led_blink_state.status = LEDBlinkTaskStatus.BLINK_ON_WAITING
              ∧ env.check_I2C_ready 0 = true
              ∧ env.start_set_led 0 LED_MODE.WHITE_OFF = ErrorCode.NO_ERROR)
            ∨ (task.led_blink_state.status = LEDBlinkTaskStatus.BLINK_OFF_WAITING
              ∧ env.check_I2C_ready 0 = true
              ∧ env.start_set_led 0 LED_MODE.WHITE_ON = ErrorCode.NO_ERROR)
         then [Outbound.CheckLEDBlinkStatusMessage {}] else []) := by
  obtain ⟨⟨status⟩, reg, cache⟩ := task
  refine ⟨?_, ?_, ?_⟩
  · intro hs hready hled
    simp only at hs
    subst hs
    simp [visit_message_CheckLEDBlinkStatusMessage, Run.start, Run.check_I2C_ready,
      Run.start_set_led, Run.set_status, Run.try_send, Run.delay_time_ms, ready_checks,
      led_commands, sends_on, hready, hled, LED_BLINK_WAIT_MS]
  · intro hs hready hled
    simp only at hs
    subst hs
    simp [visit_message_CheckLEDBlinkStatusMessage, Run.start, Run.check_I2C_ready,
      Run.start_set_led, Run.set_status, Run.try_send, Run.delay_time_ms, ready_checks,
      led_commands, sends_on, hready, hled, LED_BLINK_WAIT_MS]
  · cases status <;> cases hready : env.check_I2C_ready 0 <;>
      by_cases hoff : env.start_set_led 0 LED_MODE.WHITE_OFF = ErrorCode.NO_ERROR <;>
      by_cases hon : env.start_set_led 0 LED_MODE.WHITE_ON = ErrorCode.NO_ERROR <;>
      simp [visit_message_CheckLEDBlinkStatusMessage, Run.start, Run.check_I2C_ready,
        Run.start_set_led, Run.set_status, Run.try_send, Run.delay_time_ms, ready_checks,
        led_commands, sends_on, sent_to, hready, hoff, hon, LED_BLINK_WAIT_MS]

/-- Witness for C10: a task in phase BLINK_ON_WAITING, hardware ready, no LED error. -/
theorem blink_step_flips_and_reschedules_witness :
    ({ SystemTask.new with
        led_blink_state := { status := LEDBlinkTaskStatus.BLINK_ON_WAITING } }
        : SystemTask).led_blink_state.status = LEDBlinkTaskStatus.BLINK_ON_WAITING
      ∧ all_accepted.check_I2C_ready 0 = true
      ∧ all_accepted.start_set_led 0 LED_MODE.WHITE_OFF = ErrorCode.NO_ERROR
      ∧ (visit_message_CheckLEDBlinkStatusMessage all_accepted {}
          (Run.start { SystemTask.new with
            led_blink_state := { status := LEDBlinkTaskStatus.BLINK_ON_WAITING } })).trace
        = [Event.check_I2C_ready true,
           Event.start_set_led LED_MODE.WHITE_OFF ErrorCode.NO_ERROR,
           Event.delay_time_ms 500,
           Event.try_send QueueId.system (Outbound.CheckLEDBlinkStatusMessage {}) none true] :=
  ⟨rfl, rfl, rfl,
    ((blink_step_flips_and_reschedules all_accepted {}
      { SystemTask.new with
        led_blink_state := { status := LEDBlinkTaskStatus.BLINK_ON_WAITING } }).1
      rfl rfl rfl).1⟩

/-- C11 as stated fails: a self-check handled in phase BLINK_ON_WAITING while the
hardware link is not ready leaves the phase BLINK_ON_WAITING, not BLINK_OFF. -/
theorem blink_abort_does_not_reset_phase :
    link_not_ready.check_I2C_ready 0 = false
      ∧ (visit_message_CheckLEDBlinkStatusMessage link_not_ready {}
          (Run.start (task_in_phase LEDBlinkTaskStatus.BLINK_ON_WAITING))).task.led_blink_state.status
        = LEDBlinkTaskStatus.BLINK_ON_WAITING
      ∧ (visit_message_CheckLEDBlinkStatusMessage link_not_ready {}
          (Run.start (task_in_phase LEDBlinkTaskStatus.BLINK_ON_WAITING))).task.led_blink_state.status
        ≠ LEDBlinkTaskStatus.BLINK_OFF := by
  decide

/-- C11, amended. A CheckLEDBlinkStatusMessage handled in phase BLINK_ON_WAITING or
BLINK_OFF_WAITING while the hardware link is not ready leaves the phase, and the whole
task, as it was: the handler does not store BLINK_OFF. -/
theorem blink_abort_keeps_phase (env : Env) (msg : CheckLEDBlinkStatusMessage)
    (task : SystemTask)
    (hphase : task.led_blink_state.status = LEDBlinkTaskStatus.BLINK_ON_WAITING
      ∨ task.led_blink_state.status = LEDBlinkTaskStatus.BLINK_OFF_WAITING)
    (hnot : env.check_I2C_ready 0 = false) :
    (visit_message_CheckLEDBlinkStatusMessage env msg (Run.start task)).task = task
      ∧ (visit_message_CheckLEDBlinkStatusMessage env msg
          (Run.start task)).task.led_blink_state.status = task.led_blink_state.status := by
  have htask : (visit_message_CheckLEDBlinkStatusMessage env msg (Run.start task)).task
      = task := by
    simp [visit_message_CheckLEDBlinkStatusMessage, Run.start, Run.check_I2C_ready,
      Run.try_send, ready_checks, hphase, hnot]
  exact ⟨htask, by rw [htask]⟩

/-- Witness for C11, amended: phase BLINK_OFF_WAITING, link not ready. -/
theorem blink_abort_keeps_phase_witness :
    ((task_in_phase LEDBlinkTaskStatus.BLINK_OFF_WAITING).led_blink_state.status
          = LEDBlinkTaskStatus.BLINK_ON_WAITING
        ∨ (task_in_phase LEDBlinkTaskStatus.BLINK_OFF_WAITING).led_blink_state.status
          = LEDBlinkTaskStatus.BLINK_OFF_WAITING)
      ∧ link_not_ready.check_I2C_ready 0 = false
      ∧ (visit_message_CheckLEDBlinkStatusMessage link_not_ready {}
          (Run.start (task_in_phase LEDBlinkTaskStatus.BLINK_OFF_WAITING))).task.led_blink_state.status
        = (task_in_phase LEDBlinkTaskStatus.BLINK_OFF_WAITING).led_blink_state.status :=
  ⟨Or.inr rfl, rfl,
    (blink_abort_keeps_phase link_not_ready {}
      (task_in_phase LEDBlinkTaskStatus.BLINK_OFF_WAITING) (Or.inr rfl) rfl).2⟩

/-- C12. A CheckLEDBlinkStatusMessage handled in a waiting phase while the hardware
link is not ready: the handler's calls are the readiness check and exactly one
`try_send`, to the comms queue, of an acknowledgement carrying
SYSTEM_LED_I2C_NOT_READY; it never calls `start_set_led` and sends nothing to its own
queue. -/
theorem blink_abort_reports_not_ready (env : Env) (msg : CheckLEDBlinkStatusMessage)
    (task : SystemTask)
    (hphase : task.led_blink_state.status = LEDBlinkTaskStatus.BLINK_ON_WAITING
      ∨ task.led_blink_state.status = LEDBlinkTaskStatus.BLINK_OFF_WAITING)
    (hnot : env.check_I2C_ready 0 = false) :
    (visit_message_CheckLEDBlinkStatusMessage env msg (Run.start task)).trace
        = [Event.check_I2C_ready false,
           Event.try_send QueueId.comms
             (Outbound.AcknowledgePrevious
               { responding_to_id := 0, with_error := ErrorCode.SYSTEM_LED_I2C_NOT_READY })
             none (env.try_send QueueId.comms 0)]
      ∧ send_attempts (visit_message_CheckLEDBlinkStatusMessage env msg (Run.start task)).trace
        = [(QueueId.comms,
            Outbound.AcknowledgePrevious
              { responding_to_id := 0, with_error := ErrorCode.SYSTEM_LED_I2C_NOT_READY })]
      ∧ led_commands (visit_message_CheckLEDBlinkStatusMessage env msg (Run.start task)).trace
        = 0
      ∧ sent_to QueueId.system
          (visit_message_CheckLEDBlinkStatusMessage env msg (Run.start task)).trace = [] := by
  have htrace : (visit_message_CheckLEDBlinkStatusMessage env msg (Run.start task)).trace
        = [Event.check_I2C_ready false,
           Event.try_send QueueId.comms
             (Outbound.AcknowledgePrevious
               { responding_to_id := 0, with_error := ErrorCode.SYSTEM_LED_I2C_NOT_READY })
             none (env.try_send QueueId.comms 0)] := by
    simp [visit_message_CheckLEDBlinkStatusMessage, Run.start, Run.check_I2C_ready,
      Run.try_send, ready_checks, sends_on, hphase, hnot]
  refine ⟨htrace, ?_, ?_, ?_⟩ <;> rw [htrace] <;> simp [send_attempts, led_commands, sent_to]

/-- Witness for C12: phase BLINK_ON_WAITING, link not ready. -/
theorem blink_abort_reports_not_ready_witness :
    ((task_in_phase LEDBlinkTaskStatus.BLINK_ON_WAITING).led_blink_state.status
          = LEDBlinkTaskStatus.BLINK_ON_WAITING
        ∨ (task_in_phase LEDBlinkTaskStatus.BLINK_ON_WAITING).led_blink_state.status
          = LEDBlinkTaskStatus.BLINK_OFF_WAITING)
      ∧ link_not_ready.check_I2C_ready 0 = false
      ∧ send_attempts (visit_message_CheckLEDBlinkStatusMessage link_not_ready {}
          (Run.start (task_in_phase LEDBlinkTaskStatus.BLINK_ON_WAITING))).trace
        = [(QueueId.comms,
            Outbound.AcknowledgePrevious
              { responding_to_id := 0, with_error := ErrorCode.SYSTEM_LED_I2C_NOT_READY })] :=
  ⟨Or.inl rfl, rfl,
    (blink_abort_reports_not_ready link_not_ready {}
      (task_in_phase LEDBlinkTaskStatus.BLINK_ON_WAITING) (Or.inl rfl) rfl).2.1⟩

/-- C13. A CheckLEDBlinkStatusMessage handled in a waiting phase while the hardware
link is ready and `start_set_led` returns an error: the handler calls `start_set_led`
exactly once (WHITE_OFF in BLINK_ON_WAITING, WHITE_ON in BLINK_OFF_WAITING), makes
exactly one `try_send`, to the comms queue, of an acknowledgement carrying
SYSTEM_LED_TRANSMIT_ERROR, sends nothing to its own queue, and leaves the phase and
the rest of the task as they were. -/
theorem blink_abort_on_transmit_error (env : Env) (msg : CheckLEDBlinkStatusMessage)
    (task : SystemTask) :
    (task.led_blink_state.status = LEDBlinkTaskStatus.BLINK_ON_WAITING →
      env.check_I2C_ready 0 = true →
      env.start_set_led 0 LED_MODE.WHITE_OFF ≠ ErrorCode.NO_ERROR →
      (visit_message_CheckLEDBlinkStatusMessage env msg (Run.start task)).trace
          = [Event.check_I2C_ready true,
             Event.start_set_led LED_MODE.WHITE_OFF (env.start_set_led 0 LED_MODE.WHITE_OFF),
             Event.try_send QueueId.comms
               (Outbound.AcknowledgePrevious
                 { responding_to_id := 0,
                   with_error := ErrorCode.SYSTEM_LED_TRANSMIT_ERROR })
               none (env.try_send QueueId.comms 0)]
        ∧ (visit_message_CheckLEDBlinkStatusMessage env msg (Run.start task)).task = task)
    ∧ (task.led_blink_state.status = LEDBlinkTaskStatus.BLINK_OFF_WAITING →
      env.check_I2C_ready 0 = true →
      env.start_set_led 0 LED_MODE.WHITE_ON ≠ ErrorCode.NO_ERROR →
      (visit_message_CheckLEDBlinkStatusMessage env msg (Run.start task)).trace
          = [Event.check_I2C_ready true,
             Event.start_set_led LED_MODE.WHITE_ON (env.start_set_led 0 LED_MODE.WHITE_ON),
             Event.try_send QueueId.comms
               (Outbound.AcknowledgePrevious
                 { responding_to_id := 0,
                   with_error := ErrorCode.SYSTEM_LED_TRANSMIT_ERROR })
               none (env.try_send QueueId.comms 0)]
        ∧ (visit_message_CheckLEDBlinkStatusMessage env msg (Run.start task)).task = task) := by
  obtain ⟨⟨status⟩, reg, cache⟩ := task
  refine ⟨?_, ?_⟩
  · intro hs hready hled
    simp only at hs
    subst hs
    simp [visit_message_CheckLEDBlinkStatusMessage, Run.start, Run.check_I2C_ready,
      Run.start_set_led, Run.set_status, Run.try_send, Run.delay_time_ms, ready_checks,
      led_commands, sends_on, hready, hled]
  · intro hs hready hled
    simp only at hs
    subst hs
    simp [visit_message_CheckLEDBlinkStatusMessage, Run.start, Run.check_I2C_ready,
      Run.start_set_led, Run.set_status, Run.try_send, Run.delay_time_ms, ready_checks,
      led_commands, sends_on, hready, hled]

/-- Witness for C13: phase BLINK_OFF_WAITING, link ready, `start_set_led` failing. -/
theorem blink_abort_on_transmit_error_witness :
    (task_in_phase LEDBlinkTaskStatus.BLINK_OFF_WAITING).led_blink_state.status
        = LEDBlinkTaskStatus.BLINK_OFF_WAITING
      ∧ led_transmit_fails.check_I2C_ready 0 = true
      ∧ led_transmit_fails.start_set_led 0 LED_MODE.WHITE_ON ≠ ErrorCode.NO_ERROR
      ∧ (visit_message_CheckLEDBlinkStatusMessage led_transmit_fails {}
          (Run.start (task_in_phase LEDBlinkTaskStatus.BLINK_OFF_WAITING))).trace
        = [Event.check_I2C_ready true,
           Event.start_set_led LED_MODE.WHITE_ON (ErrorCode.OTHER 3),
           Event.try_send QueueId.comms
             (Outbound.AcknowledgePrevious
               { responding_to_id := 0, with_error := ErrorCode.SYSTEM_LED_TRANSMIT_ERROR })
             none true] :=
  ⟨rfl, rfl, by decide,
    ((blink_abort_on_transmit_error led_transmit_fails {}
      (task_in_phase LEDBlinkTaskStatus.BLINK_OFF_WAITING)).2 rfl rfl (by decide)).1⟩

/-- The calls of the IdentifyModuleStopLED handler and the task it leaves, for both
answers of the readiness check. -/
theorem visit_IdentifyModuleStopLEDMessage_eq (env : Env) (msg : IdentifyModuleStopLEDMessage)
    (task : SystemTask) :
    visit_message_IdentifyModuleStopLEDMessage env msg (Run.start task)
      = { task := { task with led_blink_state := { status := LEDBlinkTaskStatus.BLINK_OFF } },
          trace :=
            if env.check_I2C_ready 0 = true then
              [Event.check_I2C_ready true,
               Event.start_set_led LED_MODE.WHITE_OFF (env.start_set_led 0 LED_MODE.WHITE_OFF),
               Event.try_send QueueId.comms
                 (Outbound.AcknowledgePrevious
                   { responding_to_id := msg.id,
                     with_error := env.start_set_led 0 LED_MODE.WHITE_OFF })
                 none (env.try_send QueueId.comms 0)]
            else
              [Event.check_I2C_ready false,
               Event.try_send QueueId.comms
                 (Outbound.AcknowledgePrevious
                   { responding_to_id := msg.id,
                     with_error := ErrorCode.SYSTEM_LED_I2C_NOT_READY })
                 none (env.try_send QueueId.comms 0)] } := by
  cases hready : env.check_I2C_ready 0 <;>
    simp [visit_message_IdentifyModuleStopLEDMessage, Run.start, Run.check_I2C_ready,
      Run.start_set_led, Run.set_status, Run.try_send, ready_checks, led_commands, sends_on,
      hready]

/-- C14. In every phase and for every behaviour of the policy and of the queues, the
IdentifyModuleStopLED handler leaves the phase BLINK_OFF, changes nothing else in the
task, and makes no call on the task's own queue, so whatever is queued there stays
queued. -/
theorem identify_stop_forces_off (env : Env) (msg : IdentifyModuleStopLEDMessage)
    (task : SystemTask) :
    (visit_message_IdentifyModuleStopLEDMessage env msg
        (Run.start task)).task.led_blink_state.status = LEDBlinkTaskStatus.BLINK_OFF
      ∧ (visit_message_IdentifyModuleStopLEDMessage env msg (Run.start task)).task
        = { task with led_blink_state := { status := LEDBlinkTaskStatus.BLINK_OFF } }
      ∧ sent_to QueueId.system
          (visit_message_IdentifyModuleStopLEDMessage env msg (Run.start task)).trace = []
      ∧ sends_on QueueId.system
          (visit_message_IdentifyModuleStopLEDMessage env msg (Run.start task)).trace = 0 := by
  rw [visit_IdentifyModuleStopLEDMessage_eq]
  refine ⟨rfl, rfl, ?_, ?_⟩ <;> simp only [] <;> split_ifs <;> simp [sent_to, sends_on]

/-- C15 as stated fails: when the hardware link is not ready the IdentifyModuleStopLED
handler never calls `start_set_led`, so the off command is not issued. -/
theorem identify_stop_skips_led_when_not_ready :
    link_not_ready.check_I2C_ready 0 = false
      ∧ led_modes (visit_message_IdentifyModuleStopLEDMessage link_not_ready { id := 5 }
          (Run.start (task_in_phase LEDBlinkTaskStatus.BLINK_ON_WAITING))).trace = []
      ∧ led_commands (visit_message_IdentifyModuleStopLEDMessage link_not_ready { id := 5 }
          (Run.start (task_in_phase LEDBlinkTaskStatus.BLINK_ON_WAITING))).trace = 0 := by
  decide

/-- C15, amended. In every phase, the IdentifyModuleStopLED handler first asks
`check_I2C_ready`. If the link is ready it calls `start_set_led(WHITE_OFF)` exactly
once and `start_set_led` with no other mode; if the link is not ready it does not call
`start_set_led` at all and the response carries SYSTEM_LED_I2C_NOT_READY. -/
theorem identify_stop_led_command (env : Env) (msg : IdentifyModuleStopLEDMessage)
    (task : SystemTask) :
    (env.check_I2C_ready 0 = true →
      led_modes (visit_message_IdentifyModuleStopLEDMessage env msg (Run.start task)).trace
        = [LED_MODE.WHITE_OFF])
    ∧ (env.check_I2C_ready 0 = false →
      led_modes (visit_message_IdentifyModuleStopLEDMessage env msg (Run.start task)).trace
          = []
        ∧ sent_to QueueId.comms
            (visit_message_IdentifyModuleStopLEDMessage env msg (Run.start task)).trace
          = [Outbound.AcknowledgePrevious
              { responding_to_id := msg.id,
                with_error := ErrorCode.SYSTEM_LED_I2C_NOT_READY }]) := by
  rw [visit_IdentifyModuleStopLEDMessage_eq]
  refine ⟨?_, ?_⟩ <;> intro hready <;> simp [hready, led_modes, sent_to]

/-- Witness for C15, amended: link ready in one script, not ready in the other. -/
theorem identify_stop_led_command_witness :
    all_accepted.check_I2C_ready 0 = true
      ∧ led_modes (visit_message_IdentifyModuleStopLEDMessage all_accepted { id := 5 }
          (Run.start (task_in_phase LEDBlinkTaskStatus.BLINK_OFF_WAITING))).trace
        = [LED_MODE.WHITE_OFF]
      ∧ link_not_ready.check_I2C_ready 0 = false
      ∧ led_modes (visit_message_IdentifyModuleStopLEDMessage link_not_ready { id := 5 }
          (Run.start (task_in_phase LEDBlinkTaskStatus.BLINK_OFF_WAITING))).trace
        = [] :=
  ⟨rfl,
    (identify_stop_led_command all_accepted { id := 5 }
      (task_in_phase LEDBlinkTaskStatus.BLINK_OFF_WAITING)).1 rfl,
    rfl,
    ((identify_stop_led_command link_not_ready { id := 5 }
      (task_in_phase LEDBlinkTaskStatus.BLINK_OFF_WAITING)).2 rfl).1⟩

/-- C16. A CheckLEDBlinkStatusMessage handled in phase BLINK_OFF does nothing: the
handler calls no collaborator at all (no `check_I2C_ready`, `start_set_led`,
`delay_time_ms` or `try_send`) and leaves the task, and so the phase BLINK_OFF, as it
was. -/
theorem blink_check_in_off_is_noop (env : Env) (msg : CheckLEDBlinkStatusMessage)
    (task : SystemTask)
    (hoff : task.led_blink_state.status = LEDBlinkTaskStatus.BLINK_OFF) :
    (visit_message_CheckLEDBlinkStatusMessage env msg (Run.start task)).trace = []
      ∧ (visit_message_CheckLEDBlinkStatusMessage env msg (Run.start task)).task = task
      ∧ (visit_message_CheckLEDBlinkStatusMessage env msg
          (Run.start task)).task.led_blink_state.status = LEDBlinkTaskStatus.BLINK_OFF := by
  have hrun : visit_message_CheckLEDBlinkStatusMessage env msg (Run.start task)
      = Run.start task := by
    simp [visit_message_CheckLEDBlinkStatusMessage, hoff, Run.start]
  rw [hrun]
  exact ⟨rfl, rfl, hoff⟩

/-- Witness for C16: a self-check delivered after a stop request was handled. -/
theorem blink_check_in_off_is_noop_witness :
    (run_once all_accepted (some (SystemMessage.IdentifyModuleStopLEDMessage { id := 5 }))
        (task_in_phase LEDBlinkTaskStatus.BLINK_ON_WAITING)).task.led_blink_state.status
        = LEDBlinkTaskStatus.BLINK_OFF
      ∧ (visit_message_CheckLEDBlinkStatusMessage all_accepted {}
          (Run.start (run_once all_accepted
            (some (SystemMessage.IdentifyModuleStopLEDMessage { id := 5 }))
            (task_in_phase LEDBlinkTaskStatus.BLINK_ON_WAITING)).task)).trace = [] :=
  ⟨rfl,
    (blink_check_in_off_is_noop all_accepted {}
      (run_once all_accepted (some (SystemMessage.IdentifyModuleStopLEDMessage { id := 5 }))
        (task_in_phase LEDBlinkTaskStatus.BLINK_ON_WAITING)).task rfl).1⟩

/-! ## The correlation cache on its own -/

theorem well_formed_new (N : Nat) : (AckCache.new N).well_formed := by
  simp [AckCache.well_formed, AckCache.new, AckCache.ids, CACHE_FULL_ID]

theorem well_formed_add {N : Nat} (c : AckCache N) (m : Cacheable) (h : c.well_formed) :
    (c.add m).2.well_formed := by
  obtain ⟨hnodup, hlt, hpos, hlen⟩ := h
  by_cases hroom : c.entries.length < N
  · simp only [AckCache.add, hroom, if_true, AckCache.well_formed, AckCache.ids,
      List.map_append, List.map_cons, List.map_nil, List.length_append, List.length_singleton]
    refine ⟨?_, ?_, ?_, ?_⟩
    · rw [List.nodup_append]
      refine ⟨hnodup, by simp, ?_⟩
      intro a ha hb
      simp only [List.mem_singleton] at hb
      have := hlt a ha
      omega
    · intro id hid
      simp only [List.mem_append, List.mem_singleton] at hid
      rcases hid with hid | hid
      · have := hlt id hid
        omega
      · omega
    · omega
    · omega
  · simp only [AckCache.add, hroom, if_false]
    exact ⟨hnodup, hlt, hpos, hlen⟩

theorem well_formed_remove {N : Nat} (c : AckCache N) (id : Nat) (h : c.well_formed) :
    (c.remove_if_present id).2.well_formed := by
  obtain ⟨hnodup, hlt, hpos, hlen⟩ := h
  have hids : (c.remove_if_present id).2.ids = c.ids.erase id := by
    simp [AckCache.ids, AckCache.remove_if_present, remove_entry_ids]
  have hlen2 : (c.remove_if_present id).2.entries.length ≤ c.entries.length := by
    have h1 : (c.remove_if_present id).2.ids.length ≤ c.ids.length := by
      rw [hids, List.length_erase]
      split_ifs <;> omega
    simpa [AckCache.ids] using h1
  refine ⟨?_, ?_, hpos, by omega⟩
  · rw [hids]
    exact List.Nodup.erase _ hnodup
  · intro j hj
    rw [hids] at hj
    exact hlt j (List.mem_of_mem_erase hj)

theorem well_formed_run_ops {N : Nat} (ops : List CacheOp) :
    ∀ c : AckCache N, c.well_formed → (c.run_ops ops).well_formed := by
  induction ops with
  | nil => intro c h; exact h
  | cons op rest ih =>
    intro c h
    cases op with
    | add m => exact ih _ (well_formed_add c m h)
    | remove_if_present id => exact ih _ (well_formed_remove c id h)

/-- C17. Take a cache of any capacity N, constructed empty and then used through any
sequence of `add` and `remove_if_present` calls. If fewer than N entries are live, the
next `add` succeeds: the id it returns is not held by any live entry (and is not the
cache-full value), and the new entry is stored under it. If N entries are live, the
next `add` fails: it returns the cache-full value and the cache is unchanged. At all
times at most N entries are live and their ids are pairwise distinct. -/
theorem add_returns_fresh_id_or_fails (N : Nat) (ops : List CacheOp) (message : Cacheable) :
    (((AckCache.new N).run_ops ops).entries.length < N →
        (((AckCache.new N).run_ops ops).add message).1 ∉ ((AckCache.new N).run_ops ops).ids
        ∧ (((AckCache.new N).run_ops ops).add message).1 ≠ CACHE_FULL_ID
        ∧ (((AckCache.new N).run_ops ops).add message).2.entries
          = ((AckCache.new N).run_ops ops).entries
            ++ [((((AckCache.new N).run_ops ops).add message).1, message)])
    ∧ (((AckCache.new N).run_ops ops).entries.length = N →
        ((AckCache.new N).run_ops ops).add message
          = (CACHE_FULL_ID, (AckCache.new N).run_ops ops))
    ∧ ((AckCache.new N).run_ops ops).entries.length ≤ N
    ∧ ((AckCache.new N).run_ops ops).ids.Nodup := by
  obtain ⟨hnodup, hlt, hpos, hlen⟩ := well_formed_run_ops ops _ (well_formed_new N)
  refine ⟨?_, ?_, hlen, hnodup⟩
  · intro hroom
    simp only [AckCache.add, hroom, if_true]
    refine ⟨?_, ?_, ?_⟩
    · intro hmem
      have := hlt _ hmem
      omega
    · omega
    · trivial
  · intro hfull
    simp [AckCache.add, hfull]

/-- Witness for C17: capacity 3, after three adds and one removal there is room (the
fourth add returns the fresh id 4); after one more add the cache is full. -/
theorem add_returns_fresh_id_or_fails_witness :
    ((AckCache.new 3).run_ops
        [CacheOp.add (Cacheable.ForceUSBDisconnectMessage { id := 0 }),
         CacheOp.add (Cacheable.ForceUSBDisconnectMessage { id := 0 }),
         CacheOp.add (Cacheable.ForceUSBDisconnectMessage { id := 0 }),
         CacheOp.remove_if_present 2]).entries.length < 3
      ∧ (((AckCache.new 3).run_ops
          [CacheOp.add (Cacheable.ForceUSBDisconnectMessage { id := 0 }),
           CacheOp.add (Cacheable.ForceUSBDisconnectMessage { id := 0 }),
           CacheOp.add (Cacheable.ForceUSBDisconnectMessage { id := 0 }),
           CacheOp.remove_if_present 2]).add
            (Cacheable.ForceUSBDisconnectMessage { id := 0 })).1
        ∉ ((AckCache.new 3).run_ops
          [CacheOp.add (Cacheable.ForceUSBDisconnectMessage { id := 0 }),
           CacheOp.add (Cacheable.ForceUSBDisconnectMessage { id := 0 }),
           CacheOp.add (Cacheable.ForceUSBDisconnectMessage { id := 0 }),
           CacheOp.remove_if_present 2]).ids
      ∧ ((AckCache.new 3).run_ops
          [CacheOp.add (Cacheable.ForceUSBDisconnectMessage { id := 0 }),
           CacheOp.add (Cacheable.ForceUSBDisconnectMessage { id := 0 }),
           CacheOp.add (Cacheable.ForceUSBDisconnectMessage { id := 0 })]).entries.length = 3
      ∧ ((AckCache.new 3).run_ops
          [CacheOp.add (Cacheable.ForceUSBDisconnectMessage { id := 0 }),
           CacheOp.add (Cacheable.ForceUSBDisconnectMessage { id := 0 }),
           CacheOp.add (Cacheable.ForceUSBDisconnectMessage { id := 0 })]).add
            (Cacheable.SetRPMMessage { id := 0, target_rpm := 0, from_system := true })
        = (CACHE_FULL_ID, (AckCache.new 3).run_ops
          [CacheOp.add (Cacheable.ForceUSBDisconnectMessage { id := 0 }),
           CacheOp.add (Cacheable.ForceUSBDisconnectMessage { id := 0 }),
           CacheOp.add (Cacheable.ForceUSBDisconnectMessage { id := 0 })]) :=
  ⟨by decide,
    ((add_returns_fresh_id_or_fails 3
      [CacheOp.add (Cacheable.ForceUSBDisconnectMessage { id := 0 }),
       CacheOp.add (Cacheable.ForceUSBDisconnectMessage { id := 0 }),
       CacheOp.add (Cacheable.ForceUSBDisconnectMessage { id := 0 }),
       CacheOp.remove_if_present 2]
      (Cacheable.ForceUSBDisconnectMessage { id := 0 })).1 (by decide)).1,
    by decide,
    (add_returns_fresh_id_or_fails 3
      [CacheOp.add (Cacheable.ForceUSBDisconnectMessage { id := 0 }),
       CacheOp.add (Cacheable.ForceUSBDisconnectMessage { id := 0 }),
       CacheOp.add (Cacheable.ForceUSBDisconnectMessage { id := 0 })]
      (Cacheable.SetRPMMessage { id := 0, target_rpm := 0, from_system := true })).2.1
      (by decide)⟩

theorem remove_entry_keeps (j id : Nat) (v : Cacheable) (es : List (Nat × Cacheable))
    (hne : j ≠ id) (hmem : (id, v) ∈ es) : (id, v) ∈ (remove_entry j es).2 := by
  induction es with
  | nil => simp at hmem
  | cons e rest ih =>
    obtain ⟨i, m⟩ := e
    by_cases hi : i = j
    · subst hi
      simp only [List.mem_cons, Prod.mk.injEq] at hmem
      rcases hmem with h | h
      · exact absurd h.1.symm hne
      · simpa [remove_entry] using h
    · simp only [List.mem_cons] at hmem
      rcases hmem with h | h
      · simp [remove_entry, hi, h]
      · simp [remove_entry, hi, ih h]

theorem remove_entry_lookup (id : Nat) (v : Cacheable) (es : List (Nat × Cacheable))
    (hnodup : (es.map Prod.fst).Nodup) (hmem : (id, v) ∈ es) :
    (remove_entry id es).1 = CacheElement.holds v := by
  induction es with
  | nil => simp at hmem
  | cons e rest ih =>
    obtain ⟨i, m⟩ := e
    simp only [List.map_cons, List.nodup_cons] at hnodup
    simp only [List.mem_cons, Prod.mk.injEq] at hmem
    rcases hmem with h | h
    · simp [remove_entry, h.1, h.2]
    · have hi : ¬ i = id := by
        intro hi
        apply hnodup.1
        rw [hi]
        exact List.mem_map_of_mem Prod.fst h
      simp [remove_entry, hi, ih hnodup.2 h]

theorem entry_kept_run_ops {N : Nat} (id : Nat) (v : Cacheable) (ops : List CacheOp) :
    ∀ c : AckCache N, (id, v) ∈ c.entries → CacheOp.remove_if_present id ∉ ops →
      (id, v) ∈ (c.run_ops ops).entries := by
  induction ops with
  | nil => intro c h _; exact h
  | cons op rest ih =>
    intro c h hops
    simp only [List.mem_cons, not_or] at hops
    apply ih _ _ hops.2
    cases op with
    | add m =>
      simp only [AckCache.apply, AckCache.add]
      split_ifs
      · simp [h]
      · exact h
    | remove_if_present j =>
      have hne : j ≠ id := by
        intro hj
        exact hops.1 (by rw [hj])
      exact remove_entry_keeps j id v c.entries hne h

theorem remove_listed_ids_empties {N : Nat} (l : List Nat) :
    ∀ c : AckCache N, c.ids.Nodup → (∀ i ∈ c.ids, i ∈ l) →
      (c.run_ops (l.map CacheOp.remove_if_present)).empty = true := by
  induction l with
  | nil =>
    intro c _ hsub
    have hnil : c.entries = [] := by
      cases hentries : c.entries with
      | nil => rfl
      | cons e rest =>
        have := hsub e.1 (by simp [AckCache.ids, hentries])
        simp at this
    simp [AckCache.run_ops, AckCache.empty, hnil]
  | cons id rest ih =>
    intro c hnodup hsub
    have hids : (c.remove_if_present id).2.ids = c.ids.erase id := by
      simp [AckCache.ids, AckCache.remove_if_present, remove_entry_ids]
    apply ih (c.remove_if_present id).2
    · rw [hids]
      exact List.Nodup.erase _ hnodup
    · intro i hi
      rw [hids] at hi
      have hi2 := (List.Nodup.mem_erase_iff hnodup).mp hi
      have := hsub i hi2.2
      simp only [List.mem_cons] at this
      rcases this with h | h
      · exact absurd h hi2.1
      · exact h

/-- C18. Take a cache constructed empty and used through any sequence of calls, with
room left, and let `add(v)` return `id`. After any further calls other than a removal
of `id`, `remove_if_present(id)` returns exactly `v` and `id` is no longer held; a
second `remove_if_present(id)` returns monostate and leaves the cache unchanged. And
from any state so reached, once `remove_if_present` has been called for every held id
(in any order, other ids included), `empty()` is true. -/
theorem remove_returns_stored_variant_once (N : Nat) (ops later : List CacheOp)
    (v : Cacheable) :
    (((AckCache.new N).run_ops ops).entries.length < N →
      CacheOp.remove_if_present (((AckCache.new N).run_ops ops).add v).1 ∉ later →
        (((((AckCache.new N).run_ops ops).add v).2.run_ops later).remove_if_present
            (((AckCache.new N).run_ops ops).add v).1).1 = CacheElement.holds v
        ∧ (((AckCache.new N).run_ops ops).add v).1
            ∉ (((((AckCache.new N).run_ops ops).add v).2.run_ops later).remove_if_present
                (((AckCache.new N).run_ops ops).add v).1).2.ids
        ∧ ((((((AckCache.new N).run_ops ops).add v).2.run_ops later).remove_if_present
              (((AckCache.new N).run_ops ops).add v).1).2.remove_if_present
                (((AckCache.new N).run_ops ops).add v).1)
          = (CacheElement.monostate,
              (((((AckCache.new N).run_ops ops).add v).2.run_ops later).remove_if_present
                (((AckCache.new N).run_ops ops).add v).1).2))
    ∧ (∀ l : List Nat, (∀ i ∈ ((AckCache.new N).run_ops ops).ids, i ∈ l) →
        (((AckCache.new N).run_ops ops).run_ops
          (l.map CacheOp.remove_if_present)).empty = true) := by
  have hwf := well_formed_run_ops ops _ (well_formed_new N)
  refine ⟨?_, ?_⟩
  · intro hroom hlater
    have hwf1 := well_formed_add _ v hwf
    have hwf2 := well_formed_run_ops later _ hwf1
    have hstored : ((((AckCache.new N).run_ops ops).add v).1, v)
        ∈ (((AckCache.new N).run_ops ops).add v).2.entries := by
      simp [AckCache.add, hroom]
    have hlive := entry_kept_run_ops _ v later _ hstored hlater
    have hids : ∀ c : AckCache N, ∀ id, (c.remove_if_present id).2.ids = c.ids.erase id := by
      intro c id
      simp [AckCache.ids, AckCache.remove_if_present, remove_entry_ids]
    have hgone : (((AckCache.new N).run_ops ops).add v).1
        ∉ (((((AckCache.new N).run_ops ops).add v).2.run_ops later).remove_if_present
            (((AckCache.new N).run_ops ops).add v).1).2.ids := by
      rw [hids]
      exact fun h => ((List.Nodup.mem_erase_iff hwf2.1).mp h).1 rfl
    refine ⟨?_, hgone, ?_⟩
    · exact remove_entry_lookup _ v _ hwf2.1 hlive
    · simp only [AckCache.ids, AckCache.remove_if_present] at hgone
      simp only [AckCache.remove_if_present]
      rw [remove_entry_absent _ _ hgone]
  · intro l hsub
    exact remove_listed_ids_empties l _ hwf.1 hsub

/-- Witness for C18: capacity 3, one entry already live; a SetRPMMessage is added
(id 2), another entry is added and the first removed in between, then id 2 is
removed. -/
theorem remove_returns_stored_variant_once_witness :
    ((AckCache.new 3).run_ops
        [CacheOp.add (Cacheable.ForceUSBDisconnectMessage { id := 0 })]).entries.length < 3
      ∧ (((((AckCache.new 3).run_ops
          [CacheOp.add (Cacheable.ForceUSBDisconnectMessage { id := 0 })]).add
            (Cacheable.SetRPMMessage
              { id := 0, target_rpm := 0, from_system := true })).2.run_ops
          [CacheOp.add (Cacheable.ForceUSBDisconnectMessage { id := 0 }),
           CacheOp.remove_if_present 1]).remove_if_present
            (((AckCache.new 3).run_ops
              [CacheOp.add (Cacheable.ForceUSBDisconnectMessage { id := 0 })]).add
                (Cacheable.SetRPMMessage
                  { id := 0, target_rpm := 0, from_system := true })).1).1
        = CacheElement.holds
            (Cacheable.SetRPMMessage { id := 0, target_rpm := 0, from_system := true })
      ∧ (((AckCache.new 3).run_ops
          [CacheOp.add (Cacheable.ForceUSBDisconnectMessage { id := 0 })]).run_ops
            ([5, 1].map CacheOp.remove_if_present)).empty = true :=
  ⟨by decide,
    ((remove_returns_stored_variant_once 3
      [CacheOp.add (Cacheable.ForceUSBDisconnectMessage { id := 0 })]
      [CacheOp.add (Cacheable.ForceUSBDisconnectMessage { id := 0 }),
       CacheOp.remove_if_present 1]
      (Cacheable.SetRPMMessage { id := 0, target_rpm := 0, from_system := true })).1
      (by decide) (by decide)).1,
    (remove_returns_stored_variant_once 3
      [CacheOp.add (Cacheable.ForceUSBDisconnectMessage { id := 0 })] []
      (Cacheable.SetRPMMessage { id := 0, target_rpm := 0, from_system := true })).2
      [5, 1] (by decide)⟩

/-! ## The fan-out on a full cache -/

/-- A cache reached from construction by `add` and `remove_if_present` calls never
holds an entry under the cache-full value. -/
theorem well_formed_full_id_free {N : Nat} (c : AckCache N) (h : c.well_formed) :
    CACHE_FULL_ID ∉ c.ids := by
  intro hmem
  have := (h.2.1 _ hmem).1
  omega

/-- One leg of the fan-out on a cache at capacity: `add` fails, the request goes out
stamped with the cache-full value, and the task is left as it was whether or not the
queue accepts. -/
theorem fan_out_leg_on_full_cache (env : Env) (r : Run) (q : QueueId) (cached : Cacheable)
    (stamp : Nat → Outbound) (hfull : r.task.prep_cache.entries.length = 3)
    (hfree : CACHE_FULL_ID ∉ r.task.prep_cache.ids) :
    (fan_out_leg env r q cached stamp).task = r.task
      ∧ (fan_out_leg env r q cached stamp).trace
        = r.trace ++ [Event.try_send q (stamp CACHE_FULL_ID) (some 1)
            (env.try_send q (sends_on q r.trace))] := by
  have hadd : r.task.prep_cache.add cached = (CACHE_FULL_ID, r.task.prep_cache) := by
    simp [AckCache.add, hfull]
  have hrem : r.task.prep_cache.remove_if_present CACHE_FULL_ID
      = (CacheElement.monostate, r.task.prep_cache) := by
    simp only [AckCache.remove_if_present, remove_entry_absent _ _ hfree]
  refine ⟨?_, ?_⟩
  · rw [fan_out_leg_task, hadd]
    simp only [hrem, ite_self]
  · rw [fan_out_leg_trace, hadd]

/-- C19 as stated fails: an EnterBootloaderMessage handled while the three requests of
an earlier fan-out are outstanding finds the cache at capacity, `add` fails for the
motor leg and returns the cache-full value, and the handler still hands the
SetRPMMessage stamped with that value to the motor queue (likewise for the other two
legs). -/
theorem fan_out_sends_despite_failed_add :
    (run_once all_accepted (some (SystemMessage.EnterBootloaderMessage { id := 7 }))
        SystemTask.new).task.prep_cache.entries.length = 3
      ∧ (run_once all_accepted (some (SystemMessage.EnterBootloaderMessage { id := 7 }))
          SystemTask.new).task.prep_cache.add
            (Cacheable.SetRPMMessage { id := 0, target_rpm := 0, from_system := true })
        = (CACHE_FULL_ID,
            (run_once all_accepted (some (SystemMessage.EnterBootloaderMessage { id := 7 }))
              SystemTask.new).task.prep_cache)
      ∧ send_attempts
          (run_once all_accepted (some (SystemMessage.EnterBootloaderMessage { id := 8 }))
            (run_once all_accepted (some (SystemMessage.EnterBootloaderMessage { id := 7 }))
              SystemTask.new).task).trace
        = [(QueueId.motor,
            Outbound.SetRPMMessage
              { id := CACHE_FULL_ID, target_rpm := 0, from_system := true }),
           (QueueId.heater,
            Outbound.SetTemperatureMessage
              { id := CACHE_FULL_ID, target_temperature := 0, from_system := true }),
           (QueueId.comms, Outbound.ForceUSBDisconnectMessage { id := CACHE_FULL_ID }),
           (QueueId.comms, Outbound.AcknowledgePrevious { responding_to_id := 8 })] := by
  decide

/-- C19, amended. When `prep_cache.add` fails for a leg because the cache is at
capacity, the leg's request is stamped with the value the failed `add` returned (the
cache-full value) and handed to `try_send` like any other; whether or not the queue
accepts it, the task and every entry that was live are left as they were, provided no
live entry is held under the cache-full value (true of every cache that was
constructed empty and used through `add` and `remove_if_present`). In particular an
EnterBootloaderMessage handled on a cache at capacity sends all three requests with
the cache-full value as id, sends the acknowledgement, leaves the task unchanged and
does not call `enter_bootloader`. -/
theorem fan_out_on_full_cache (env : Env) (message : EnterBootloaderMessage)
    (task : SystemTask) (hfull : task.prep_cache.entries.length = 3)
    (hfree : CACHE_FULL_ID ∉ task.prep_cache.ids) :
    (∀ (r : Run) (q : QueueId) (cached : Cacheable) (stamp : Nat → Outbound),
        r.task.prep_cache.entries.length = 3 → CACHE_FULL_ID ∉ r.task.prep_cache.ids →
        (r.task.prep_cache.add cached).1 = CACHE_FULL_ID
        ∧ (fan_out_leg env r q cached stamp).task = r.task
        ∧ send_attempts (fan_out_leg env r q cached stamp).trace
          = send_attempts r.trace ++ [(q, stamp (r.task.prep_cache.add cached).1)])
    ∧ send_attempts (visit_message_EnterBootloaderMessage env message (Run.start task)).trace
        = [(QueueId.motor,
            Outbound.SetRPMMessage
              { id := CACHE_FULL_ID, target_rpm := 0, from_system := true }),
           (QueueId.heater,
            Outbound.SetTemperatureMessage
              { id := CACHE_FULL_ID, target_temperature := 0, from_system := true }),
           (QueueId.comms, Outbound.ForceUSBDisconnectMessage { id := CACHE_FULL_ID }),
           (QueueId.comms, Outbound.AcknowledgePrevious { responding_to_id := message.id })]
    ∧ (visit_message_EnterBootloaderMessage env message (Run.start task)).task = task
    ∧ bootloader_entries
        (visit_message_EnterBootloaderMessage env message (Run.start task)).trace = 0 := by
  refine ⟨?_, ?_⟩
  · intro r q cached stamp hf hfr
    have hleg := fan_out_leg_on_full_cache env r q cached stamp hf hfr
    have hadd : (r.task.prep_cache.add cached).1 = CACHE_FULL_ID := by
      simp [AckCache.add, hf]
    refine ⟨hadd, hleg.1, ?_⟩
    rw [hleg.2, hadd, send_attempts_append]
    simp [send_attempts]
  · have h1 := fan_out_leg_on_full_cache env (Run.start task) QueueId.motor
      (Cacheable.SetRPMMessage { id := 0, target_rpm := 0, from_system := true })
      (fun id => Outbound.SetRPMMessage { id := id, target_rpm := 0, from_system := true })
      hfull hfree
    have h2 := fan_out_leg_on_full_cache env _ QueueId.heater
      (Cacheable.SetTemperatureMessage
        { id := 0, target_temperature := 0, from_system := true })
      (fun id => Outbound.SetTemperatureMessage
        { id := id, target_temperature := 0, from_system := true })
      (by rw [h1.1]; exact hfull) (by rw [h1.1]; exact hfree)
    have h3 := fan_out_leg_on_full_cache env _ QueueId.comms
      (Cacheable.ForceUSBDisconnectMessage { id := 0 })
      (fun id => Outbound.ForceUSBDisconnectMessage { id := id })
      (by rw [h2.1, h1.1]; exact hfull) (by rw [h2.1, h1.1]; exact hfree)
    have hnonempty : task.prep_cache.empty = false := by
      simp only [AckCache.empty]
      cases hentries : task.prep_cache.entries with
      | nil => rw [hentries] at hfull; simp at hfull
      | cons e rest => rfl
    rw [visit_EnterBootloaderMessage_legs]
    simp only [Run.try_send, bootloader_entries_append, send_attempts_append,
      Run.enter_bootloader, h3.1, h2.1, h1.1, h3.2, h2.2, h1.2]
    have hstart : (Run.start task).task = task := rfl
    simp [hstart, hnonempty, Run.start, send_attempts, bootloader_entries,
      send_attempts_append, bootloader_entries_append]

/-- Witness for C19, amended: the second EnterBootloaderMessage on the cache left full
by a first fan-out in which every request was accepted; this time every queue
rejects. -/
theorem fan_out_on_full_cache_witness :
    (run_once all_accepted (some (SystemMessage.EnterBootloaderMessage { id := 7 }))
        SystemTask.new).task.prep_cache.entries.length = 3
      ∧ CACHE_FULL_ID ∉ (run_once all_accepted
          (some (SystemMessage.EnterBootloaderMessage { id := 7 }))
          SystemTask.new).task.prep_cache.ids
      ∧ (visit_message_EnterBootloaderMessage all_rejected { id := 8 }
          (Run.start (run_once all_accepted
            (some (SystemMessage.EnterBootloaderMessage { id := 7 }))
            SystemTask.new).task)).task
        = (run_once all_accepted (some (SystemMessage.EnterBootloaderMessage { id := 7 }))
            SystemTask.new).task :=
  ⟨by decide, by decide,
    (fan_out_on_full_cache all_rejected { id := 8 }
      (run_once all_accepted (some (SystemMessage.EnterBootloaderMessage { id := 7 }))
        SystemTask.new).task (by decide) (by decide)).2.2.1⟩

/-! ## Responses to host requests -/

/-- C20. For every task state and every behaviour of the policy and of the queues, each
host-request handler makes exactly one `try_send` to the comms queue, of a response
whose `responding_to_id` is the id of the request. For SetSerialNumberMessage the
response's `with_error` is what `set_serial_number(msg.serial_number)` returned; for
GetSystemInfoMessage its `serial_number` is what `get_serial_number()` returned; for
the three LED requests `with_error` is SYSTEM_LED_I2C_NOT_READY if the link is not
ready and otherwise what `start_set_led` returned. -/
theorem host_requests_get_one_correlated_response (env : Env) (task : SystemTask) :
    (∀ msg : SetSerialNumberMessage,
      (visit_message_SetSerialNumberMessage env msg (Run.start task)).trace
        = [Event.set_serial_number msg.serial_number
             (env.set_serial_number 0 msg.serial_number),
           Event.try_send QueueId.comms
             (Outbound.AcknowledgePrevious
               { responding_to_id := msg.id,
                 with_error := env.set_serial_number 0 msg.serial_number })
             none (env.try_send QueueId.comms 0)])
    ∧ (∀ msg : GetSystemInfoMessage,
      (visit_message_GetSystemInfoMessage env msg (Run.start task)).trace
        = [Event.get_serial_number (env.get_serial_number 0),
           Event.try_send QueueId.comms
             (Outbound.GetSystemInfoResponse
               { responding_to_id := msg.id,
                 serial_number := env.get_serial_number 0,
                 fw_version := env.fw_version,
                 hw_version := env.hw_version })
             none (env.try_send QueueId.comms 0)])
    ∧ (∀ msg : SetLEDMessage,
      sent_to QueueId.comms (visit_message_SetLEDMessage env msg (Run.start task)).trace
        = [Outbound.AcknowledgePrevious
            { responding_to_id := msg.id,
              with_error :=
                if env.check_I2C_ready 0 = true then env.start_set_led 0 msg.mode
                else ErrorCode.SYSTEM_LED_I2C_NOT_READY }])
    ∧ (∀ msg : IdentifyModuleStartLEDMessage,
      sent_to QueueId.comms
          (visit_message_IdentifyModuleStartLEDMessage env msg (Run.start task)).trace
        = [Outbound.AcknowledgePrevious
            { responding_to_id := msg.id,
              with_error :=
                if env.check_I2C_ready 0 = true then env.start_set_led 0 LED_MODE.WHITE_ON
                else ErrorCode.SYSTEM_LED_I2C_NOT_READY }])
    ∧ (∀ msg : IdentifyModuleStopLEDMessage,
      sent_to QueueId.comms
          (visit_message_IdentifyModuleStopLEDMessage env msg (Run.start task)).trace
        = [Outbound.AcknowledgePrevious
            { responding_to_id := msg.id,
              with_error :=
                if env.check_I2C_ready 0 = true then env.start_set_led 0 LED_MODE.WHITE_OFF
                else ErrorCode.SYSTEM_LED_I2C_NOT_READY }]) := by
  refine ⟨?_, ?_, ?_, ?_, ?_⟩
  · intro msg
    simp [visit_message_SetSerialNumberMessage, Run.start, Run.set_serial_number,
      Run.try_send, serial_writes, sends_on]
  · intro msg
    simp [visit_message_GetSystemInfoMessage, Run.start, Run.get_serial_number,
      Run.try_send, serial_reads, sends_on]
  · intro msg
    cases hready : env.check_I2C_ready 0 <;>
      simp [visit_message_SetLEDMessage, Run.start, Run.check_I2C_ready, Run.start_set_led,
        Run.try_send, ready_checks, led_commands, sends_on, sent_to, hready]
  · intro msg
    cases hready : env.check_I2C_ready 0 <;>
      simp [visit_message_IdentifyModuleStartLEDMessage, Run.start, Run.check_I2C_ready,
        Run.start_set_led, Run.set_status, Run.delay_time_ms, Run.try_send, ready_checks,
        led_commands, sends_on, sent_to, hready]
  · intro msg
    cases hready : env.check_I2C_ready 0 <;>
      simp [visit_message_IdentifyModuleStopLEDMessage, Run.start, Run.check_I2C_ready,
        Run.start_set_led, Run.set_status, Run.try_send, ready_checks, led_commands,
        sends_on, sent_to, hready]

/-! ## What each handler leaves alone -/

theorem led_commands_append (xs ys : List Event) :
    led_commands (xs ++ ys) = led_commands xs + led_commands ys := by
  induction xs with
  | nil => simp [led_commands]
  | cons e rest ih => cases e <;> simp [led_commands, ih, Nat.add_assoc]

/-- The EnterBootloaderMessage handler changes nothing in the task but the cache and
never calls `start_set_led`. -/
theorem enter_bootloader_frame (env : Env) (message : EnterBootloaderMessage)
    (task : SystemTask) :
    (visit_message_EnterBootloaderMessage env message (Run.start task)).task.led_blink_state
        = task.led_blink_state
      ∧ (visit_message_EnterBootloaderMessage env message (Run.start task)).task.task_registry
        = task.task_registry
      ∧ led_commands
          (visit_message_EnterBootloaderMessage env message (Run.start task)).trace = 0 := by
  refine ⟨?_, ?_, ?_⟩
  · rw [visit_EnterBootloaderMessage_legs]
    simp only []
    split_ifs <;> simp [Run.enter_bootloader, Run.try_send, fan_out_leg_task, Run.start]
  · rw [visit_EnterBootloaderMessage_legs]
    simp only []
    split_ifs <;> simp [Run.enter_bootloader, Run.try_send, fan_out_leg_task, Run.start]
  · obtain ⟨tail, htail, htrace⟩ := visit_EnterBootloaderMessage_trace env message task
    rw [htrace]
    rcases htail with h | h <;> subst h <;> simp [led_commands]

/-- The AcknowledgePrevious handler changes nothing in the task but the cache and
never calls `start_set_led`. -/
theorem acknowledge_frame (env : Env) (message : AcknowledgePrevious) (task : SystemTask) :
    (visit_message_AcknowledgePrevious env message (Run.start task)).task.led_blink_state
        = task.led_blink_state
      ∧ (visit_message_AcknowledgePrevious env message (Run.start task)).task.task_registry
        = task.task_registry
      ∧ led_commands
          (visit_message_AcknowledgePrevious env message (Run.start task)).trace = 0 := by
  rw [visit_AcknowledgePrevious_eq]
  refine ⟨rfl, rfl, ?_⟩
  simp only [led_commands_append]
  split_ifs <;> simp [led_commands]

/-- The SetSerialNumber, GetSystemInfo and SetLED handlers leave the task as it was. -/
theorem plain_request_frame (env : Env) (task : SystemTask) :
    (∀ msg : SetSerialNumberMessage,
        (visit_message_SetSerialNumberMessage env msg (Run.start task)).task = task)
      ∧ (∀ msg : GetSystemInfoMessage,
        (visit_message_GetSystemInfoMessage env msg (Run.start task)).task = task)
      ∧ (∀ msg : SetLEDMessage,
        (visit_message_SetLEDMessage env msg (Run.start task)).task = task) := by
  refine ⟨?_, ?_, ?_⟩
  · intro msg
    simp [visit_message_SetSerialNumberMessage, Run.start, Run.set_serial_number, Run.try_send]
  · intro msg
    simp [visit_message_GetSystemInfoMessage, Run.start, Run.get_serial_number, Run.try_send]
  · intro msg
    cases hready : env.check_I2C_ready 0 <;>
      simp [visit_message_SetLEDMessage, Run.start, Run.check_I2C_ready, Run.start_set_led,
        Run.try_send, ready_checks, hready]

/-- The IdentifyModuleStartLED handler changes nothing in the task but the phase, which
it sets to BLINK_ON_WAITING. -/
theorem identify_start_task (env : Env) (msg : IdentifyModuleStartLEDMessage)
    (task : SystemTask) :
    (visit_message_IdentifyModuleStartLEDMessage env msg (Run.start task)).task
      = { task with led_blink_state := { status := LEDBlinkTaskStatus.BLINK_ON_WAITING } } := by
  cases hready : env.check_I2C_ready 0 <;>
    simp [visit_message_IdentifyModuleStartLEDMessage, Run.start, Run.check_I2C_ready,
      Run.start_set_led, Run.set_status, Run.delay_time_ms, Run.try_send, ready_checks, hready]

/-- The CheckLEDBlinkStatus handler changes nothing in the task but the phase. -/
theorem blink_check_frame (env : Env) (msg : CheckLEDBlinkStatusMessage) (task : SystemTask) :
    (visit_message_CheckLEDBlinkStatusMessage env msg (Run.start task)).task.prep_cache
        = task.prep_cache
      ∧ (visit_message_CheckLEDBlinkStatusMessage env msg (Run.start task)).task.task_registry
        = task.task_registry := by
  obtain ⟨⟨status⟩, reg, cache⟩ := task
  cases status <;> cases hready : env.check_I2C_ready 0 <;>
    by_cases hoff : env.start_set_led 0 LED_MODE.WHITE_OFF = ErrorCode.NO_ERROR <;>
    by_cases hon : env.start_set_led 0 LED_MODE.WHITE_ON = ErrorCode.NO_ERROR <;>
    simp [visit_message_CheckLEDBlinkStatusMessage, Run.start, Run.check_I2C_ready,
      Run.start_set_led, Run.set_status, Run.try_send, Run.delay_time_ms, ready_checks,
      led_commands, hready, hoff, hon]

/-! ## Registry, SetLED, the wake message, and separation of the two protocols -/

/-- C21 as stated fails: a second call of `provide_tasks` with a different pointer
replaces the registry reference stored by the first. -/
theorem provide_tasks_overwrites :
    ((SystemTask.new.provide_tasks (some 1)).provide_tasks (some 2)).task_registry = some 2
      ∧ ((SystemTask.new.provide_tasks (some 1)).provide_tasks (some 2)).task_registry
        ≠ (SystemTask.new.provide_tasks (some 1)).task_registry := by
  decide

/-- C21, amended. `provide_tasks` stores the pointer it is given, whatever was stored
before, so the registry reference is always the argument of the latest call and
nothing else in the task changes; and no message handler modifies the registry
reference. -/
theorem registry_set_by_latest_provide_tasks (task : SystemTask) :
    (∀ other_tasks : Option Nat,
        task.provide_tasks other_tasks = { task with task_registry := other_tasks })
      ∧ (∀ first second : Option Nat,
        ((task.provide_tasks first).provide_tasks second).task_registry = second)
      ∧ (∀ (env : Env) (message : SystemMessage),
        (visit_message env message (Run.start task)).task.task_registry
          = task.task_registry) := by
  refine ⟨fun _ => rfl, fun _ _ => rfl, ?_⟩
  intro env message
  cases message with
  | monostate => rfl
  | EnterBootloaderMessage m => exact (enter_bootloader_frame env m task).2.1
  | AcknowledgePrevious m => exact (acknowledge_frame env m task).2.1
  | SetSerialNumberMessage m =>
    simp only [visit_message]
    rw [(plain_request_frame env task).1 m]
  | GetSystemInfoMessage m =>
    simp only [visit_message]
    rw [(plain_request_frame env task).2.1 m]
  | SetLEDMessage m =>
    simp only [visit_message]
    rw [(plain_request_frame env task).2.2 m]
  | IdentifyModuleStartLEDMessage m =>
    simp only [visit_message]
    rw [identify_start_task]
  | IdentifyModuleStopLEDMessage m =>
    simp only [visit_message]
    rw [visit_IdentifyModuleStopLEDMessage_eq]
  | CheckLEDBlinkStatusMessage m => exact (blink_check_frame env m task).2

/-- C24. SetLEDMessage: if `check_I2C_ready` answers false the handler never calls
`start_set_led` and the response carries SYSTEM_LED_I2C_NOT_READY; if it answers true
the handler calls `start_set_led(msg.mode)` exactly once and the response carries
what that call returned. In both cases the task, and so the blink phase and the
correlation cache, is unchanged. -/
theorem set_led_gated_by_link (env : Env) (msg : SetLEDMessage) (task : SystemTask) :
    (env.check_I2C_ready 0 = false →
      (visit_message_SetLEDMessage env msg (Run.start task)).trace
        = [Event.check_I2C_ready false,
           Event.try_send QueueId.comms
             (Outbound.AcknowledgePrevious
               { responding_to_id := msg.id,
                 with_error := ErrorCode.SYSTEM_LED_I2C_NOT_READY })
             none (env.try_send QueueId.comms 0)])
    ∧ (env.check_I2C_ready 0 = true →
      (visit_message_SetLEDMessage env msg (Run.start task)).trace
        = [Event.check_I2C_ready true,
           Event.start_set_led msg.mode (env.start_set_led 0 msg.mode),
           Event.try_send QueueId.comms
             (Outbound.AcknowledgePrevious
               { responding_to_id := msg.id, with_error := env.start_set_led 0 msg.mode })
             none (env.try_send QueueId.comms 0)])
    ∧ (visit_message_SetLEDMessage env msg (Run.start task)).task = task
    ∧ (visit_message_SetLEDMessage env msg (Run.start task)).task.led_blink_state
        = task.led_blink_state
    ∧ (visit_message_SetLEDMessage env msg (Run.start task)).task.prep_cache
        = task.prep_cache := by
  have htask := (plain_request_frame env task).2.2 msg
  refine ⟨?_, ?_, htask, by rw [htask], by rw [htask]⟩
  · intro hready
    simp [visit_message_SetLEDMessage, Run.start, Run.check_I2C_ready, Run.start_set_led,
      Run.try_send, ready_checks, led_commands, sends_on, hready]
  · intro hready
    simp [visit_message_SetLEDMessage, Run.start, Run.check_I2C_ready, Run.start_set_led,
      Run.try_send, ready_checks, led_commands, sends_on, hready]

/-- Witness for C24: the same red-on request with the link not ready and ready. -/
theorem set_led_gated_by_link_witness :
    link_not_ready.check_I2C_ready 0 = false
      ∧ led_modes (visit_message_SetLEDMessage link_not_ready
          { id := 4, mode := LED_MODE.RED_ON } (Run.start SystemTask.new)).trace = []
      ∧ led_transmit_fails.check_I2C_ready 0 = true
      ∧ (visit_message_SetLEDMessage led_transmit_fails
          { id := 4, mode := LED_MODE.RED_ON } (Run.start SystemTask.new)).trace
        = [Event.check_I2C_ready true,
           Event.start_set_led LED_MODE.RED_ON (ErrorCode.OTHER 3),
           Event.try_send QueueId.comms
             (Outbound.AcknowledgePrevious
               { responding_to_id := 4, with_error := ErrorCode.OTHER 3 })
             none true] :=
  ⟨rfl,
    congrArg led_modes
      ((set_led_gated_by_link link_not_ready { id := 4, mode := LED_MODE.RED_ON }
        SystemTask.new).1 rfl),
    rfl,
    (set_led_gated_by_link led_transmit_fails { id := 4, mode := LED_MODE.RED_ON }
      SystemTask.new).2.1 rfl⟩

/-- C25. Handling `std::monostate`, which is what `run_once` dispatches when `recv`
delivers nothing, makes no call to the policy or to any queue and leaves the task,
and so the blink phase and the correlation cache, unchanged. -/
theorem monostate_is_noop (env : Env) (task : SystemTask) :
    visit_message_monostate env (Run.start task) = { task := task, trace := [] }
      ∧ run_once env none task = { task := task, trace := [] }
      ∧ run_once env (some SystemMessage.monostate) task = { task := task, trace := [] }
      ∧ (run_once env none task).task.led_blink_state = task.led_blink_state
      ∧ (run_once env none task).task.prep_cache = task.prep_cache
      ∧ (run_once env none task).trace = [] :=
  ⟨rfl, rfl, rfl, rfl, rfl, rfl⟩

/-- C26. Separation of the two protocols. The EnterBootloader and AcknowledgePrevious
handlers leave the blink phase unchanged and never call `start_set_led`; the
IdentifyModuleStartLED, IdentifyModuleStopLED and CheckLEDBlinkStatus handlers leave
the correlation cache unchanged; the SetSerialNumber, GetSystemInfo, SetLED and
monostate handlers leave both unchanged. -/
theorem protocols_keep_separate_state (env : Env) (task : SystemTask) :
    (∀ m : EnterBootloaderMessage,
        (visit_message env (SystemMessage.EnterBootloaderMessage m)
          (Run.start task)).task.led_blink_state = task.led_blink_state
        ∧ led_commands (visit_message env (SystemMessage.EnterBootloaderMessage m)
          (Run.start task)).trace = 0)
      ∧ (∀ m : AcknowledgePrevious,
        (visit_message env (SystemMessage.AcknowledgePrevious m)
          (Run.start task)).task.led_blink_state = task.led_blink_state
        ∧ led_commands (visit_message env (SystemMessage.AcknowledgePrevious m)
          (Run.start task)).trace = 0)
      ∧ (∀ m : IdentifyModuleStartLEDMessage,
        (visit_message env (SystemMessage.IdentifyModuleStartLEDMessage m)
          (Run.start task)).task.prep_cache = task.prep_cache)
      ∧ (∀ m : IdentifyModuleStopLEDMessage,
        (visit_message env (SystemMessage.IdentifyModuleStopLEDMessage m)
          (Run.start task)).task.prep_cache = task.prep_cache)
      ∧ (∀ m : CheckLEDBlinkStatusMessage,
        (visit_message env (SystemMessage.CheckLEDBlinkStatusMessage m)
          (Run.start task)).task.prep_cache = task.prep_cache)
      ∧ (∀ m : SetSerialNumberMessage,
        (visit_message env (SystemMessage.SetSerialNumberMessage m) (Run.start task)).task
          = task)
      ∧ (∀ m : GetSystemInfoMessage,
        (visit_message env (SystemMessage.GetSystemInfoMessage m) (Run.start task)).task
          = task)
      ∧ (∀ m : SetLEDMessage,
        (visit_message env (SystemMessage.SetLEDMessage m) (Run.start task)).task = task)
      ∧ (visit_message env SystemMessage.monostate (Run.start task)).task = task := by
  refine ⟨?_, ?_, ?_, ?_, ?_, ?_, ?_, ?_, rfl⟩
  · intro m
    exact ⟨(enter_bootloader_frame env m task).1, (enter_bootloader_frame env m task).2.2⟩
  · intro m
    exact ⟨(acknowledge_frame env m task).1, (acknowledge_frame env m task).2.2⟩
  · intro m
    simp only [visit_message]
    rw [identify_start_task]
  · intro m
    simp only [visit_message]
    rw [visit_IdentifyModuleStopLEDMessage_eq]
  · intro m
    exact (blink_check_frame env m task).1
  · intro m
    exact (plain_request_frame env task).1 m
  · intro m
    exact (plain_request_frame env task).2.1 m
  · intro m
    exact (plain_request_frame env task).2.2 m

/-- The calls of the IdentifyModuleStartLED handler, for both answers of the readiness
check. -/
theorem identify_start_trace (env : Env) (msg : IdentifyModuleStartLEDMessage)
    (task : SystemTask) :
    (visit_message_IdentifyModuleStartLEDMessage env msg (Run.start task)).trace
      = (if env.check_I2C_ready 0 = true then
          [Event.check_I2C_ready true,
           Event.start_set_led LED_MODE.WHITE_ON (env.start_set_led 0 LED_MODE.WHITE_ON),
           Event.try_send QueueId.comms
             (Outbound.AcknowledgePrevious
               { responding_to_id := msg.id,
                 with_error := env.start_set_led 0 LED_MODE.WHITE_ON })
             none (env.try_send QueueId.comms 0)]
        else
          [Event.check_I2C_ready false,
           Event.try_send QueueId.comms
             (Outbound.AcknowledgePrevious
               { responding_to_id := msg.id,
                 with_error := ErrorCode.SYSTEM_LED_I2C_NOT_READY })
             none (env.try_send QueueId.comms 0)])
        ++ [Event.delay_time_ms 500,
            Event.try_send QueueId.system (Outbound.CheckLEDBlinkStatusMessage {}) none
              (env.try_send QueueId.system 0)] := by
  cases hready : env.check_I2C_ready 0 <;>
    simp [visit_message_IdentifyModuleStartLEDMessage, Run.start, Run.check_I2C_ready,
      Run.start_set_led, Run.set_status, Run.delay_time_ms, Run.try_send, ready_checks,
      led_commands, sends_on, hready, LED_BLINK_WAIT_MS]

/-- C27. In every phase and for every behaviour of the policy and of the queues, the
IdentifyModuleStartLED handler sets the phase to BLINK_ON_WAITING and makes exactly one
`try_send` of a CheckLEDBlinkStatusMessage to its own queue; with the link not ready
it does not call `start_set_led` and the response carries SYSTEM_LED_I2C_NOT_READY.
Hence two start requests handled one after the other each hand a self-check to the
task's own queue, and if the queue accepts both, two self-checks are pending. -/
theorem identify_start_always_schedules (env : Env) (msg : IdentifyModuleStartLEDMessage)
    (task : SystemTask) :
    (visit_message_IdentifyModuleStartLEDMessage env msg
        (Run.start task)).task.led_blink_state.status = LEDBlinkTaskStatus.BLINK_ON_WAITING
      ∧ sent_to QueueId.system
          (visit_message_IdentifyModuleStartLEDMessage env msg (Run.start task)).trace
        = [Outbound.CheckLEDBlinkStatusMessage {}]
      ∧ (env.check_I2C_ready 0 = false →
          led_commands
              (visit_message_IdentifyModuleStartLEDMessage env msg (Run.start task)).trace = 0
            ∧ sent_to QueueId.comms
                (visit_message_IdentifyModuleStartLEDMessage env msg (Run.start task)).trace
              = [Outbound.AcknowledgePrevious
                  { responding_to_id := msg.id,
                    with_error := ErrorCode.SYSTEM_LED_I2C_NOT_READY }])
      ∧ (∀ (env2 : Env) (msg2 : IdentifyModuleStartLEDMessage),
          (handle_all
              [(env, SystemMessage.IdentifyModuleStartLEDMessage msg),
               (env2, SystemMessage.IdentifyModuleStartLEDMessage msg2)] task).map
                (fun r => sent_to QueueId.system r.trace)
            = [[Outbound.CheckLEDBlinkStatusMessage {}],
               [Outbound.CheckLEDBlinkStatusMessage {}]]
          ∧ (env.try_send QueueId.system 0 = true → env2.try_send QueueId.system 0 = true →
            (handle_all
                [(env, SystemMessage.IdentifyModuleStartLEDMessage msg),
                 (env2, SystemMessage.IdentifyModuleStartLEDMessage msg2)] task).map
                  (fun r => accepted_by QueueId.system r.trace)
              = [[Outbound.CheckLEDBlinkStatusMessage {}],
                 [Outbound.CheckLEDBlinkStatusMessage {}]])) := by
  have hsent : ∀ (e : Env) (m : IdentifyModuleStartLEDMessage) (t : SystemTask),
      sent_to QueueId.system
          (visit_message_IdentifyModuleStartLEDMessage e m (Run.start t)).trace
        = [Outbound.CheckLEDBlinkStatusMessage {}] := by
    intro e m t
    rw [identify_start_trace]
    cases hready : e.check_I2C_ready 0 <;> simp [sent_to]
  have hacc : ∀ (e : Env) (m : IdentifyModuleStartLEDMessage) (t : SystemTask),
      e.try_send QueueId.system 0 = true →
      accepted_by QueueId.system
          (visit_message_IdentifyModuleStartLEDMessage e m (Run.start t)).trace
        = [Outbound.CheckLEDBlinkStatusMessage {}] := by
    intro e m t haccept
    rw [identify_start_trace]
    cases hready : e.check_I2C_ready 0 <;> cases hcomms : e.try_send QueueId.comms 0 <;>
      simp [accepted_by, haccept]
  refine ⟨?_, hsent env msg task, ?_, ?_⟩
  · rw [identify_start_task]
  · intro hready
    rw [identify_start_trace]
    simp [hready, led_commands, sent_to]
  · intro env2 msg2
    refine ⟨?_, ?_⟩
    · simp only [handle_all, run_once, visit_message, List.map_cons, List.map_nil, hsent]
    · intro h1 h2
      simp only [handle_all, run_once, visit_message, List.map_cons, List.map_nil,
        hacc _ _ _ h1, hacc _ _ _ h2]

/-- Witness for C27: two start requests on a task in phase BLINK_OFF_WAITING, the link
not ready for the first; the own queue accepts both self-checks. -/
theorem identify_start_always_schedules_witness :
    link_not_ready.check_I2C_ready 0 = false
      ∧ link_not_ready.try_send QueueId.system 0 = true
      ∧ all_accepted.try_send QueueId.system 0 = true
      ∧ led_commands
          (visit_message_IdentifyModuleStartLEDMessage link_not_ready { id := 5 }
            (Run.start (task_in_phase LEDBlinkTaskStatus.BLINK_OFF_WAITING))).trace = 0
      ∧ (handle_all
          [(link_not_ready, SystemMessage.IdentifyModuleStartLEDMessage { id := 5 }),
           (all_accepted, SystemMessage.IdentifyModuleStartLEDMessage { id := 6 })]
          (task_in_phase LEDBlinkTaskStatus.BLINK_OFF_WAITING)).map
            (fun r => accepted_by QueueId.system r.trace)
        = [[Outbound.CheckLEDBlinkStatusMessage {}],
           [Outbound.CheckLEDBlinkStatusMessage {}]] :=
  ⟨rfl, rfl, rfl,
    ((identify_start_always_schedules link_not_ready { id := 5 }
      (task_in_phase LEDBlinkTaskStatus.BLINK_OFF_WAITING)).2.2.1 rfl).1,
    ((identify_start_always_schedules link_not_ready { id := 5 }
      (task_in_phase LEDBlinkTaskStatus.BLINK_OFF_WAITING)).2.2.2 all_accepted
        { id := 6 }).2 rfl rfl⟩

end HeaterShaker

/-! ## Thermocycler-refresh error strings -/

namespace ThermocyclerRefresh

open errors

/-- C28. `errorstring` is a well-formed, injective table: NO_ERROR maps to the empty
string; every other enumerator maps to "ERR", its numeric value as three decimal
digits, a colon, a non-empty description without a newline, and a final newline;
distinct enumerators map to distinct strings; and every value that is not the value
of an enumerator maps to "ERR-1:unknown error code" followed by a newline. -/
theorem errorstring_table_well_formed :
    errorstring ErrorCode.NO_ERROR.value = ""
      ∧ (∀ code : ErrorCode, code ≠ ErrorCode.NO_ERROR →
          ∃ description : String, description ≠ "" ∧ '\n' ∉ description.toList
            ∧ errorstring code.value
              = "ERR" ++ three_digits code.value.toNat ++ ":" ++ description ++ "\n")
      ∧ (∀ a b : ErrorCode, errorstring a.value = errorstring b.value → a = b)
      ∧ (∀ value : Int, (∀ code : ErrorCode, code.value ≠ value) →
          errorstring value = "ERR-1:unknown error code\n") := by
  refine ⟨by decide, ?_, ?_, ?_⟩
  · intro code hcode
    cases code with
    | NO_ERROR => exact absurd rfl hcode
    | USB_TX_OVERRUN => exact ⟨"tx buffer overrun", by decide, by decide, by decide⟩
    | INTERNAL_QUEUE_FULL => exact ⟨"internal queue full", by decide, by decide, by decide⟩
    | UNHANDLED_GCODE => exact ⟨"unhandled gcode", by decide, by decide, by decide⟩
    | GCODE_CACHE_FULL => exact ⟨"gcode cache full", by decide, by decide, by decide⟩
    | BAD_MESSAGE_ACKNOWLEDGEMENT =>
      exact ⟨"bad message acknowledgement", by decide, by decide, by decide⟩
    | SYSTEM_SERIAL_NUMBER_INVALID =>
      exact ⟨"system:serial number invalid format", by decide, by decide, by decide⟩
    | SYSTEM_SERIAL_NUMBER_HAL_ERROR =>
      exact ⟨"system:HAL error, busy, or timeout", by decide, by decide, by decide⟩
  · intro a b
    cases a <;> cases b <;> decide
  · intro value hvalue
    have h0 := hvalue ErrorCode.NO_ERROR
    have h1 := hvalue ErrorCode.USB_TX_OVERRUN
    have h2 := hvalue ErrorCode.INTERNAL_QUEUE_FULL
    have h3 := hvalue ErrorCode.UNHANDLED_GCODE
    have h4 := hvalue ErrorCode.GCODE_CACHE_FULL
    have h5 := hvalue ErrorCode.BAD_MESSAGE_ACKNOWLEDGEMENT
    have h6 := hvalue ErrorCode.SYSTEM_SERIAL_NUMBER_INVALID
    have h7 := hvalue ErrorCode.SYSTEM_SERIAL_NUMBER_HAL_ERROR
    simp only [errorstring, Ne.symm h0, Ne.symm h1, Ne.symm h2, Ne.symm h3, Ne.symm h4,
      Ne.symm h5, Ne.symm h6, Ne.symm h7, if_false]
    rfl

/-- Witness for C28: an enumerator other than NO_ERROR, and the value 6, which no
enumerator has. -/
theorem errorstring_table_well_formed_witness :
    ErrorCode.SYSTEM_SERIAL_NUMBER_INVALID ≠ ErrorCode.NO_ERROR
      ∧ (∃ description : String, description ≠ "" ∧ '\n' ∉ description.toList
          ∧ errors.errorstring ErrorCode.SYSTEM_SERIAL_NUMBER_INVALID.value
            = "ERR" ++ three_digits ErrorCode.SYSTEM_SERIAL_NUMBER_INVALID.value.toNat
                ++ ":" ++ description ++ "\n")
      ∧ (∀ code : ErrorCode, code.value ≠ 6)
      ∧ errors.errorstring 6 = "ERR-1:unknown error code\n" :=
  ⟨by decide,
    errorstring_table_well_formed.2.1 ErrorCode.SYSTEM_SERIAL_NUMBER_INVALID (by decide),
    fun code => by cases code <;> decide,
    errorstring_table_well_formed.2.2.2 6 (fun code => by cases code <;> decide)⟩

end ThermocyclerRefresh

/-! ## TMC2130 registers -/

namespace ThermocyclerRefresh

open tmc2130

theorem pack_lt (ws : List Nat) : ∀ vs : List Nat, pack ws vs < 2 ^ ws.sum := by
  induction ws with
  | nil => intro vs; simp [pack]
  | cons w rest ih =>
    intro vs
    have h1 : vs.headD 0 % 2 ^ w < 2 ^ w := Nat.mod_lt _ (Nat.two_pow_pos w)
    have h2 := ih vs.tail
    simp only [pack, List.sum_cons, Nat.pow_add]
    have h3 : 2 ^ w * (pack rest vs.tail + 1) ≤ 2 ^ w * 2 ^ rest.sum :=
      Nat.mul_le_mul_left _ h2
    rw [Nat.mul_add, Nat.mul_one] at h3
    omega

/-- The 64-bit load followed by the mask `(1 << bitlen) - 1` keeps the packed fields
modulo `2 ^ bitlen`, whatever lies above the declared fields. -/
theorem masked_load (packed total bitlen beyond : Nat) (hlen : bitlen ≤ total)
    (h64 : bitlen < 64) :
    (packed + 2 ^ total * beyond) % 2 ^ 64 &&& ((1 <<< bitlen) % 2 ^ 64 - 1)
      = packed % 2 ^ bitlen := by
  have hshift : (1 <<< bitlen) % 2 ^ 64 = 2 ^ bitlen := by
    rw [Nat.one_shiftLeft]
    exact Nat.mod_eq_of_lt (Nat.pow_lt_pow_right (by decide) h64)
  rw [hshift, Nat.and_pow_two_sub_one_eq_mod]
  have hdvd64 : 2 ^ bitlen ∣ 2 ^ 64 := Nat.pow_dvd_pow 2 (Nat.le_of_lt h64)
  rw [Nat.mod_mod_of_dvd _ hdvd64]
  have hdvd : 2 ^ bitlen ∣ 2 ^ total * beyond :=
    Dvd.dvd.mul_right (Nat.pow_dvd_pow 2 hlen) beyond
  obtain ⟨k, hk⟩ := hdvd
  rw [hk, Nat.add_mul_mod_self_left]

theorem set_register_eq {Reg σ : Type} (info : RegisterInfo Reg) (policy : TMC2130Policy σ)
    (hw : info.writable = true) (reg : Reg) (beyond : Nat) (s : σ)
    (hlen : info.bitlen ≤ info.widths.sum) (h64 : info.bitlen < 64) :
    set_register info policy hw reg beyond s
      = policy.write_register info.address
          (pack info.widths (info.to_fields reg) % 2 ^ info.bitlen) s := by
  simp only [set_register, masked_load _ _ _ _ hlen h64]

theorem unpack_pack_cons (w : Nat) (ws vs : List Nat) :
    unpack (w :: ws) (pack (w :: ws) vs)
      = vs.headD 0 % 2 ^ w :: unpack ws (pack ws vs.tail) := by
  have hpos : 0 < 2 ^ w := Nat.two_pow_pos w
  simp only [unpack, pack]
  rw [Nat.add_mul_mod_self_left, Nat.mod_mod, Nat.add_mul_div_left _ _ hpos,
    Nat.div_eq_of_lt (Nat.mod_lt _ hpos), Nat.zero_add]

theorem bit_of_toNat (b : Bool) : bit_of (b.toNat % 2 ^ 1) = b := by
  cases b <;> rfl

/-- Masking a packed `GConfig` to 17 bits is the same as packing it with `test_mode`
cleared. -/
theorem gconfig_masked (g : GConfig) :
    pack GConfig.info.widths (GConfig.info.to_fields g) % 2 ^ GConfig.info.bitlen
      = pack GConfig.info.widths (GConfig.info.to_fields { g with test_mode := false }) := by
  obtain ⟨b0, b1, b2, b3, b4, b5, b6, b7, b8, b9, b10, b11, b12, b13, b14, b15, b16, b17⟩ := g
  simp only [GConfig.info, pack, List.headD_cons, List.tail_cons, Bool.toNat_false]
  have h0 := Bool.toNat_le b0
  have h1 := Bool.toNat_le b1
  have h2 := Bool.toNat_le b2
  have h3 := Bool.toNat_le b3
  have h4 := Bool.toNat_le b4
  have h5 := Bool.toNat_le b5
  have h6 := Bool.toNat_le b6
  have h7 := Bool.toNat_le b7
  have h8 := Bool.toNat_le b8
  have h9 := Bool.toNat_le b9
  have h10 := Bool.toNat_le b10
  have h11 := Bool.toNat_le b11
  have h12 := Bool.toNat_le b12
  have h13 := Bool.toNat_le b13
  have h14 := Bool.toNat_le b14
  have h15 := Bool.toNat_le b15
  have h16 := Bool.toNat_le b16
  have h17 := Bool.toNat_le b17
  omega

theorem gconfig_round_trip_fields (g : GConfig) :
    GConfig.info.of_fields (unpack GConfig.info.widths
        (pack GConfig.info.widths (GConfig.info.to_fields { g with test_mode := false })))
      = { g with test_mode := false } := by
  obtain ⟨b0, b1, b2, b3, b4, b5, b6, b7, b8, b9, b10, b11, b12, b13, b14, b15, b16, b17⟩ := g
  simp only [GConfig.info, unpack_pack_cons, List.headD_cons, List.tail_cons]
  simp only [unpack, List.getD_cons_zero, List.getD_cons_succ, bit_of_toNat]

/-- The value written for a `CurrentControl`: every field at its declared offset and
width. -/
theorem current_control_written (reg : CurrentControl) :
    pack CurrentControl.info.widths (CurrentControl.info.to_fields reg)
        % 2 ^ CurrentControl.info.bitlen
      = reg.hold_current % 2 ^ 5 + 2 ^ 5 * (reg.bit_padding_1 % 2 ^ 3)
          + 2 ^ 8 * (reg.run_current % 2 ^ 5) + 2 ^ 13 * (reg.bit_padding_2 % 2 ^ 3)
          + 2 ^ 16 * (reg.hold_current_delay % 2 ^ 4) := by
  obtain ⟨a, b, c, d, e⟩ := reg
  simp only [CurrentControl.info, pack, List.headD_cons, List.tail_cons]
  omega

/-- The value written for a `ChopConfig`: every field at its declared offset and
width. -/
theorem chop_config_written (reg : ChopConfig) :
    pack ChopConfig.info.widths (ChopConfig.info.to_fields reg) % 2 ^ ChopConfig.info.bitlen
      = reg.toff % 2 ^ 4 + 2 ^ 4 * (reg.hstrt % 2 ^ 3) + 2 ^ 7 * (reg.hend % 2 ^ 4)
          + 2 ^ 11 * reg.fd3.toNat + 2 ^ 12 * reg.disfdcc.toNat + 2 ^ 13 * reg.rndtf.toNat
          + 2 ^ 14 * reg.chm.toNat + 2 ^ 15 * (reg.tbl % 2 ^ 2) + 2 ^ 17 * reg.vsense.toNat
          + 2 ^ 18 * reg.vhighfs.toNat + 2 ^ 19 * reg.vhighchm.toNat
          + 2 ^ 20 * (reg.sync % 2 ^ 4) + 2 ^ 24 * (reg.mres % 2 ^ 4)
          + 2 ^ 28 * reg.intpol.toNat + 2 ^ 29 * reg.dedge.toNat
          + 2 ^ 30 * reg.diss2g.toNat := by
  obtain ⟨toff, hstrt, hend, fd3, disfdcc, rndtf, chm, tbl, vsense, vhighfs, vhighchm, sync,
    mres, intpol, dedge, diss2g⟩ := reg
  simp only [ChopConfig.info, pack, List.headD_cons, List.tail_cons]
  have h1 := Bool.toNat_le fd3
  have h2 := Bool.toNat_le disfdcc
  have h3 := Bool.toNat_le rndtf
  have h4 := Bool.toNat_le chm
  have h5 := Bool.toNat_le vsense
  have h6 := Bool.toNat_le vhighfs
  have h7 := Bool.toNat_le vhighchm
  have h8 := Bool.toNat_le intpol
  have h9 := Bool.toNat_le dedge
  have h10 := Bool.toNat_le diss2g
  omega

/-- The value written for a `CoolConf`: every field at its declared offset and width,
the signed `sgt` as its 7-bit two's complement. -/
theorem cool_conf_written (reg : CoolConf) :
    pack CoolConf.info.widths (CoolConf.info.to_fields reg) % 2 ^ CoolConf.info.bitlen
      = reg.semin % 2 ^ 4 + 2 ^ 4 * reg.padding_1.toNat + 2 ^ 5 * (reg.seup % 2 ^ 2)
          + 2 ^ 7 * reg.padding_2.toNat + 2 ^ 8 * (reg.semax % 2 ^ 4)
          + 2 ^ 12 * reg.padding_3.toNat + 2 ^ 13 * (reg.sedn % 2 ^ 2)
          + 2 ^ 15 * reg.seimin.toNat + 2 ^ 16 * (reg.sgt % 2 ^ 7).toNat
          + 2 ^ 23 * reg.padding_4.toNat + 2 ^ 24 * reg.sfilt.toNat := by
  obtain ⟨semin, p1, seup, p2, semax, p3, sedn, seimin, sgt, p4, sfilt⟩ := reg
  simp only [CoolConf.info, pack, List.headD_cons, List.tail_cons]
  have h1 := Bool.toNat_le p1
  have h2 := Bool.toNat_le p2
  have h3 := Bool.toNat_le p3
  have h4 := Bool.toNat_le seimin
  have h5 := Bool.toNat_le p4
  have h6 := Bool.toNat_le sfilt
  omega

/-- The value written for a `GConfig`: the first seventeen fields at bits 0 to 16;
`test_mode` has no part in it. -/
theorem gconfig_written (g : GConfig) :
    pack GConfig.info.widths (GConfig.info.to_fields g) % 2 ^ GConfig.info.bitlen
      = g.i_scale_analog.toNat + 2 ^ 1 * g.internal_rsense.toNat
          + 2 ^ 2 * g.en_pwm_mode.toNat + 2 ^ 3 * g.enc_commutation.toNat
          + 2 ^ 4 * g.shaft.toNat + 2 ^ 5 * g.diag0_error.toNat
          + 2 ^ 6 * g.diag0_otpw.toNat + 2 ^ 7 * g.diag0_stall.toNat
          + 2 ^ 8 * g.diag1_stall.toNat + 2 ^ 9 * g.diag1_index.toNat
          + 2 ^ 10 * g.diag1_onstate.toNat + 2 ^ 11 * g.diag1_steps_skipped.toNat
          + 2 ^ 12 * g.diag0_int_pushpull.toNat + 2 ^ 13 * g.diag1_pushpull.toNat
          + 2 ^ 14 * g.small_hysteresis.toNat + 2 ^ 15 * g.stop_enable.toNat
          + 2 ^ 16 * g.direct_mode.toNat := by
  obtain ⟨b0, b1, b2, b3, b4, b5, b6, b7, b8, b9, b10, b11, b12, b13, b14, b15, b16, b17⟩ := g
  simp only [GConfig.info, pack, List.headD_cons, List.tail_cons]
  have h0 := Bool.toNat_le b0
  have h1 := Bool.toNat_le b1
  have h2 := Bool.toNat_le b2
  have h3 := Bool.toNat_le b3
  have h4 := Bool.toNat_le b4
  have h5 := Bool.toNat_le b5
  have h6 := Bool.toNat_le b6
  have h7 := Bool.toNat_le b7
  have h8 := Bool.toNat_le b8
  have h9 := Bool.toNat_le b9
  have h10 := Bool.toNat_le b10
  have h11 := Bool.toNat_le b11
  have h12 := Bool.toNat_le b12
  have h13 := Bool.toNat_le b13
  have h14 := Bool.toNat_le b14
  have h15 := Bool.toNat_le b15
  have h16 := Bool.toNat_le b16
  have h17 := Bool.toNat_le b17
  omega

/-- The value written for the three single-field structs. -/
theorem single_field_written (r1 : PowerDownDelay) (r2 : TCoolThreshold) (r3 : THigh) :
    pack PowerDownDelay.info.widths (PowerDownDelay.info.to_fields r1)
        % 2 ^ PowerDownDelay.info.bitlen = r1.time % 2 ^ 8
      ∧ pack TCoolThreshold.info.widths (TCoolThreshold.info.to_fields r2)
          % 2 ^ TCoolThreshold.info.bitlen = r2.threshold % 2 ^ 20
      ∧ pack THigh.info.widths (THigh.info.to_fields r3) % 2 ^ THigh.info.bitlen
          = r3.threshold % 2 ^ 20 := by
  refine ⟨?_, ?_, ?_⟩
  · simp only [PowerDownDelay.info, pack, List.headD_cons, List.tail_cons]
    omega
  · simp only [TCoolThreshold.info, pack, List.headD_cons, List.tail_cons]
    omega
  · simp only [THigh.info, pack, List.headD_cons, List.tail_cons]
    omega

/-- C29. For a writable register struct whose `bitlen` does not exceed its declared
bit-field bits (and is below 64), `set_register` is exactly one call of
`policy.write_register`, with `Reg::address` and with the struct's bit-fields packed
least significant first and reduced modulo `2 ^ bitlen` (whatever lies in memory above
the fields), and returns what that call returned. The writable structs of the header
are GConfig, CurrentControl, PowerDownDelay, TCoolThreshold, THigh, ChopConfig and
CoolConf, all of which satisfy the condition, and for each of them the value written is
given field by field: every field sits at the bit offset that the widths of the fields
declared before it add up to, and is kept to its declared width. For CurrentControl,
ChopConfig and CoolConf the widths sum to `bitlen`, so every declared field is written
in full; for GConfig (18 one-bit fields, `bitlen` 17) the value written holds the first
seventeen fields only, is the same as for the struct with `test_mode` cleared, and has
bit 17 equal to 0. -/
theorem set_register_writes_masked_fields :
    (∀ (Reg σ : Type) (info : RegisterInfo Reg) (policy : TMC2130Policy σ)
        (hw : info.writable = true) (reg : Reg) (beyond : Nat) (s : σ),
        info.bitlen ≤ info.widths.sum → info.bitlen < 64 →
        set_register info policy hw reg beyond s
            = policy.write_register info.address
                (pack info.widths (info.to_fields reg) % 2 ^ info.bitlen) s
          ∧ pack info.widths (info.to_fields reg) % 2 ^ info.bitlen < 2 ^ info.bitlen)
      ∧ (∀ r ∈ register_structs, r.writable = true →
          r.bitlen ≤ r.field_bits ∧ r.bitlen < 64)
      ∧ (register_structs.filter (fun r => r.writable)).map (fun r => r.address)
          = [Registers.GCONF, Registers.IHOLD_IRUN, Registers.TPOWERDOWN,
             Registers.TCOOLTHRS, Registers.THIGH, Registers.CHOPCONF, Registers.COOLCONF]
      ∧ (∀ (σ : Type) (policy : TMC2130Policy σ) (reg : CurrentControl) (beyond : Nat)
          (s : σ),
          set_register CurrentControl.info policy rfl reg beyond s
            = policy.write_register Registers.IHOLD_IRUN
                (reg.hold_current % 2 ^ 5 + 2 ^ 5 * (reg.bit_padding_1 % 2 ^ 3)
                  + 2 ^ 8 * (reg.run_current % 2 ^ 5)
                  + 2 ^ 13 * (reg.bit_padding_2 % 2 ^ 3)
                  + 2 ^ 16 * (reg.hold_current_delay % 2 ^ 4)) s)
      ∧ (∀ (σ : Type) (policy : TMC2130Policy σ) (reg : PowerDownDelay) (beyond : Nat)
          (s : σ),
          set_register PowerDownDelay.info policy rfl reg beyond s
            = policy.write_register Registers.TPOWERDOWN (reg.time % 2 ^ 8) s)
      ∧ (∀ (σ : Type) (policy : TMC2130Policy σ) (reg : TCoolThreshold) (beyond : Nat)
          (s : σ),
          set_register TCoolThreshold.info policy rfl reg beyond s
            = policy.write_register Registers.TCOOLTHRS (reg.threshold % 2 ^ 20) s)
      ∧ (∀ (σ : Type) (policy : TMC2130Policy σ) (reg : THigh) (beyond : Nat) (s : σ),
          set_register THigh.info policy rfl reg beyond s
            = policy.write_register Registers.THIGH (reg.threshold % 2 ^ 20) s)
      ∧ (∀ (σ : Type) (policy : TMC2130Policy σ) (reg : ChopConfig) (beyond : Nat) (s : σ),
          set_register ChopConfig.info policy rfl reg beyond s
            = policy.write_register Registers.CHOPCONF
                (reg.toff % 2 ^ 4 + 2 ^ 4 * (reg.hstrt % 2 ^ 3) + 2 ^ 7 * (reg.hend % 2 ^ 4)
                  + 2 ^ 11 * reg.fd3.toNat + 2 ^ 12 * reg.disfdcc.toNat
                  + 2 ^ 13 * reg.rndtf.toNat + 2 ^ 14 * reg.chm.toNat
                  + 2 ^ 15 * (reg.tbl % 2 ^ 2) + 2 ^ 17 * reg.vsense.toNat
                  + 2 ^ 18 * reg.vhighfs.toNat + 2 ^ 19 * reg.vhighchm.toNat
                  + 2 ^ 20 * (reg.sync % 2 ^ 4) + 2 ^ 24 * (reg.mres % 2 ^ 4)
                  + 2 ^ 28 * reg.intpol.toNat + 2 ^ 29 * reg.dedge.toNat
                  + 2 ^ 30 * reg.diss2g.toNat) s)
      ∧ (∀ (σ : Type) (policy : TMC2130Policy σ) (reg : CoolConf) (beyond : Nat) (s : σ),
          set_register CoolConf.info policy rfl reg beyond s
            = policy.write_register Registers.COOLCONF
                (reg.semin % 2 ^ 4 + 2 ^ 4 * reg.padding_1.toNat + 2 ^ 5 * (reg.seup % 2 ^ 2)
                  + 2 ^ 7 * reg.padding_2.toNat + 2 ^ 8 * (reg.semax % 2 ^ 4)
                  + 2 ^ 12 * reg.padding_3.toNat + 2 ^ 13 * (reg.sedn % 2 ^ 2)
                  + 2 ^ 15 * reg.seimin.toNat + 2 ^ 16 * (reg.sgt % 2 ^ 7).toNat
                  + 2 ^ 23 * reg.padding_4.toNat + 2 ^ 24 * reg.sfilt.toNat) s)
      ∧ (∀ (σ : Type) (policy : TMC2130Policy σ) (g : GConfig) (beyond : Nat) (s : σ),
          ∃ value : Nat,
            set_register GConfig.info policy rfl g beyond s
              = policy.write_register Registers.GCONF value s
            ∧ value
              = g.i_scale_analog.toNat + 2 ^ 1 * g.internal_rsense.toNat
                + 2 ^ 2 * g.en_pwm_mode.toNat + 2 ^ 3 * g.enc_commutation.toNat
                + 2 ^ 4 * g.shaft.toNat + 2 ^ 5 * g.diag0_error.toNat
                + 2 ^ 6 * g.diag0_otpw.toNat + 2 ^ 7 * g.diag0_stall.toNat
                + 2 ^ 8 * g.diag1_stall.toNat + 2 ^ 9 * g.diag1_index.toNat
                + 2 ^ 10 * g.diag1_onstate.toNat + 2 ^ 11 * g.diag1_steps_skipped.toNat
                + 2 ^ 12 * g.diag0_int_pushpull.toNat + 2 ^ 13 * g.diag1_pushpull.toNat
                + 2 ^ 14 * g.small_hysteresis.toNat + 2 ^ 15 * g.stop_enable.toNat
                + 2 ^ 16 * g.direct_mode.toNat
            ∧ value / 2 ^ 17 % 2 = 0
            ∧ set_register GConfig.info policy rfl { g with test_mode := false } beyond s
              = policy.write_register Registers.GCONF value s)
      ∧ (CurrentControl.info.widths.sum = CurrentControl.info.bitlen
          ∧ ChopConfig.info.widths.sum = ChopConfig.info.bitlen
          ∧ CoolConf.info.widths.sum = CoolConf.info.bitlen)
      ∧ (∀ reg : CurrentControl,
          pack CurrentControl.info.widths (CurrentControl.info.to_fields reg)
              % 2 ^ CurrentControl.info.bitlen
            = pack CurrentControl.info.widths (CurrentControl.info.to_fields reg))
      ∧ (∀ reg : ChopConfig,
          pack ChopConfig.info.widths (ChopConfig.info.to_fields reg)
              % 2 ^ ChopConfig.info.bitlen
            = pack ChopConfig.info.widths (ChopConfig.info.to_fields reg))
      ∧ (∀ reg : CoolConf,
          pack CoolConf.info.widths (CoolConf.info.to_fields reg) % 2 ^ CoolConf.info.bitlen
            = pack CoolConf.info.widths (CoolConf.info.to_fields reg))
      ∧ (GConfig.info.widths = List.replicate 18 1 ∧ GConfig.info.bitlen = 17)
      ∧ (∀ g : GConfig,
          pack GConfig.info.widths (GConfig.info.to_fields g) % 2 ^ GConfig.info.bitlen
              = pack GConfig.info.widths
                  (GConfig.info.to_fields { g with test_mode := false })
            ∧ pack GConfig.info.widths (GConfig.info.to_fields g) % 2 ^ GConfig.info.bitlen
                / 2 ^ 17 % 2 = 0) := by
  refine ⟨?_, by decide, by decide, ?_, ?_, ?_, ?_, ?_, ?_, ?_, by decide, ?_, ?_, ?_,
    by decide, ?_⟩
  · intro Reg σ info policy hw reg beyond s hlen h64
    exact ⟨set_register_eq info policy hw reg beyond s hlen h64,
      Nat.mod_lt _ (Nat.two_pow_pos _)⟩
  · intro σ policy reg beyond s
    rw [set_register_eq _ policy rfl reg beyond s (by decide) (by decide),
      current_control_written]
    rfl
  · intro σ policy reg beyond s
    rw [set_register_eq _ policy rfl reg beyond s (by decide) (by decide),
      (single_field_written reg {} {}).1]
    rfl
  · intro σ policy reg beyond s
    rw [set_register_eq _ policy rfl reg beyond s (by decide) (by decide),
      (single_field_written {} reg {}).2.1]
    rfl
  · intro σ policy reg beyond s
    rw [set_register_eq _ policy rfl reg beyond s (by decide) (by decide),
      (single_field_written {} {} reg).2.2]
    rfl
  · intro σ policy reg beyond s
    rw [set_register_eq _ policy rfl reg beyond s (by decide) (by decide),
      chop_config_written]
    rfl
  · intro σ policy reg beyond s
    rw [set_register_eq _ policy rfl reg beyond s (by decide) (by decide),
      cool_conf_written]
    rfl
  · intro σ policy g beyond s
    refine ⟨_, set_register_eq _ policy rfl g beyond s (by decide) (by decide),
      gconfig_written g, ?_, ?_⟩
    · have hlt : pack GConfig.info.widths (GConfig.info.to_fields g)
          % 2 ^ GConfig.info.bitlen < 2 ^ 17 := Nat.mod_lt _ (Nat.two_pow_pos _)
      rw [Nat.div_eq_of_lt hlt]
    · rw [set_register_eq _ policy rfl _ beyond s (by decide) (by decide)]
      exact congrArg (fun v => policy.write_register Registers.GCONF v s)
        ((gconfig_written { g with test_mode := false }).trans (gconfig_written g).symm)
  · intro reg
    exact Nat.mod_eq_of_lt (pack_lt _ _)
  · intro reg
    exact Nat.mod_eq_of_lt (pack_lt _ _)
  · intro reg
    exact Nat.mod_eq_of_lt (pack_lt _ _)
  · intro g
    refine ⟨gconfig_masked g, ?_⟩
    have hlt : pack GConfig.info.widths (GConfig.info.to_fields g) % 2 ^ GConfig.info.bitlen
        < 2 ^ 17 := Nat.mod_lt _ (Nat.two_pow_pos _)
    rw [Nat.div_eq_of_lt hlt]

/-- Witness for C29: a ChopConfig, a CoolConf (with a negative `sgt`), a CurrentControl
and a GConfig (with `test_mode` set), none of them default, written through the register
file with arbitrary bits above the struct. -/
theorem set_register_writes_masked_fields_witness :
    ChopConfig.info.bitlen ≤ ChopConfig.info.widths.sum
      ∧ ChopConfig.info.bitlen < 64
      ∧ set_register ChopConfig.info register_file rfl
          { toff := 5, hstrt := 4, hend := 9, chm := true, tbl := 1, vhighfs := true,
            sync := 3, mres := 4, intpol := true, diss2g := true } 12345 (fun _ => none)
        = register_file.write_register Registers.CHOPCONF 1412744389 (fun _ => none)
      ∧ set_register ChopConfig.info register_file rfl
          { toff := 5, hstrt := 4, hend := 9, chm := true, tbl := 1, vhighfs := true,
            sync := 3, mres := 4, intpol := true, diss2g := true } 12345 (fun _ => none)
        = register_file.write_register Registers.CHOPCONF
            (5 + 2 ^ 4 * 4 + 2 ^ 7 * 9 + 2 ^ 14 + 2 ^ 15 * 1 + 2 ^ 18 + 2 ^ 20 * 3
              + 2 ^ 24 * 4 + 2 ^ 28 + 2 ^ 30) (fun _ => none)
      ∧ set_register CoolConf.info register_file rfl
          { semin := 7, seup := 2, semax := 3, sedn := 1, seimin := true, sgt := -3,
            sfilt := true } 99 (fun _ => none)
        = register_file.write_register Registers.COOLCONF 25011015 (fun _ => none)
      ∧ set_register CurrentControl.info register_file rfl
          { hold_current := 9, run_current := 21, hold_current_delay := 6 } 1
          (fun _ => none)
        = register_file.write_register Registers.IHOLD_IRUN 398601 (fun _ => none)
      ∧ (∃ value : Nat,
          set_register GConfig.info register_file rfl
              { shaft := true, direct_mode := true, test_mode := true } 7 (fun _ => none)
            = register_file.write_register Registers.GCONF value (fun _ => none)
          ∧ value = 65552) :=
  ⟨by decide, by decide,
    (set_register_writes_masked_fields.1 ChopConfig (Registers → Option Nat) ChopConfig.info
      register_file rfl _ 12345 (fun _ => none) (by decide) (by decide)).1.trans
      (congrArg (fun v => register_file.write_register Registers.CHOPCONF v (fun _ => none))
        (by decide)),
    (set_register_writes_masked_fields.2.2.2.2.2.2.2.1 (Registers → Option Nat) register_file
      _ 12345 (fun _ => none)).trans
      (congrArg (fun v => register_file.write_register Registers.CHOPCONF v (fun _ => none))
        (by decide)),
    (set_register_writes_masked_fields.2.2.2.2.2.2.2.2.1 (Registers → Option Nat)
      register_file _ 99 (fun _ => none)).trans
      (congrArg (fun v => register_file.write_register Registers.COOLCONF v (fun _ => none))
        (by decide)),
    (set_register_writes_masked_fields.2.2.2.1 (Registers → Option Nat) register_file
      _ 1 (fun _ => none)).trans
      (congrArg (fun v => register_file.write_register Registers.IHOLD_IRUN v (fun _ => none))
        (by decide)),
    (set_register_writes_masked_fields.2.2.2.2.2.2.2.2.2.1 (Registers → Option Nat)
      register_file { shaft := true, direct_mode := true, test_mode := true } 7
      (fun _ => none)).imp (fun value h => ⟨h.1, h.2.1.trans (by decide)⟩)⟩

/-- C30. `get_register` returns nothing exactly when `policy.read_register` returns
nothing. GConfig is the only register struct of the header that is both readable and
writable; with a policy whose `read_register` returns the value just written to the
address, `get_register` after `set_register(g)` returns `g` with `test_mode` cleared
and every other field as in `g`. -/
theorem get_register_round_trip :
    (∀ (Reg σ : Type) (info : RegisterInfo Reg) (policy : TMC2130Policy σ)
        (hr : info.readable = true) (s : σ),
        (get_register info policy hr s).1 = none
          ↔ (policy.read_register info.address s).1 = none)
      ∧ (register_structs.filter (fun r => r.readable && r.writable)).map
          (fun r => r.address) = [Registers.GCONF]
      ∧ (∀ (σ : Type) (policy : TMC2130Policy σ) (g : GConfig) (beyond : Nat) (s : σ),
          (∀ (addr : Registers) (value : Nat) (s0 : σ),
            (policy.read_register addr (policy.write_register addr value s0).2).1
              = some value) →
          (get_register GConfig.info policy rfl
              (set_register GConfig.info policy rfl g beyond s).2).1
            = some { g with test_mode := false }) := by
  refine ⟨?_, by decide, ?_⟩
  · intro Reg σ info policy hr s
    simp only [get_register]
    cases (policy.read_register info.address s).1 <;> simp
  · intro σ policy g beyond s hloop
    rw [set_register_eq GConfig.info policy rfl g beyond s (by decide) (by decide),
      gconfig_masked]
    simp only [get_register]
    rw [hloop]
    simp only [gconfig_round_trip_fields]

/-- Witness for C30: a GConfig with `shaft`, `direct_mode` and `test_mode` set, written
to and read back from the register file. -/
theorem get_register_round_trip_witness :
    (∀ (addr : Registers) (value : Nat) (s0 : Registers → Option Nat),
        (register_file.read_register addr
          (register_file.write_register addr value s0).2).1 = some value)
      ∧ (get_register GConfig.info register_file rfl
          (set_register GConfig.info register_file rfl
            { shaft := true, direct_mode := true, test_mode := true } 7
            (fun _ => none)).2).1
        = some { shaft := true, direct_mode := true, test_mode := false } :=
  ⟨fun addr value s0 => by simp [register_file],
    get_register_round_trip.2.2 (Registers → Option Nat) register_file
      { shaft := true, direct_mode := true, test_mode := true } 7 (fun _ => none)
      (fun addr value s0 => by simp [register_file])⟩


/-! ## PowerDownDelay: the double arithmetic of set_time and seconds -/


theorem round_half_even_error (t : ℚ) : |(round_half_even t : ℚ) - t| ≤ 1 / 2 := by
  have h1 := Int.floor_le t
  have h2 := Int.lt_floor_add_one t
  unfold round_half_even
  rw [abs_le]
  split_ifs <;> push_cast <;> constructor <;> linarith

theorem round_half_even_eq (t : ℚ) (z : ℤ) (h1 : (z : ℚ) - 1 / 2 < t)
    (h2 : t < (z : ℚ) + 1 / 2) : round_half_even t = z := by
  rcases le_or_lt (z : ℚ) t with h | h
  · have hf : ⌊t⌋ = z := Int.floor_eq_iff.mpr ⟨h, by linarith⟩
    unfold round_half_even
    rw [hf, if_pos (by linarith)]
  · have hf : ⌊t⌋ = z - 1 := Int.floor_eq_iff.mpr ⟨by push_cast; linarith, by push_cast; linarith⟩
    unfold round_half_even
    rw [hf, if_neg (by push_cast; linarith), if_pos (by push_cast; linarith)]
    ring

theorem round_half_even_intCast (z : ℤ) : round_half_even (z : ℚ) = z :=
  round_half_even_eq _ z (by linarith) (by linarith)

theorem floor_le_round_half_even (t : ℚ) : ⌊t⌋ ≤ round_half_even t := by
  unfold round_half_even
  split_ifs <;> omega

theorem round_half_even_le_of_le (t : ℚ) (z : ℤ) (h : t ≤ z) : round_half_even t ≤ z := by
  rcases eq_or_lt_of_le h with h | h
  · rw [h, round_half_even_intCast]
  · have h1 : ⌊t⌋ < z := Int.floor_lt.mpr h
    unfold round_half_even
    split_ifs <;> omega

theorem le_round_half_even_of_le (t : ℚ) (z : ℤ) (h : (z : ℚ) ≤ t) : z ≤ round_half_even t :=
  le_trans (Int.le_floor.mpr h) (floor_le_round_half_even t)

theorem quantum_pos (x : ℚ) : 0 < quantum x := by
  unfold quantum
  positivity

theorem binade_ge (x : ℚ) : -1022 ≤ binade x := by
  unfold binade
  split_ifs
  · exact le_refl _
  · exact le_max_right _ _

theorem binade_le (x : ℚ) (E : ℤ) (hE : -1022 ≤ E) (hx : |x| < 2 ^ (E + 1)) :
    binade x ≤ E := by
  unfold binade
  split_ifs with h0
  · exact hE
  · have hpos : 0 < |x| := abs_pos.mpr h0
    have h := (Int.lt_zpow_iff_log_lt (by norm_num : 1 < 2) hpos).mp (by exact_mod_cast hx)
    exact max_le (by omega) hE

theorem binade_eq (x : ℚ) (e : ℤ) (he : -1022 ≤ e) (h1 : 2 ^ e ≤ |x|) (h2 : |x| < 2 ^ (e + 1)) :
    binade x = e := by
  have hpos : 0 < |x| := lt_of_lt_of_le (by positivity) h1
  have h0 : x ≠ 0 := abs_pos.mp hpos
  have ha := (Int.lt_zpow_iff_log_lt (by norm_num : 1 < 2) hpos).mp (by exact_mod_cast h2)
  have hb := (Int.zpow_le_iff_le_log (by norm_num : 1 < 2) hpos).mp (by exact_mod_cast h1)
  unfold binade
  rw [if_neg h0]
  have : Int.log 2 |x| = e := by omega
  rw [this]
  exact max_eq_left he

/-- A multiple of `2 ^ (E - 52)` is a multiple of the quantum of every `x` below
`2 ^ (E + 1)` in magnitude. -/
theorem grid_multiple (x : ℚ) (E : ℤ) (z : ℤ) (hE : -1022 ≤ E) (hx : |x| < 2 ^ (E + 1)) :
    ∃ w : ℤ, (z : ℚ) * 2 ^ (E - 52) = (w : ℚ) * quantum x := by
  have hb := binade_le x E hE hx
  refine ⟨z * 2 ^ (E - binade x).toNat, ?_⟩
  unfold quantum
  push_cast
  have h2 : ((2 : ℚ) ^ (E - binade x).toNat) = (2 : ℚ) ^ (E - binade x) := by
    rw [← zpow_natCast]
    congr 1
    omega
  rw [h2, mul_assoc, ← zpow_add₀ (by norm_num : (2 : ℚ) ≠ 0)]
  congr 2
  ring

theorem to_double_le_of_le_multiple (x c : ℚ) (w : ℤ) (hc : c = (w : ℚ) * quantum x)
    (h : x ≤ c) : to_double x ≤ c := by
  have hq := quantum_pos x
  have h1 : x / quantum x ≤ (w : ℚ) := by
    rw [div_le_iff₀ hq, ← hc]
    exact h
  have h2 := round_half_even_le_of_le _ w h1
  unfold to_double
  rw [hc]
  exact mul_le_mul_of_nonneg_right (by exact_mod_cast h2) (le_of_lt hq)

theorem le_to_double_of_multiple_le (x c : ℚ) (w : ℤ) (hc : c = (w : ℚ) * quantum x)
    (h : c ≤ x) : c ≤ to_double x := by
  have hq := quantum_pos x
  have h1 : (w : ℚ) ≤ x / quantum x := by
    rw [le_div_iff₀ hq, ← hc]
    exact h
  have h2 := le_round_half_even_of_le _ w h1
  unfold to_double
  rw [hc]
  exact mul_le_mul_of_nonneg_right (by exact_mod_cast h2) (le_of_lt hq)

/-- Rounding to double does not cross a value of the grid `2 ^ (E - 52)` from below. -/
theorem to_double_le_of_le (x c : ℚ) (E z : ℤ) (hE : -1022 ≤ E) (hx : |x| < 2 ^ (E + 1))
    (hc : c = (z : ℚ) * 2 ^ (E - 52)) (h : x ≤ c) : to_double x ≤ c := by
  obtain ⟨w, hw⟩ := grid_multiple x E z hE hx
  exact to_double_le_of_le_multiple x c w (hc.trans hw) h

theorem le_to_double_of_le (x c : ℚ) (E z : ℤ) (hE : -1022 ≤ E) (hx : |x| < 2 ^ (E + 1))
    (hc : c = (z : ℚ) * 2 ^ (E - 52)) (h : c ≤ x) : c ≤ to_double x := by
  obtain ⟨w, hw⟩ := grid_multiple x E z hE hx
  exact le_to_double_of_multiple_le x c w (hc.trans hw) h

/-- A value of the grid `2 ^ (E - 52)` below `2 ^ (E + 1)` in magnitude is a double. -/
theorem to_double_exact (x : ℚ) (E z : ℤ) (hE : -1022 ≤ E) (hx : |x| < 2 ^ (E + 1))
    (hc : x = (z : ℚ) * 2 ^ (E - 52)) : to_double x = x :=
  le_antisymm (to_double_le_of_le x x E z hE hx hc (le_refl _))
    (le_to_double_of_le x x E z hE hx hc (le_refl _))

theorem to_double_error (x : ℚ) : |to_double x - x| ≤ quantum x / 2 := by
  have hq := quantum_pos x
  have h := round_half_even_error (x / quantum x)
  have h2 : to_double x - x = ((round_half_even (x / quantum x) : ℚ) - x / quantum x) * quantum x := by
    unfold to_double
    field_simp
  rw [h2, abs_mul, abs_of_pos hq]
  calc |(round_half_even (x / quantum x) : ℚ) - x / quantum x| * quantum x
      ≤ 1 / 2 * quantum x := mul_le_mul_of_nonneg_right h (le_of_lt hq)
    _ = quantum x / 2 := by ring

theorem to_double_error_le (x : ℚ) (E : ℤ) (hE : -1022 ≤ E) (hx : |x| < 2 ^ (E + 1)) :
    |to_double x - x| ≤ 2 ^ (E - 53) := by
  have h := to_double_error x
  have hb := binade_le x E hE hx
  have h1 : quantum x ≤ 2 ^ (E - 52) := by
    unfold quantum
    exact zpow_le_zpow_right₀ (by norm_num) (by omega)
  have h2 : (2 : ℚ) ^ (E - 52) = 2 * 2 ^ (E - 53) := by
    rw [show E - 52 = 1 + (E - 53) by ring, zpow_add₀ (by norm_num : (2 : ℚ) ≠ 0), zpow_one]
  linarith


theorem quotient_bounds (s : ℚ) (h0 : 0 ≤ s) (h4 : s ≤ 4) :
    0 ≤ to_double (s / 4) ∧ to_double (s / 4) ≤ 1 := by
  have hx : |s / 4| < 2 ^ ((0 : ℤ) + 1) := by
    rw [abs_of_nonneg (by positivity)]
    norm_num
    linarith
  constructor
  · exact le_to_double_of_le (s / 4) 0 0 0 (by norm_num) hx (by simp) (by positivity)
  · exact to_double_le_of_le (s / 4) 1 0 (2 ^ 52) (by norm_num) hx (by norm_num) (by linarith)

theorem scaled_bounds (p : ℚ) (h0 : 0 ≤ p) (h255 : p ≤ 255) :
    0 ≤ to_double p ∧ to_double p ≤ 255 := by
  have hx : |p| < 2 ^ ((7 : ℤ) + 1) := by
    rw [abs_of_nonneg h0]
    norm_num
    linarith
  constructor
  · exact le_to_double_of_le p 0 7 0 (by norm_num) hx (by simp) h0
  · exact to_double_le_of_le p 255 7 (255 * 2 ^ 45) (by norm_num) hx (by norm_num) h255

theorem to_uint8_of_nonneg (y : ℚ) (h0 : 0 ≤ y) (h : y < 256) :
    to_uint8 y = some ⌊y⌋.toNat := by
  unfold to_uint8
  rw [if_pos ⟨by linarith, h⟩, if_pos h0]

theorem floor_toNat_le (y : ℚ) (n : ℕ) (h : y ≤ n) : ⌊y⌋.toNat ≤ n := by
  have h1 : ⌊y⌋ ≤ (n : ℤ) := by
    have := Int.floor_le y
    exact_mod_cast (Int.floor_le_floor h).trans (le_of_eq (Int.floor_natCast n))
  omega

theorem set_time_eq (r : PowerDownDelay) (s : ℚ) (h0 : 0 ≤ s) (h4 : s ≤ 4) :
    PowerDownDelay.set_time r s
        = some (true, { time := ⌊to_double (to_double (s / 4) * 255)⌋.toNat })
      ∧ ⌊to_double (to_double (s / 4) * 255)⌋.toNat ≤ 255 := by
  obtain ⟨hg0, hg1⟩ := quotient_bounds s h0 h4
  obtain ⟨hy0, hy1⟩ := scaled_bounds (to_double (s / 4) * 255) (by positivity) (by linarith)
  constructor
  · unfold PowerDownDelay.set_time
    simp only [PowerDownDelay.max_time, PowerDownDelay.max_val]
    rw [if_neg (by linarith)]
    norm_num
    rw [to_uint8_of_nonneg _ hy0 (by linarith)]
  · exact floor_toNat_le _ 255 (by exact_mod_cast hy1)


theorem quantum_quarter (s : ℚ) (hs : 2 ^ (-1020 : ℤ) ≤ s) :
    quantum (s / 4) = quantum s / 4 := by
  have hpos : 0 < s := lt_of_lt_of_le (by positivity) hs
  have habs : |s| = s := abs_of_pos hpos
  have hlog : -1020 ≤ Int.log 2 s :=
    (Int.zpow_le_iff_le_log (by norm_num : 1 < 2) hpos).mp (by exact_mod_cast hs)
  have hlo : (2 : ℚ) ^ Int.log 2 s ≤ s := by
    exact_mod_cast Int.zpow_log_le_self (by norm_num : 1 < 2) hpos
  have hhi : s < (2 : ℚ) ^ (Int.log 2 s + 1) := by
    exact_mod_cast Int.lt_zpow_succ_log_self (by norm_num : 1 < 2) s
  have hb : binade s = Int.log 2 s := by
    unfold binade
    rw [if_neg (ne_of_gt hpos), habs]
    exact max_eq_left (by omega)
  have h4 : (2 : ℚ) ^ (Int.log 2 s - 2) = 2 ^ Int.log 2 s / 4 := by
    rw [zpow_sub₀ (by norm_num : (2 : ℚ) ≠ 0)]
    norm_num
  have h4b : (2 : ℚ) ^ (Int.log 2 s - 2 + 1) = 2 ^ (Int.log 2 s + 1) / 4 := by
    rw [show Int.log 2 s - 2 + 1 = Int.log 2 s + 1 - 2 by ring,
      zpow_sub₀ (by norm_num : (2 : ℚ) ≠ 0)]
    norm_num
  have hb4 : binade (s / 4) = Int.log 2 s - 2 := by
    apply binade_eq _ _ (by omega)
    · rw [abs_of_pos (by positivity), h4]
      linarith
    · rw [abs_of_pos (by positivity), h4b]
      linarith
  unfold quantum
  rw [hb4, hb, show Int.log 2 s - 2 - 52 = Int.log 2 s - 52 - 2 by ring,
    zpow_sub₀ (by norm_num : (2 : ℚ) ≠ 0)]
  norm_num

/-- Dividing a double of at least `2 ^ -1020` by 4 is exact. -/
theorem quarter_exact (s : ℚ) (hd : to_double s = s) (hs : 2 ^ (-1020 : ℤ) ≤ s) :
    to_double (s / 4) = s / 4 := by
  have hq := quantum_pos s
  have h : to_double (s / 4) = to_double s / 4 := by
    unfold to_double
    rw [quantum_quarter s hs]
    have : s / 4 / (quantum s / 4) = s / quantum s := by
      field_simp
    rw [this]
    ring
  rw [h, hd]

theorem small_lt (s : ℚ) (hs : s < 2 ^ (-1020 : ℤ)) : s < 1 / 4096 := by
  have hsmall : (2 : ℚ) ^ (-1020 : ℤ) ≤ 2 ^ (-12 : ℤ) :=
    zpow_le_zpow_right₀ (by norm_num) (by norm_num)
  have h12 : (2 : ℚ) ^ (-12 : ℤ) = 1 / 4096 := by norm_num
  exact lt_of_lt_of_le hs (hsmall.trans (le_of_eq h12))

/-- Below `2 ^ -1020` the scaled value stays below 1. -/
theorem tiny_scaled (s : ℚ) (h0 : 0 ≤ s) (hs : s < 2 ^ (-1020 : ℤ)) :
    to_double (to_double (s / 4) * 255) < 1 := by
  have hs12 : s < 1 / 4096 := small_lt s hs
  have hx : |s / 4| < 2 ^ ((-12 : ℤ) + 1) := by
    rw [abs_of_nonneg (by positivity)]
    norm_num
    linarith
  have hg : to_double (s / 4) ≤ 1 / 4096 :=
    to_double_le_of_le (s / 4) (1 / 4096) (-12) (2 ^ 52) (by norm_num) hx (by norm_num)
      (by linarith)
  have hg0 : 0 ≤ to_double (s / 4) :=
    le_to_double_of_le (s / 4) 0 (-12) 0 (by norm_num) hx (by simp) (by positivity)
  have hp : |to_double (s / 4) * 255| < 2 ^ ((-1 : ℤ) + 1) := by
    rw [abs_of_nonneg (by positivity)]
    norm_num
    linarith
  have hy : to_double (to_double (s / 4) * 255) ≤ 1 / 2 :=
    to_double_le_of_le _ (1 / 2) (-1) (2 ^ 52) (by norm_num) hp (by norm_num) (by linarith)
  linarith

/-- For a double `s` in `[0, 4]` the value that `set_time` converts lies between the
floor of the exact `s / 4 * 255` and that floor plus one, and reaches the latter only if
the exact value itself rounds to it. -/
theorem scaled_floor (s : ℚ) (hd : to_double s = s) (h0 : 0 ≤ s) (h4 : s ≤ 4) :
    ⌊to_double (to_double (s / 4) * 255)⌋
      = if to_double (s / 4 * 255) = (⌊s / 4 * 255⌋ : ℚ) + 1 then ⌊s / 4 * 255⌋ + 1
        else ⌊s / 4 * 255⌋ := by
  have hn0 : (0 : ℤ) ≤ ⌊s / 4 * 255⌋ := Int.floor_nonneg.mpr (by positivity)
  have hx0 : (0 : ℚ) ≤ s / 4 * 255 := by positivity
  have hx1 : s / 4 * 255 ≤ 255 := by linarith
  rcases lt_or_le s (2 ^ (-1020 : ℤ)) with hs | hs
  · have hs12 : s < 1 / 4096 := small_lt s hs
    have hy := tiny_scaled s h0 hs
    obtain ⟨hg0, hg1⟩ := quotient_bounds s h0 h4
    obtain ⟨hy0, -⟩ := scaled_bounds (to_double (s / 4) * 255) (by positivity) (by linarith)
    have hfx : ⌊s / 4 * 255⌋ = 0 := Int.floor_eq_iff.mpr ⟨by simpa using hx0, by
      norm_num
      linarith⟩
    have hfy : ⌊to_double (to_double (s / 4) * 255)⌋ = 0 :=
      Int.floor_eq_iff.mpr ⟨by simpa using hy0, by simpa using hy⟩
    have hp : |s / 4 * 255| < 2 ^ ((-1 : ℤ) + 1) := by
      rw [abs_of_nonneg hx0]
      norm_num
      linarith
    have hfl : to_double (s / 4 * 255) ≤ 1 / 2 :=
      to_double_le_of_le _ (1 / 2) (-1) (2 ^ 52) (by norm_num) hp (by norm_num) (by linarith)
    rw [hfy, hfx, if_neg (by
      norm_num
      linarith)]
  · rw [quarter_exact s hd hs]
    have hx : |s / 4 * 255| < 2 ^ ((7 : ℤ) + 1) := by
      rw [abs_of_nonneg hx0]
      norm_num
      linarith
    have hfl := Int.floor_le (s / 4 * 255)
    have hlt := Int.lt_floor_add_one (s / 4 * 255)
    have hlo : (⌊s / 4 * 255⌋ : ℚ) ≤ to_double (s / 4 * 255) :=
      le_to_double_of_le _ _ 7 (⌊s / 4 * 255⌋ * 2 ^ 45) (by norm_num) hx (by
        push_cast
        rw [mul_assoc]
        norm_num) hfl
    have hhi : to_double (s / 4 * 255) ≤ (⌊s / 4 * 255⌋ : ℚ) + 1 :=
      to_double_le_of_le _ _ 7 ((⌊s / 4 * 255⌋ + 1) * 2 ^ 45) (by norm_num) hx (by
        push_cast
        rw [mul_assoc]
        norm_num) (le_of_lt hlt)
    split_ifs with hup
    · rw [hup]
      exact_mod_cast (Int.floor_intCast (⌊s / 4 * 255⌋ + 1) :
        ⌊((⌊s / 4 * 255⌋ + 1 : ℤ) : ℚ)⌋ = ⌊s / 4 * 255⌋ + 1)
    · exact Int.floor_eq_iff.mpr ⟨hlo, lt_of_le_of_ne hhi hup⟩

/-- The double nearest to `x`, from the binade of `x` and the nearest grid point. -/
theorem to_double_eq_of_near (x : ℚ) (e z : ℤ) (he : -1022 ≤ e) (h1 : 2 ^ e ≤ |x|)
    (h2 : |x| < 2 ^ (e + 1)) (hlo : (z : ℚ) - 1 / 2 < x / 2 ^ (e - 52))
    (hhi : x / 2 ^ (e - 52) < (z : ℚ) + 1 / 2) : to_double x = (z : ℚ) * 2 ^ (e - 52) := by
  unfold to_double quantum
  rw [binade_eq x e he h1 h2, round_half_even_eq _ z hlo hhi]

theorem set_time_max (r : PowerDownDelay) :
    PowerDownDelay.set_time r 4 = some (true, { time := 255 }) := by
  have h1 : to_double ((4 : ℚ) / 4) = 1 := by
    rw [show (4 : ℚ) / 4 = 1 by norm_num]
    exact to_double_exact 1 0 (2 ^ 52) (by norm_num) (by norm_num) (by norm_num)
  have h2 : to_double ((1 : ℚ) * 255) = 255 := by
    rw [one_mul]
    exact to_double_exact 255 7 (255 * 2 ^ 45) (by norm_num) (by norm_num) (by norm_num)
  rw [(set_time_eq r 4 (by norm_num) (by norm_num)).1, h1, h2]
  have : ⌊(255 : ℚ)⌋ = 255 := by
    exact_mod_cast (Int.floor_intCast 255 : ⌊((255 : ℤ) : ℚ)⌋ = 255)
  rw [this]
  rfl

theorem set_time_zero (r : PowerDownDelay) :
    PowerDownDelay.set_time r 0 = some (true, { time := 0 }) := by
  have h0 : to_double (0 : ℚ) = 0 :=
    to_double_exact 0 0 0 (by norm_num) (by norm_num) (by norm_num)
  have h1 : to_double ((0 : ℚ) / 4) = 0 := by
    rw [zero_div]
    exact h0
  have h2 : to_double ((0 : ℚ) * 255) = 0 := by
    rw [zero_mul]
    exact h0
  rw [(set_time_eq r 0 (by norm_num) (by norm_num)).1, h1, h2]
  simp

theorem double_below_first_step :
    to_double (282578800148737 / 18014398509481984)
        = (282578800148737 / 18014398509481984 : ℚ)
      ∧ to_double ((282578800148737 / 18014398509481984 : ℚ) / 4)
        = (282578800148737 / 18014398509481984 : ℚ) / 4
      ∧ to_double ((282578800148737 / 18014398509481984 : ℚ) / 4 * 255) = 1 := by
  refine ⟨?_, ?_, ?_⟩
  · exact to_double_exact _ (-6) 4521260802379792 (by norm_num)
      (by rw [abs_of_nonneg (by norm_num)]; norm_num) (by norm_num)
  · exact to_double_exact _ (-8) 4521260802379792 (by norm_num)
      (by rw [abs_of_nonneg (by norm_num)]; norm_num) (by norm_num)
  · have h := to_double_eq_of_near ((282578800148737 / 18014398509481984 : ℚ) / 4 * 255)
      (-1) (2 ^ 53) (by norm_num)
      (by rw [abs_of_nonneg (by norm_num)]; norm_num)
      (by rw [abs_of_nonneg (by norm_num)]; norm_num)
      (by norm_num) (by norm_num)
    rw [h]
    norm_num

theorem two_pow_eq_grid (e : ℤ) : (2 : ℚ) ^ e = ((2 ^ 52 : ℤ) : ℚ) * 2 ^ (e - 52) := by
  have h : (2 : ℚ) ^ e = 2 ^ (52 : ℤ) * 2 ^ (e - 52) := by
    rw [← zpow_add₀ (by norm_num : (2 : ℚ) ≠ 0)]
    congr 1
    ring
  rw [h]
  norm_num

theorem two_pow_succ_eq_grid (e : ℤ) :
    (2 : ℚ) ^ (e + 1) = ((2 ^ 53 : ℤ) : ℚ) * 2 ^ (e - 52) := by
  have h : (2 : ℚ) ^ (e + 1) = 2 ^ (53 : ℤ) * 2 ^ (e - 52) := by
    rw [← zpow_add₀ (by norm_num : (2 : ℚ) ≠ 0)]
    congr 1
    ring
  rw [h]
  norm_num

theorem round_half_even_le_floor_succ (t : ℚ) : round_half_even t ≤ ⌊t⌋ + 1 := by
  unfold round_half_even
  split_ifs <;> omega

theorem round_half_even_mono (a b : ℚ) (h : a ≤ b) : round_half_even a ≤ round_half_even b := by
  rcases lt_or_eq_of_le (Int.floor_le_floor h) with hlt | heq
  · exact le_trans (round_half_even_le_floor_succ a)
      (le_trans (by omega) (floor_le_round_half_even b))
  · unfold round_half_even
    rw [heq]
    split_ifs <;> first | omega | (exfalso; linarith)

theorem abs_lt_two_pow_binade_succ (x : ℚ) : |x| < 2 ^ (binade x + 1) := by
  unfold binade
  split_ifs with h0
  · rw [h0, abs_zero]
    positivity
  · have h1 : |x| < (2 : ℚ) ^ (Int.log 2 |x| + 1) := by
      exact_mod_cast Int.lt_zpow_succ_log_self (by norm_num : 1 < 2) |x|
    exact lt_of_lt_of_le h1 (zpow_le_zpow_right₀ (by norm_num) (by
      have := le_max_left (Int.log 2 |x|) (-1022)
      omega))

theorem two_pow_binade_le (x : ℚ) (h : -1022 < binade x) : 2 ^ binade x ≤ |x| := by
  unfold binade at h ⊢
  split_ifs with h0
  · rw [if_pos h0] at h
    omega
  · rw [if_neg h0] at h
    have hpos : 0 < |x| := abs_pos.mpr h0
    have hmax : max (Int.log 2 |x|) (-1022) = Int.log 2 |x| := by
      rcases max_cases (Int.log 2 |x|) (-1022) with ⟨h1, -⟩ | ⟨h1, -⟩
      · exact h1
      · omega
    rw [hmax]
    exact_mod_cast Int.zpow_log_le_self (by norm_num : 1 < 2) hpos

theorem binade_mono (a b : ℚ) (ha : 0 < a) (h : a ≤ b) : binade a ≤ binade b := by
  have hb : 0 < b := lt_of_lt_of_le ha h
  unfold binade
  rw [if_neg (ne_of_gt ha), if_neg (ne_of_gt hb), abs_of_pos ha, abs_of_pos hb]
  exact max_le_max (Int.log_mono_right ha h) (le_refl _)

theorem binade_ge_of_le (x : ℚ) (e : ℤ) (h : 2 ^ e ≤ |x|) : e ≤ binade x := by
  have hpos : 0 < |x| := lt_of_lt_of_le (by positivity) h
  have h0 : x ≠ 0 := abs_pos.mp hpos
  have hb := (Int.zpow_le_iff_le_log (by norm_num : 1 < 2) hpos).mp (by exact_mod_cast h)
  unfold binade
  rw [if_neg h0]
  exact le_trans hb (le_max_left _ _)

theorem to_double_zero : to_double 0 = 0 :=
  to_double_exact 0 0 0 (by norm_num) (by norm_num) (by norm_num)

theorem to_double_nonneg (x : ℚ) (h : 0 ≤ x) : 0 ≤ to_double x :=
  le_to_double_of_multiple_le x 0 0 (by simp) h

/-- Rounding to double is monotone on the non-negative numbers. -/
theorem to_double_mono (a b : ℚ) (ha : 0 ≤ a) (h : a ≤ b) : to_double a ≤ to_double b := by
  rcases eq_or_lt_of_le ha with h0 | hpos
  · rw [← h0, to_double_zero]
    exact to_double_nonneg b (le_trans ha h)
  · have hb : 0 < b := lt_of_lt_of_le hpos h
    rcases lt_or_eq_of_le (binade_mono a b hpos h) with hlt | heq
    · have h1 : to_double a ≤ 2 ^ (binade a + 1) := by
        apply to_double_le_of_le_multiple a _ (2 ^ 53)
        · exact two_pow_succ_eq_grid (binade a)
        · have := abs_lt_two_pow_binade_succ a
          rw [abs_of_pos hpos] at this
          exact le_of_lt this
      have h2 : (2 : ℚ) ^ binade b ≤ to_double b := by
        apply le_to_double_of_multiple_le b _ (2 ^ 52)
        · exact two_pow_eq_grid (binade b)
        · have := two_pow_binade_le b (by have := binade_ge a; omega)
          rwa [abs_of_pos hb] at this
      have h3 : (2 : ℚ) ^ (binade a + 1) ≤ 2 ^ binade b :=
        zpow_le_zpow_right₀ (by norm_num) (by omega)
      linarith
    · have hq : quantum a = quantum b := by
        unfold quantum
        rw [heq]
      have hqpos := quantum_pos b
      unfold to_double
      rw [hq]
      have h1 : a / quantum b ≤ b / quantum b := div_le_div_of_nonneg_right h (le_of_lt hqpos)
      have h2 := round_half_even_mono _ _ h1
      exact mul_le_mul_of_nonneg_right (by exact_mod_cast h2) (le_of_lt hqpos)

/-- Rounding a double again changes nothing. -/
theorem to_double_idem (x : ℚ) (h : 0 ≤ x) : to_double (to_double x) = to_double x := by
  have hy0 := to_double_nonneg x h
  have hlt := abs_lt_two_pow_binade_succ x
  rw [abs_of_nonneg h] at hlt
  have htop : to_double x ≤ 2 ^ (binade x + 1) := by
    apply to_double_le_of_le_multiple x _ (2 ^ 53)
    · exact two_pow_succ_eq_grid (binade x)
    · exact le_of_lt hlt
  rcases lt_or_eq_of_le htop with hlt2 | heq
  · exact to_double_exact (to_double x) (binade x) (round_half_even (x / quantum x))
      (binade_ge x) (by rwa [abs_of_nonneg hy0]) rfl
  · apply to_double_exact (to_double x) (binade x + 1) (2 ^ 52)
      (by have := binade_ge x; omega)
    · rw [abs_of_nonneg hy0, heq]
      exact zpow_lt_zpow_right₀ (by norm_num) (by omega)
    · rw [heq]
      exact two_pow_eq_grid (binade x + 1)

/-- Multiplying by 4 commutes with rounding to double (above the subnormal range). -/
theorem to_double_mul_four (x : ℚ) (h : 2 ^ (-1022 : ℤ) ≤ x) :
    to_double (x * 4) = to_double x * 4 := by
  have hpos : 0 < x := lt_of_lt_of_le (by positivity) h
  have h4 : (2 : ℚ) ^ (-1020 : ℤ) ≤ x * 4 := by
    have : (2 : ℚ) ^ (-1020 : ℤ) = 2 ^ (-1022 : ℤ) * 4 := by
      rw [show (-1020 : ℤ) = -1022 + 2 by norm_num, zpow_add₀ (by norm_num : (2 : ℚ) ≠ 0)]
      norm_num
    rw [this]
    linarith
  have hq := quantum_quarter (x * 4) h4
  rw [show x * 4 / 4 = x by ring] at hq
  have hqpos := quantum_pos x
  unfold to_double
  have hq4 : quantum (x * 4) = quantum x * 4 := by linarith
  rw [hq4]
  have : x * 4 / (quantum x * 4) = x / quantum x := by
    field_simp
    ring
  rw [this]
  ring

/-- With a stored value that does not exceed the exact `s / 4 * 255`, `seconds()` does
not exceed `s`. -/
theorem seconds_le_of_le_scaled (s : ℚ) (n : ℕ) (hd : to_double s = s)
    (hq : to_double (s / 4) = s / 4) (hn : (n : ℚ) ≤ s / 4 * 255) :
    PowerDownDelay.seconds { time := n } ≤ s := by
  have hc0 : (0 : ℚ) ≤ (n : ℚ) / 255 := by positivity
  have hc : (n : ℚ) / 255 ≤ s / 4 := by
    rw [div_le_iff₀ (by norm_num)]
    exact hn
  have hg := to_double_mono _ _ hc0 hc
  rw [hq] at hg
  have hg0 := to_double_nonneg _ hc0
  have h4 : to_double ((n : ℚ) / 255) * 4 ≤ s := by linarith
  have := to_double_mono _ _ (by positivity) h4
  rw [hd] at this
  simpa [PowerDownDelay.seconds, PowerDownDelay.max_val, PowerDownDelay.max_time] using this

/-- No multiple of `2 ^ e` lies exactly 128 above 255 times a 53-bit significand. -/
theorem no_tie (k z : ℤ) (e : ℕ) (he1 : 53 ≤ e) (he2 : e ≤ 61) (hz1 : 2 ^ 52 ≤ z)
    (hz2 : z < 2 ^ 53) (hle : k * 2 ^ e - 255 * z ≤ 128) :
    k * 2 ^ e - 255 * z ≤ 127 := by
  interval_cases e <;> omega

/-- When the product `v * 255` of a double `v` rounds up to the integer `k`, the
quotient `k / 255` rounds back to `v`. -/
theorem round_up_exact (v : ℚ) (k : ℕ) (hv : to_double v = v) (hk : k ≤ 255)
    (hk1 : 1 ≤ k) (hlt : v * 255 < k) (hup : to_double (v * 255) = k) :
    to_double ((k : ℚ) / 255) = v := by
  have hkq : (k : ℚ) ≤ 255 := by exact_mod_cast hk
  have hkq1 : (1 : ℚ) ≤ k := by exact_mod_cast hk1
  -- the product is within half a quantum of `k`
  have hv1 : v < 1 := by linarith
  have hxlt : |v * 255| < 2 ^ ((7 : ℤ) + 1) ∨ v * 255 < 0 := by
    rcases le_or_lt 0 (v * 255) with h | h
    · left
      rw [abs_of_nonneg h]
      norm_num
      linarith
    · right
      exact h
  have hvpos : 1 / 510 < v := by
    rcases hxlt with hx | hneg
    · have e := to_double_error_le _ 7 (by norm_num) hx
      rw [hup, abs_le] at e
      norm_num at e
      linarith [e.1, e.2]
    · have hle := to_double_le_of_le_multiple (v * 255) 0 0 (by simp) (le_of_lt hneg)
      rw [hup] at hle
      linarith
  have hv0 : 0 < v := by linarith
  have hb1 : binade v ≤ -1 :=
    binade_le v (-1) (by norm_num) (by
      rw [abs_of_pos hv0]
      norm_num
      exact hv1)
  have hb9 : -9 ≤ binade v :=
    binade_ge_of_le v (-9) (by
      rw [abs_of_pos hv0]
      norm_num
      linarith)
  have hlo := two_pow_binade_le v (by omega)
  have hhi := abs_lt_two_pow_binade_succ v
  rw [abs_of_pos hv0] at hlo hhi
  have hbx : binade (v * 255) ≤ binade v + 8 :=
    binade_le _ _ (by omega) (by
      rw [abs_of_pos (by positivity)]
      have : (2 : ℚ) ^ (binade v + 8 + 1) = 2 ^ (binade v + 1) * 256 := by
        rw [show binade v + 8 + 1 = binade v + 1 + 8 by ring,
          zpow_add₀ (by norm_num : (2 : ℚ) ≠ 0)]
        norm_num
      rw [this]
      linarith)
  have herr := to_double_error (v * 255)
  rw [hup, abs_le] at herr
  have hqx : quantum (v * 255) ≤ 256 * quantum v := by
    unfold quantum
    have : (256 : ℚ) * 2 ^ (binade v - 52) = 2 ^ (binade v + 8 - 52) := by
      rw [show binade v + 8 - 52 = 8 + (binade v - 52) by ring,
        zpow_add₀ (by norm_num : (2 : ℚ) ≠ 0)]
      norm_num
    rw [this]
    exact zpow_le_zpow_right₀ (by norm_num) (by omega)
  -- in units of the quantum of `v`
  obtain ⟨e, he⟩ : ∃ e : ℕ, (e : ℤ) = 52 - binade v := ⟨(52 - binade v).toNat, by omega⟩
  have hqQ : quantum v * (2 : ℚ) ^ e = 1 := by
    unfold quantum
    rw [← zpow_natCast, he, ← zpow_add₀ (by norm_num : (2 : ℚ) ≠ 0)]
    simp
  have hQpos : (0 : ℚ) < 2 ^ e := by positivity
  have hqpos := quantum_pos v
  have hq : quantum v = 1 / 2 ^ e := by
    field_simp
    linarith
  have hz : v = (round_half_even (v / quantum v) : ℚ) * quantum v := by
    have := hv
    unfold to_double at this
    exact this.symm
  generalize round_half_even (v / quantum v) = z at hz
  have hvz : v * 2 ^ e = z := by
    rw [hz, mul_assoc, hqQ, mul_one]
  have h52 : (2 : ℚ) ^ binade v * 2 ^ e = 2 ^ 52 := by
    rw [← zpow_natCast (2 : ℚ) e, he, ← zpow_add₀ (by norm_num : (2 : ℚ) ≠ 0),
      show binade v + (52 - binade v) = 52 by ring]
    norm_num
  have h53 : (2 : ℚ) ^ (binade v + 1) * 2 ^ e = 2 ^ 53 := by
    rw [← zpow_natCast (2 : ℚ) e, he, ← zpow_add₀ (by norm_num : (2 : ℚ) ≠ 0),
      show binade v + 1 + (52 - binade v) = 53 by ring]
    norm_num
  have hz1 : (2 : ℤ) ^ 52 ≤ z := by
    have : (2 : ℚ) ^ 52 ≤ z := by
      rw [← h52, ← hvz]
      exact mul_le_mul_of_nonneg_right hlo (le_of_lt hQpos)
    exact_mod_cast this
  have hz2 : z < (2 : ℤ) ^ 53 := by
    have : (z : ℚ) < 2 ^ 53 := by
      rw [← h53, ← hvz]
      exact mul_lt_mul_of_pos_right hhi hQpos
    exact_mod_cast this
  have hJ1 : 0 < (k : ℤ) * 2 ^ e - 255 * z := by
    have : (0 : ℚ) < (k : ℚ) * 2 ^ e - 255 * z := by
      rw [← hvz]
      nlinarith
    exact_mod_cast this
  have hJ2 : (k : ℤ) * 2 ^ e - 255 * z ≤ 128 := by
    have h1 : (k : ℚ) - v * 255 ≤ 128 * quantum v := by linarith [herr.1, herr.2]
    have : (k : ℚ) * 2 ^ e - 255 * z ≤ 128 := by
      rw [← hvz]
      have h2 := mul_le_mul_of_nonneg_right h1 (le_of_lt hQpos)
      rw [mul_assoc, hqQ] at h2
      linarith
    exact_mod_cast this
  have hJ := no_tie k z e (by omega) (by omega) hz1 hz2 hJ2
  have hJq : (k : ℚ) * 2 ^ e - 255 * z ≤ 127 := by exact_mod_cast hJ
  have hJq1 : (0 : ℚ) < (k : ℚ) * 2 ^ e - 255 * z := by exact_mod_cast hJ1
  have hz2q : (z : ℚ) + 1 ≤ 2 ^ 53 := by exact_mod_cast hz2
  have hdiv : (k : ℚ) / 255 / 2 ^ (binade v - 52) = (k : ℚ) * 2 ^ e / 255 := by
    have : (2 : ℚ) ^ (binade v - 52) = quantum v := rfl
    rw [this, hq]
    field_simp
  have hnear := to_double_eq_of_near ((k : ℚ) / 255) (binade v) z (by omega)
    (by
      rw [abs_of_pos (by positivity)]
      linarith)
    (by
      rw [abs_of_pos (by positivity)]
      have : (k : ℚ) / 255 * 2 ^ e < 2 ^ (binade v + 1) * 2 ^ e := by
        rw [h53]
        linarith
      exact lt_of_mul_lt_mul_right this (le_of_lt hQpos))
    (by
      rw [hdiv]
      linarith)
    (by
      rw [hdiv]
      linarith)
  rw [hnear]
  exact hz.symm

/-- A grid value strictly above the rounded `x` lies at least half a quantum above
`x`. -/
theorem half_quantum_gap (x c : ℚ) (w : ℤ) (hc : c = (w : ℚ) * quantum x)
    (h : to_double x < c) : x ≤ c - quantum x / 2 := by
  have hq := quantum_pos x
  have herr := to_double_error x
  rw [abs_le] at herr
  have h1 : (round_half_even (x / quantum x) : ℚ) * quantum x < (w : ℚ) * quantum x := by
    rw [← hc]
    exact h
  have h2 : (round_half_even (x / quantum x) : ℚ) < (w : ℚ) :=
    lt_of_mul_lt_mul_right h1 (le_of_lt hq)
  have h3 : round_half_even (x / quantum x) + 1 ≤ w := by
    have : round_half_even (x / quantum x) < w := by exact_mod_cast h2
    omega
  have h4 : ((round_half_even (x / quantum x) : ℚ) + 1) * quantum x ≤ (w : ℚ) * quantum x :=
    mul_le_mul_of_nonneg_right (by exact_mod_cast h3) (le_of_lt hq)
  have h5 : to_double x + quantum x ≤ c := by
    rw [hc]
    unfold to_double
    linarith
  linarith [herr.1]

theorem binary_range (n : ℕ) (h1 : 1 ≤ n) (h254 : n ≤ 254) :
    ∃ β : ℤ, 0 ≤ β ∧ β ≤ 7 ∧ (2 : ℚ) ^ β ≤ n ∧ (n : ℚ) / 255 < 2 ^ (β - 7) := by
  have hcases : n < 2 ∨ (2 ≤ n ∧ n < 4) ∨ (4 ≤ n ∧ n < 8) ∨ (8 ≤ n ∧ n < 16)
      ∨ (16 ≤ n ∧ n < 32) ∨ (32 ≤ n ∧ n < 64) ∨ (64 ≤ n ∧ n < 128) ∨ 128 ≤ n := by omega
  have hq1 : (1 : ℚ) ≤ n := by exact_mod_cast h1
  have hq254 : (n : ℚ) ≤ 254 := by exact_mod_cast h254
  rcases hcases with h | ⟨ha, hb⟩ | ⟨ha, hb⟩ | ⟨ha, hb⟩ | ⟨ha, hb⟩ | ⟨ha, hb⟩ | ⟨ha, hb⟩ | ha
  · have hb2 : (n : ℚ) ≤ 1 := by exact_mod_cast (by omega : n ≤ 1)
    exact ⟨0, by norm_num, by norm_num, by norm_num; omega, by norm_num; linarith⟩
  · have ha2 : (2 : ℚ) ≤ n := by exact_mod_cast ha
    have hb2 : (n : ℚ) ≤ 3 := by exact_mod_cast (by omega : n ≤ 3)
    exact ⟨1, by norm_num, by norm_num, by norm_num; omega, by norm_num; linarith⟩
  · have ha2 : (4 : ℚ) ≤ n := by exact_mod_cast ha
    have hb2 : (n : ℚ) ≤ 7 := by exact_mod_cast (by omega : n ≤ 7)
    exact ⟨2, by norm_num, by norm_num, by norm_num; omega, by norm_num; linarith⟩
  · have ha2 : (8 : ℚ) ≤ n := by exact_mod_cast ha
    have hb2 : (n : ℚ) ≤ 15 := by exact_mod_cast (by omega : n ≤ 15)
    exact ⟨3, by norm_num, by norm_num, by norm_num; omega, by norm_num; linarith⟩
  · have ha2 : (16 : ℚ) ≤ n := by exact_mod_cast ha
    have hb2 : (n : ℚ) ≤ 31 := by exact_mod_cast (by omega : n ≤ 31)
    exact ⟨4, by norm_num, by norm_num, by norm_num; omega, by norm_num; linarith⟩
  · have ha2 : (32 : ℚ) ≤ n := by exact_mod_cast ha
    have hb2 : (n : ℚ) ≤ 63 := by exact_mod_cast (by omega : n ≤ 63)
    exact ⟨5, by norm_num, by norm_num, by norm_num; omega, by norm_num; linarith⟩
  · have ha2 : (64 : ℚ) ≤ n := by exact_mod_cast ha
    have hb2 : (n : ℚ) ≤ 127 := by exact_mod_cast (by omega : n ≤ 127)
    exact ⟨6, by norm_num, by norm_num, by norm_num; omega, by norm_num; linarith⟩
  · have ha2 : (128 : ℚ) ≤ n := by exact_mod_cast ha
    exact ⟨7, by norm_num, by norm_num, by norm_num; omega, by norm_num; linarith⟩

/-- With the floor `n` of the exact `s / 4 * 255` stored, `seconds()` is more than
`s - 4/255`, provided the exact value does not round up to `n + 1`. -/
theorem seconds_gt_of_floor (s : ℚ) (n : ℕ) (h0 : 0 ≤ s) (h4 : s ≤ 4)
    (hn : (n : ℚ) ≤ s / 4 * 255) (hlt : s / 4 * 255 < n + 1)
    (hnup : to_double (s / 4 * 255) ≠ n + 1) :
    s - 4 / 255 < PowerDownDelay.seconds { time := n } := by
  have hx0 : (0 : ℚ) ≤ s / 4 * 255 := by positivity
  have hn255 : n ≤ 255 := by
    have : (n : ℚ) ≤ 255 := by linarith
    exact_mod_cast this
  rcases Nat.eq_zero_or_pos n with hz | hpos
  · subst hz
    have : PowerDownDelay.seconds { time := 0 } = 0 := by
      simp [PowerDownDelay.seconds, to_double_zero]
    rw [this]
    norm_num at hlt
    linarith
  rcases Nat.lt_or_ge n 255 with hlt255 | hge
  · have hn1 : (1 : ℚ) ≤ n := by exact_mod_cast hpos
    have hn254 : (n : ℚ) ≤ 254 := by exact_mod_cast (by omega : n ≤ 254)
    obtain ⟨β, hβ0, hβ7, hβlo, hβhi⟩ := binary_range n hpos (by omega)
    have hx7 : |s / 4 * 255| < 2 ^ ((7 : ℤ) + 1) := by
      rw [abs_of_nonneg hx0]
      norm_num
      linarith
    obtain ⟨W, hW⟩ := grid_multiple (s / 4 * 255) 7 (((n : ℤ) + 1) * 2 ^ 45) (by norm_num) hx7
    have hc : (n : ℚ) + 1 = (W : ℚ) * quantum (s / 4 * 255) := by
      rw [← hW]
      push_cast
      rw [mul_assoc]
      norm_num
    have hle := to_double_le_of_le_multiple _ _ W hc (le_of_lt hlt)
    have hgap := half_quantum_gap _ _ W hc (lt_of_le_of_ne hle hnup)
    have hbx : β ≤ binade (s / 4 * 255) :=
      binade_ge_of_le _ β (by
        rw [abs_of_nonneg hx0]
        linarith)
    have hqx : (2 : ℚ) ^ (β - 52) ≤ quantum (s / 4 * 255) := by
      unfold quantum
      exact zpow_le_zpow_right₀ (by norm_num) (by omega)
    have hc0 : (0 : ℚ) ≤ (n : ℚ) / 255 := by positivity
    have e1 := to_double_error_le ((n : ℚ) / 255) (β - 8) (by omega) (by
      rw [abs_of_nonneg hc0, show β - 8 + 1 = β - 7 by ring]
      exact hβhi)
    rw [abs_le] at e1
    have hP : (2 : ℚ) ^ (β - 52) = 512 * 2 ^ (β - 8 - 53) := by
      rw [show β - 52 = 9 + (β - 8 - 53) by ring, zpow_add₀ (by norm_num : (2 : ℚ) ≠ 0)]
      norm_num
    have hPpos : (0 : ℚ) < 2 ^ (β - 8 - 53) := by positivity
    have hG : s / 4 - 1 / 255 < to_double ((n : ℚ) / 255) := by
      linarith [e1.1]
    have hx1 : |(n : ℚ) / 255| < 2 ^ ((0 : ℤ) + 1) := by
      rw [abs_of_nonneg hc0]
      norm_num
      linarith
    have hG256 : 1 / 256 ≤ to_double ((n : ℚ) / 255) :=
      le_to_double_of_le _ _ 0 (2 ^ 44) (by norm_num) hx1 (by norm_num) (by linarith)
    have hsmall : (2 : ℚ) ^ (-1022 : ℤ) ≤ 2 ^ (-8 : ℤ) :=
      zpow_le_zpow_right₀ (by norm_num) (by norm_num)
    have h8 : (2 : ℚ) ^ (-8 : ℤ) = 1 / 256 := by norm_num
    have hGn : (2 : ℚ) ^ (-1022 : ℤ) ≤ to_double ((n : ℚ) / 255) :=
      le_trans hsmall (le_trans (le_of_eq h8) hG256)
    have hsec : PowerDownDelay.seconds { time := n } = to_double ((n : ℚ) / 255) * 4 := by
      simp only [PowerDownDelay.seconds, PowerDownDelay.max_val, PowerDownDelay.max_time]
      norm_num
      rw [to_double_mul_four _ hGn, to_double_idem _ hc0]
    rw [hsec]
    linarith
  · have hn : n = 255 := by omega
    subst hn
    have h1 : to_double 1 = 1 :=
      to_double_exact 1 0 (2 ^ 52) (by norm_num) (by norm_num) (by norm_num)
    have h2 : to_double 4 = 4 :=
      to_double_exact 4 2 (2 ^ 52) (by norm_num) (by norm_num) (by norm_num)
    have hsec : PowerDownDelay.seconds { time := 255 } = 4 := by
      simp only [PowerDownDelay.seconds, PowerDownDelay.max_val, PowerDownDelay.max_time]
      norm_num
      rw [h1, one_mul, h2]
    rw [hsec]
    linarith

/-- After an accepted `set_time(s)` with a double `s`, `seconds()` is at most `s` and
less than `4/255` below it. -/
theorem seconds_after_set_time_double (s : ℚ) (hd : to_double s = s) (h0 : 0 ≤ s)
    (h4 : s ≤ 4) :
    PowerDownDelay.seconds { time := ⌊to_double (to_double (s / 4) * 255)⌋.toNat } ≤ s
      ∧ s - PowerDownDelay.seconds
            { time := ⌊to_double (to_double (s / 4) * 255)⌋.toNat } < 4 / 255 := by
  have hx0 : (0 : ℚ) ≤ s / 4 * 255 := by positivity
  have hfloor := scaled_floor s hd h0 h4
  obtain ⟨n, hn⟩ : ∃ n : ℕ, (n : ℤ) = ⌊s / 4 * 255⌋ :=
    ⟨⌊s / 4 * 255⌋.toNat, Int.toNat_of_nonneg (Int.floor_nonneg.mpr hx0)⟩
  have hnq : (n : ℚ) = (⌊s / 4 * 255⌋ : ℚ) := by exact_mod_cast congrArg (Int.cast : ℤ → ℚ) hn
  have hle : (n : ℚ) ≤ s / 4 * 255 := by
    rw [hnq]
    exact Int.floor_le _
  have hlt : s / 4 * 255 < (n : ℚ) + 1 := by
    rw [hnq]
    exact Int.lt_floor_add_one _
  rw [← hn] at hfloor
  simp only [Int.cast_natCast] at hfloor
  rcases lt_or_le s (2 ^ (-1020 : ℤ)) with hs | hs
  · have hs12 := small_lt s hs
    have hn0 : n = 0 := by
      have : (n : ℚ) < 1 := by linarith
      have : n < 1 := by exact_mod_cast this
      omega
    subst hn0
    have hp : |s / 4 * 255| < 2 ^ ((-1 : ℤ) + 1) := by
      rw [abs_of_nonneg hx0]
      norm_num
      linarith
    have hfl : to_double (s / 4 * 255) ≤ 1 / 2 :=
      to_double_le_of_le _ (1 / 2) (-1) (2 ^ 52) (by norm_num) hp (by norm_num) (by linarith)
    rw [if_neg (by
      norm_num
      linarith)] at hfloor
    rw [hfloor]
    have : PowerDownDelay.seconds { time := ((0 : ℕ) : ℤ).toNat } = 0 := by
      simp [PowerDownDelay.seconds, to_double_zero]
    rw [this]
    constructor <;> linarith
  · have hq := quarter_exact s hd hs
    by_cases hup : to_double (s / 4 * 255) = (n : ℚ) + 1
    · rw [if_pos hup] at hfloor
      have ht : ⌊to_double (to_double (s / 4) * 255)⌋.toNat = n + 1 := by
        rw [hfloor]
        omega
      rw [ht]
      obtain ⟨-, hy255⟩ := scaled_bounds (s / 4 * 255) hx0 (by linarith)
      have hk : n + 1 ≤ 255 := by
        have : ((n + 1 : ℕ) : ℚ) ≤ 255 := by
          push_cast
          linarith
        exact_mod_cast this
      have hback := round_up_exact (s / 4) (n + 1) hq hk (by omega)
        (by push_cast; exact hlt) (by push_cast; exact hup)
      have hsec : PowerDownDelay.seconds { time := n + 1 } = s := by
        simp only [PowerDownDelay.seconds, PowerDownDelay.max_val, PowerDownDelay.max_time]
        norm_num
        push_cast at hback
        rw [hback, show s / 4 * 4 = s by ring, hd]
      rw [hsec]
      constructor
      · exact le_refl _
      · norm_num
    · rw [if_neg hup] at hfloor
      have ht : ⌊to_double (to_double (s / 4) * 255)⌋.toNat = n := by
        rw [hfloor]
        omega
      rw [ht]
      have hU := seconds_le_of_le_scaled s n hd hq hle
      have hL := seconds_gt_of_floor s n h0 h4 hle hlt hup
      constructor
      · exact hU
      · linarith

theorem scaled_one : ⌊to_double (to_double ((1 : ℚ) / 4) * 255)⌋.toNat = 63 := by
  have h1 : to_double ((1 : ℚ) / 4) = 1 / 4 :=
    to_double_exact _ (-2) (2 ^ 52) (by norm_num)
      (by rw [abs_of_nonneg (by norm_num)]; norm_num) (by norm_num)
  have h2 : to_double ((1 : ℚ) / 4 * 255) = 1 / 4 * 255 :=
    to_double_exact _ 5 (255 * 2 ^ 45) (by norm_num)
      (by rw [abs_of_nonneg (by norm_num)]; norm_num) (by norm_num)
  have h3 : ⌊(1 : ℚ) / 4 * 255⌋ = 63 := Int.floor_eq_iff.mpr ⟨by norm_num, by norm_num⟩
  rw [h1, h2, h3]
  rfl

/-- C31 as stated fails: `set_time` does not always store the floor of the exact
`s / 4 * 255`. The double `0x1.0101010101010p-6`, which is
`282578800148737 / 2 ^ 54`, the double just below 4/255, lies in `[0, 4]`; the exact
scaled value is `1 - 2 ^ -56`, whose floor is 0, but the double product rounds to 1.0
and `set_time` stores 1. -/
theorem set_time_stores_above_floor :
    (0 : ℚ) ≤ 282578800148737 / 18014398509481984
      ∧ (282578800148737 / 18014398509481984 : ℚ) ≤ 4
      ∧ to_double (282578800148737 / 18014398509481984)
        = (282578800148737 / 18014398509481984 : ℚ)
      ∧ (282578800148737 / 18014398509481984 : ℚ) / 4 * 255 = 1 - 1 / 2 ^ 56
      ∧ ⌊(282578800148737 / 18014398509481984 : ℚ) / 4 * 255⌋ = 0
      ∧ PowerDownDelay.set_time {} (282578800148737 / 18014398509481984)
        = some (true, { time := 1 }) := by
  obtain ⟨h1, h2, h3⟩ := double_below_first_step
  refine ⟨by norm_num, by norm_num, h1, by norm_num, ?_, ?_⟩
  · exact Int.floor_eq_iff.mpr ⟨by norm_num, by norm_num⟩
  · rw [(set_time_eq {} _ (by norm_num) (by norm_num)).1, h2, h3]
    have : ⌊(1 : ℚ)⌋ = 1 := Int.floor_one
    rw [this]
    rfl

/-- C31, amended. `set_time(s)` returns false exactly when `s > 4`, and then leaves the
struct unchanged. For `0 ≤ s ≤ 4` it returns true and stores the integer part of the
double product `to_double (to_double (s / 4) * 255)`, a value in 0..255. When `s` is a
double, the stored value is the floor of the exact `s / 4 * 255`, or that floor plus
one, the latter exactly when the exact value rounds to that next integer as a double;
and `seconds()` afterwards is at most `s` and less than `4/255` below `s`.
`set_time(4)` stores 255 and `set_time(0)` stores 0. -/
theorem set_time_stores_rounded_scale (r : PowerDownDelay) (s : ℚ) :
    (4 < s → PowerDownDelay.set_time r s = some (false, r))
      ∧ ((∃ r2 : PowerDownDelay, PowerDownDelay.set_time r s = some (false, r2)) ↔ 4 < s)
      ∧ (0 ≤ s → s ≤ 4 →
          PowerDownDelay.set_time r s
              = some (true, { time := ⌊to_double (to_double (s / 4) * 255)⌋.toNat })
            ∧ ⌊to_double (to_double (s / 4) * 255)⌋.toNat ≤ 255)
      ∧ (to_double s = s → 0 ≤ s → s ≤ 4 →
          (⌊to_double (to_double (s / 4) * 255)⌋
              = if to_double (s / 4 * 255) = (⌊s / 4 * 255⌋ : ℚ) + 1
                then ⌊s / 4 * 255⌋ + 1 else ⌊s / 4 * 255⌋)
            ∧ PowerDownDelay.seconds
                  { time := ⌊to_double (to_double (s / 4) * 255)⌋.toNat } ≤ s
            ∧ s - PowerDownDelay.seconds
                    { time := ⌊to_double (to_double (s / 4) * 255)⌋.toNat }
                < 4 / 255)
      ∧ PowerDownDelay.set_time r 4 = some (true, { time := 255 })
      ∧ PowerDownDelay.set_time r 0 = some (true, { time := 0 }) := by
  have hrej : 4 < s → PowerDownDelay.set_time r s = some (false, r) := by
    intro h
    unfold PowerDownDelay.set_time
    rw [if_pos (by simpa [PowerDownDelay.max_time] using h)]
  refine ⟨hrej, ⟨?_, fun h => ⟨r, hrej h⟩⟩, ?_, ?_, set_time_max r, set_time_zero r⟩
  · rintro ⟨r2, h⟩
    by_contra hle
    unfold PowerDownDelay.set_time at h
    rw [if_neg (by simpa [PowerDownDelay.max_time] using hle)] at h
    split at h <;> simp at h
  · intro h0 h4
    exact set_time_eq r s h0 h4
  · intro hd h0 h4
    obtain ⟨hup, hlow⟩ := seconds_after_set_time_double s hd h0 h4
    exact ⟨scaled_floor s hd h0 h4, hup, hlow⟩

/-- Witness for C31: `set_time(1.0)` on a default struct returns true and stores 63, the
floor of 63.75, after which `seconds()` is at most 1 and less than 4/255 below 1;
`set_time(5.0)` on a struct holding 7 returns false and leaves the 7. -/
theorem set_time_stores_rounded_scale_witness :
    (0 : ℚ) ≤ 1 ∧ (1 : ℚ) ≤ 4 ∧ to_double 1 = 1 ∧ (4 : ℚ) < 5
      ∧ PowerDownDelay.set_time {} 1 = some (true, { time := 63 })
      ∧ PowerDownDelay.seconds { time := 63 } ≤ 1
      ∧ 1 - PowerDownDelay.seconds { time := 63 } < 4 / 255
      ∧ PowerDownDelay.set_time { time := 7 } 5 = some (false, { time := 7 }) :=
  have hd : to_double 1 = 1 :=
    to_double_exact 1 0 (2 ^ 52) (by norm_num) (by norm_num) (by norm_num)
  ⟨by norm_num, by norm_num, hd, by norm_num,
    scaled_one ▸ ((set_time_stores_rounded_scale {} 1).2.2.1 (by norm_num) (by norm_num)).1,
    scaled_one ▸
      ((set_time_stores_rounded_scale {} 1).2.2.2.1 hd (by norm_num) (by norm_num)).2.1,
    scaled_one ▸
      ((set_time_stores_rounded_scale {} 1).2.2.2.1 hd (by norm_num) (by norm_num)).2.2,
    (set_time_stores_rounded_scale { time := 7 } 5).1 (by norm_num)⟩

end ThermocyclerRefresh
